import Mathlib

/-! Sprockit synthesizer core: shallow embedding and verified properties.

The firmware targets an 8-bit AVR: `unsigned char` is 8 bits, `int` and
`unsigned int` are 16 bits.  Machine integers are embedded as `Nat`/`Int`
with explicit reduction modulo `2^8` / `2^16` wherever the C code could wrap.
-/

namespace Sprockit

/-! ## Machine-integer helpers -/

/-- Truncation of a value to `unsigned char`. -/
def u8 (x : Nat) : Nat := x % 256

/-- Truncation of a value to a 16-bit `unsigned int`. -/
def u16 (x : Nat) : Nat := x % 65536

/-- Reinterpretation of a 16-bit pattern as a `signed int` (two's complement). -/
def toS16 (x : Nat) : Int :=
  if x % 65536 < 32768 then ((x % 65536 : Nat) : Int) else ((x % 65536 : Nat) : Int) - 65536

/-- Conversion of a `signed int` to the 16-bit `unsigned int` with the same bit pattern. -/
def ofS16 (x : Int) : Nat := (x % 65536).toNat

/-! ## amp_adsr.h -/

def NUMBER_OF_ADSR_STEPS : Nat := 255
def ADSR_MIN_VALUE : Nat := 47
def SUSTAIN_MIN_VALUE : Nat := 47

def ATTACK : Nat := 0
def DECAY : Nat := 1
def SUSTAIN : Nat := 2
def RELEASE : Nat := 3

/-! ## amp_adsr.c -/

/-- The variables `adsr()` owns or writes: its four file-level statics, the
envelope multiplier in the global setting structure, and the two global flags
it assigns (`g_uc_adsr_midi_sync_flag`, `g_uc_note_on_flag`). -/
structure AdsrState where
  uc_adsr_timer : Nat
  uc_state : Nat
  uc_sustain_level : Nat
  uc_velocity : Nat
  uc_adsr_multiplier : Nat
  g_uc_adsr_midi_sync_flag : Nat
  g_uc_note_on_flag : Nat
deriving DecidableEq

/-- The variables `adsr()` only reads: the key-press flag, the note velocity
and the four envelope parameters of `auc_synth_params`. -/
structure AdsrEnv where
  g_uc_key_press_flag : Nat
  uc_note_velocity : Nat
  ADSR_ATTACK : Nat
  ADSR_DECAY : Nat
  ADSR_SUSTAIN : Nat
  ADSR_RELEASE : Nat
deriving DecidableEq

/-- All fields of the state hold `unsigned char` values. -/
def AdsrState.wf (s : AdsrState) : Prop :=
  s.uc_adsr_timer < 256 ∧ s.uc_state < 256 ∧ s.uc_sustain_level < 256 ∧
  s.uc_velocity < 256 ∧ s.uc_adsr_multiplier < 256 ∧
  s.g_uc_adsr_midi_sync_flag < 256 ∧ s.g_uc_note_on_flag < 256

/-- All fields of the environment hold `unsigned char` values. -/
def AdsrEnv.wf (e : AdsrEnv) : Prop :=
  e.g_uc_key_press_flag < 256 ∧ e.uc_note_velocity < 256 ∧ e.ADSR_ATTACK < 256 ∧
  e.ADSR_DECAY < 256 ∧ e.ADSR_SUSTAIN < 256 ∧ e.ADSR_RELEASE < 256

instance (s : AdsrState) : Decidable s.wf := by unfold AdsrState.wf; infer_instance
instance (e : AdsrEnv) : Decidable e.wf := by unfold AdsrEnv.wf; infer_instance

/-- The `if(g_uc_adsr_midi_sync_flag == 1)` block at the top of `adsr()`. -/
def adsr_sync (e : AdsrEnv) (s : AdsrState) : AdsrState :=
  if s.g_uc_adsr_midi_sync_flag = 1 then
    let un_velocity_calc := u16 (e.uc_note_velocity <<< 1)
    let un_velocity_calc := u16 (un_velocity_calc * (NUMBER_OF_ADSR_STEPS - ADSR_MIN_VALUE))
    let uc_velocity := u8 (un_velocity_calc >>> 8)
    { s with
      uc_state := ATTACK
      g_uc_adsr_midi_sync_flag := 0
      uc_velocity := u8 (uc_velocity + ADSR_MIN_VALUE) }
  else s

/-- The `if(0 == g_uc_key_press_flag)` block of `adsr()`. -/
def adsr_key (e : AdsrEnv) (s : AdsrState) : AdsrState :=
  if 0 = e.g_uc_key_press_flag then { s with uc_state := RELEASE }
  else { s with g_uc_note_on_flag := 1 }

/-- The `case ATTACK:` arm of the switch in `adsr()`. -/
def adsr_attack (e : AdsrEnv) (s : AdsrState) : AdsrState :=
  if s.uc_adsr_multiplier < s.uc_velocity then
    if e.ADSR_ATTACK < 192 then
      { s with
        uc_adsr_timer := e.ADSR_ATTACK >>> 2
        uc_adsr_multiplier :=
          if s.uc_adsr_multiplier < 253 then u8 (s.uc_adsr_multiplier + 2)
          else NUMBER_OF_ADSR_STEPS }
    else
      { s with
        uc_adsr_timer := e.ADSR_ATTACK >>> 1
        uc_adsr_multiplier :=
          if s.uc_adsr_multiplier < 253 then u8 (s.uc_adsr_multiplier + 1)
          else NUMBER_OF_ADSR_STEPS }
  else
    let un_sustain_calc := u16 (s.uc_velocity * e.ADSR_SUSTAIN)
    let un_sustain_calc := un_sustain_calc >>> 8
    let un_sustain_calc := u16 (un_sustain_calc * (NUMBER_OF_ADSR_STEPS - SUSTAIN_MIN_VALUE))
    let un_sustain_calc := un_sustain_calc >>> 8
    { s with
      uc_state := DECAY
      uc_adsr_timer := e.ADSR_DECAY >>> 2
      uc_sustain_level := u8 (un_sustain_calc + SUSTAIN_MIN_VALUE) }

/-- The `case DECAY:` arm of the switch in `adsr()`. -/
def adsr_decay (e : AdsrEnv) (s : AdsrState) : AdsrState :=
  if s.uc_adsr_multiplier > s.uc_sustain_level then
    let m := u8 (s.uc_adsr_multiplier + 255)
    let uc_adsr_timer := e.ADSR_DECAY
    let m :=
      if uc_adsr_timer < 48 then
        (if m > 4 then m - 4 else 0)
      else if uc_adsr_timer < 96 then
        (if m > 2 then m - 2 else 0)
      else u8 (m + 255)
    { s with uc_adsr_timer := uc_adsr_timer, uc_adsr_multiplier := m }
  else
    { s with uc_state := SUSTAIN }

/-- The `case RELEASE:` arm of the switch in `adsr()`. -/
def adsr_release (e : AdsrEnv) (s : AdsrState) : AdsrState :=
  if 1 = e.g_uc_key_press_flag then
    { s with uc_state := ATTACK, uc_adsr_timer := e.ADSR_ATTACK }
  else
    if s.uc_adsr_multiplier > ADSR_MIN_VALUE then
      { s with
        uc_adsr_multiplier := u8 (s.uc_adsr_multiplier + 255)
        uc_adsr_timer := e.ADSR_RELEASE >>> 2 }
    else
      { s with
        uc_state := ATTACK
        uc_adsr_timer := e.ADSR_ATTACK
        g_uc_note_on_flag := 0 }

/-- The timer test and the `switch(uc_state)` of `adsr()`. -/
def adsr_timer (e : AdsrEnv) (s : AdsrState) : AdsrState :=
  if s.uc_adsr_timer > 0 then
    { s with uc_adsr_timer := s.uc_adsr_timer - 1 }
  else if s.uc_state = ATTACK then adsr_attack e s
  else if s.uc_state = DECAY then adsr_decay e s
  else if s.uc_state = SUSTAIN then s
  else if s.uc_state = RELEASE then adsr_release e s
  else s

/-- One call of `adsr()`. -/
def adsr (e : AdsrEnv) (s : AdsrState) : AdsrState :=
  adsr_timer e (adsr_key e (adsr_sync e s))

/-- `set_amplitude()`: the value written to the PWM register `OCR1AL`, given
the multiplier and `auc_synth_params[AMPLITUDE]`. -/
def set_amplitude (uc_adsr_multiplier AMPLITUDE : Nat) : Nat :=
  let un_amplitude_temp := u16 (uc_adsr_multiplier * AMPLITUDE)
  let un_amplitude_temp := un_amplitude_temp >>> 8
  let un_amplitude_temp := if un_amplitude_temp < ADSR_MIN_VALUE then ADSR_MIN_VALUE else un_amplitude_temp
  u8 un_amplitude_temp

/-- The envelope variables after `sys_init` and the initialisation in `main()`:
the statics of `amp_adsr.c` at their initialisers, the multiplier at
`ADSR_MIN_VALUE`, flags cleared. -/
def adsr_boot : AdsrState :=
  { uc_adsr_timer := 0
    uc_state := 0
    uc_sustain_level := 127
    uc_velocity := 127
    uc_adsr_multiplier := ADSR_MIN_VALUE
    g_uc_adsr_midi_sync_flag := 0
    g_uc_note_on_flag := 0 }

/-- What the rest of the firmware does between two slow ticks, as far as the
envelope can observe it: whether a note-on raised `g_uc_adsr_midi_sync_flag`,
and the values `adsr()` will read. -/
structure AdsrTick where
  sync : Bool
  env : AdsrEnv
deriving DecidableEq

/-- One slow tick: the note-on handler may raise the sync flag, then `adsr()` runs. -/
def adsr_tick (s : AdsrState) (t : AdsrTick) : AdsrState :=
  adsr t.env (if t.sync then { s with g_uc_adsr_midi_sync_flag := 1 } else s)

/-- A sequence of slow ticks. -/
def adsr_run (s : AdsrState) (ts : List AdsrTick) : AdsrState :=
  ts.foldl adsr_tick s

/-! ## Derived quantities of the envelope -/

/-- The sustain level `adsr()` stores on entering Decay, as a function of the
velocity-scaled ceiling `uc_velocity` and `auc_synth_params[ADSR_SUSTAIN]`. -/
def sustain_level_of (v k : Nat) : Nat :=
  u8 (u16 (u16 (v * k) >>> 8 * (NUMBER_OF_ADSR_STEPS - SUSTAIN_MIN_VALUE)) >>> 8 + SUSTAIN_MIN_VALUE)

/-- Invariant of the envelope variables along every run from boot. -/
def AdsrInv (s : AdsrState) : Prop :=
  s.uc_adsr_multiplier < 256 ∧ 43 ≤ s.uc_adsr_multiplier ∧ 47 ≤ s.uc_sustain_level

/-- Invariant relating Sustain to the stored sustain level: the sync flag is
not pending and, in Sustain, the multiplier does not exceed the level. -/
def SustainInv (s : AdsrState) : Prop :=
  s.g_uc_adsr_midi_sync_flag ≠ 1 ∧
  (s.uc_state = SUSTAIN → s.uc_adsr_multiplier ≤ s.uc_sustain_level)

/-- The key is released at this tick. -/
def AdsrTick.released (t : AdsrTick) : Prop :=
  t.env.g_uc_key_press_flag = 0 ∧ t.env.wf

/-- The key is held and no note-on arrives at this tick. -/
def AdsrTick.held (t : AdsrTick) : Prop :=
  t.sync = false ∧ t.env.g_uc_key_press_flag ≠ 0

/-- Upper bound on the number of slow ticks a release still needs: the
remaining timer, then 64 ticks per multiplier unit above the floor, then the
tick that ends the note. -/
def release_budget (s : AdsrState) : Nat :=
  s.uc_adsr_timer + 64 * (s.uc_adsr_multiplier - ADSR_MIN_VALUE) + 1

/-- Four ticks from boot: note-on with velocity 1, all envelope knobs at 0, key held. -/
def trace_v1 : List AdsrTick :=
  [⟨true, ⟨1, 1, 0, 0, 0, 0⟩⟩, ⟨false, ⟨1, 1, 0, 0, 0, 0⟩⟩,
   ⟨false, ⟨1, 1, 0, 0, 0, 0⟩⟩, ⟨false, ⟨1, 1, 0, 0, 0, 0⟩⟩]

instance (t : AdsrTick) : Decidable t.released := by unfold AdsrTick.released; infer_instance
instance (t : AdsrTick) : Decidable t.held := by unfold AdsrTick.held; infer_instance

/-! ## sprockit_main.h: parameter indices used below -/

def FILTER_Q : Nat := 0
def FILTER_FREQUENCY : Nat := 2
def OSC_DETUNE : Nat := 3
def FILTER_ENV_AMT : Nat := 9
def FILTER_ATTACK : Nat := 10
def OSC_MIX : Nat := 11
def PITCH_SHIFT : Nat := 19
def AMPLITUDE : Nat := 20

def SOURCE_AD : Nat := 0
def SOURCE_LOOP : Nat := 1
def SOURCE_EXTERNAL : Nat := 2

/-! ## lfo.c: destination decoder -/

/-- The table `auc_lfo_dest_decode[8]`. -/
def auc_lfo_dest_decode : List Nat :=
  [AMPLITUDE, FILTER_FREQUENCY, PITCH_SHIFT, FILTER_Q, OSC_MIX, OSC_DETUNE, FILTER_ENV_AMT,
   FILTER_ATTACK]

/-! ## calculate_pitch.h / calculate_pitch.c -/

def NUM_PITCH_SHIFT_INCREMENTS : Nat := 128
def LOG_NUM_PITCH_SHIFT_INCREMENTS : Nat := 7
def ZERO_PITCH_BEND : Nat := 64

/-- The table `AUN_FREQ_LUT[128]`. -/
def AUN_FREQ_LUT : List Nat :=
  [8,9,9,10,10,11,12,12,13,14,15,15,16,17,18,19,21,22,23,24,26,28,29,31,33,35,37,39,41,44,46,49,52,55,58,62,
   65,69,73,78,82,87,92,98,104,110,117,123,131,139,147,156,165,175,185,196,208,220,233,247,262,277,294,311,
   330,349,370,392,415,440,466,494,523,554,587,622,659,698,740,784,831,880,932,988,1047,1109,1175,1245,1319,
   1397,1480,1568,1661,1760,1865,1976,2093,2217,2349,2489,2637,2794,2960,3136,3322,3520,3729,3951,4186,4435,
   4699,4978,5274,5588,5920,6272,6645,7040,7459,7902,8372,8870,9397,9956,10548,11175,11840,12544]

/-- The table `AUN_PORTAMENTO_LUT[8]`. -/
def AUN_PORTAMENTO_LUT : List Nat := [32,64,128,256,512,1024,2048,4096]

/-- Table read `AUN_FREQ_LUT[i]` (an index past the table, which the C code
never produces for note indices up to 127, reads as 0). -/
def freq_lut (i : Nat) : Nat := AUN_FREQ_LUT.getD i 0

/-- Truncation of a signed value to `unsigned char`. -/
def u8i (x : Int) : Nat := (x % 256).toNat

/-- The variables `calculate_pitch()` reads and writes: the note indices and
note frequencies of the global setting structure, and the function's statics. -/
structure PitchState where
  auc_midi_note_index_osc1 : Nat
  auc_midi_note_index_osc2 : Nat
  aun_note_frequency_osc1 : Nat
  aun_note_frequency_osc2 : Nat
  uc_old_midi_note_number : Nat
  uc_old_pitch_shift : Nat
  uc_pitch_shift_increment_counter_osc1 : Nat
  uc_pitch_shift_increment_counter_osc2 : Nat
  uc_midi_note_number_osc1_shifted : Nat
  uc_midi_note_number_osc2_shifted : Nat
  uc_pitch_shift_incrementer_osc1 : Nat
  uc_pitch_shift_incrementer_osc2 : Nat
  sn_pitch_shift_increment_osc1 : Int
  sn_pitch_shift_increment_osc2 : Int
  un_old_oscillator_frequency_osc1 : Nat
  un_old_oscillator_frequency_osc2 : Nat
deriving DecidableEq

/-- The values `calculate_pitch()` only reads: four entries of
`auc_synth_params` and the note-on flag. -/
structure PitchEnv where
  p_OSC_DETUNE : Nat
  p_PORTAMENTO : Nat
  p_PITCH_SHIFT : Nat
  p_LFO_DEST : Nat
  g_uc_note_on_flag : Nat
deriving DecidableEq

/-- Lines 85-88: the start-up guard on `aun_note_frequency[OSC_1]`. -/
def pitch_startup (s : PitchState) : PitchState :=
  if s.aun_note_frequency_osc1 = 0 then
    { s with aun_note_frequency_osc1 := freq_lut s.auc_midi_note_index_osc1 }
  else s

/-- Lines 91-116: oscillator 2's note index from oscillator 1's and the detune knob. -/
def pitch_detune (e : PitchEnv) (s : PitchState) : PitchState :=
  let uc_osc2_detune := e.p_OSC_DETUNE >>> 3
  if uc_osc2_detune > 16 then
    let uc_osc2_detune := uc_osc2_detune - 16
    let n2 := u8 (s.auc_midi_note_index_osc1 + uc_osc2_detune)
    { s with auc_midi_note_index_osc2 := if n2 > 127 then 127 else n2 }
  else
    let uc_osc2_detune := 16 - uc_osc2_detune
    if uc_osc2_detune < s.auc_midi_note_index_osc1 then
      { s with auc_midi_note_index_osc2 := s.auc_midi_note_index_osc1 - uc_osc2_detune }
    else
      { s with auc_midi_note_index_osc2 := 0 }

/-- Lines 124-137: the pitch-shift parameter compressed around the centre. -/
def pitch_shift_compress (uc_pitch_shift : Nat) : Nat :=
  if uc_pitch_shift < ZERO_PITCH_BEND then
    let uc_temp := ZERO_PITCH_BEND - uc_pitch_shift
    let uc_temp := uc_temp >>> 2
    ZERO_PITCH_BEND - uc_temp
  else if uc_pitch_shift > ZERO_PITCH_BEND then
    let uc_temp := uc_pitch_shift - ZERO_PITCH_BEND
    let uc_temp := uc_temp >>> 2
    ZERO_PITCH_BEND + uc_temp
  else uc_pitch_shift

/-- Lines 142-145: the condition under which the glide path runs. -/
def pitch_glide_required (e : PitchEnv) (uc_pitch_shift : Nat) : Bool :=
  (auc_lfo_dest_decode.getD e.p_LFO_DEST 0 == PITCH_SHIFT && 1 == e.g_uc_note_on_flag)
    || uc_pitch_shift != ZERO_PITCH_BEND
    || e.p_PORTAMENTO != 0

/-- Lines 168-216: the shifted note indices of both oscillators. -/
def pitch_shifted_notes (uc_pitch_shift : Nat) (s : PitchState) : PitchState :=
  if uc_pitch_shift = ZERO_PITCH_BEND then
    { s with
      uc_midi_note_number_osc1_shifted := s.auc_midi_note_index_osc1
      uc_midi_note_number_osc2_shifted := s.auc_midi_note_index_osc2 }
  else if uc_pitch_shift > ZERO_PITCH_BEND then
    let uc_pitch_shift := uc_pitch_shift - ZERO_PITCH_BEND
    let n1 := u8 (s.auc_midi_note_index_osc1 + uc_pitch_shift)
    let n2 := u8 (s.auc_midi_note_index_osc2 + uc_pitch_shift)
    { s with
      uc_midi_note_number_osc1_shifted := if n1 > 127 then 127 else n1
      uc_midi_note_number_osc2_shifted := if n2 > 127 then 127 else n2 }
  else
    let uc_pitch_shift := ZERO_PITCH_BEND - uc_pitch_shift
    { s with
      uc_midi_note_number_osc1_shifted :=
        if s.auc_midi_note_index_osc1 > uc_pitch_shift then
          s.auc_midi_note_index_osc1 - uc_pitch_shift else 0
      uc_midi_note_number_osc2_shifted :=
        if s.auc_midi_note_index_osc2 > uc_pitch_shift then
          s.auc_midi_note_index_osc2 - uc_pitch_shift else 0 }

/-- Lines 277-308 (oscillator 1) and 311-341 (oscillator 2): from the signed
delta `sn`, the per-tick increment and the 8-bit step count.  `fallback` is the
value the small-delta branches store as the step count: oscillator 1 passes
its own delta; oscillator 2 passes `sn_pitch_shift_increment_osc1` as it stands
after oscillator 1's block (lines 322 and 338). -/
def pitch_increment (sn : Int) (un_number_of_pitch_shift_increments
    uc_log_number_of_pitch_shift_increments : Nat) (fallback : Int) : Int × Nat :=
  if sn ≥ 0 then
    if ofS16 sn ≥ un_number_of_pitch_shift_increments then
      (sn >>> uc_log_number_of_pitch_shift_increments, u8 un_number_of_pitch_shift_increments)
    else
      (1, u8i fallback)
  else
    if ofS16 sn ≤ u16 (65536 - un_number_of_pitch_shift_increments) then
      (sn >>> uc_log_number_of_pitch_shift_increments, u8 un_number_of_pitch_shift_increments)
    else
      (-1, u8i (-fallback))

/-- Lines 153-349: the recomputation done when the pitch shift or the note changed. -/
def pitch_recompute (e : PitchEnv) (uc_pitch_shift : Nat) (s : PitchState) : PitchState :=
  let s := { s with
    uc_old_pitch_shift := uc_pitch_shift
    uc_old_midi_note_number := s.auc_midi_note_index_osc1 }
  let s := pitch_shifted_notes uc_pitch_shift s
  let s :=
    if e.p_PORTAMENTO = 0 then
      { s with
        un_old_oscillator_frequency_osc1 := s.aun_note_frequency_osc1
        un_old_oscillator_frequency_osc2 := s.aun_note_frequency_osc2 }
    else s
  let un_target_oscillator_frequency_osc1 := freq_lut s.uc_midi_note_number_osc1_shifted
  let un_target_oscillator_frequency_osc2 := freq_lut s.uc_midi_note_number_osc2_shifted
  let sn1 := toS16 (un_target_oscillator_frequency_osc1 + 65536 - s.un_old_oscillator_frequency_osc1 % 65536)
  let sn2 := toS16 (un_target_oscillator_frequency_osc2 + 65536 - s.un_old_oscillator_frequency_osc2 % 65536)
  let uc_portamento := e.p_PORTAMENTO >>> 5
  let un_number_of_pitch_shift_increments :=
    if e.p_PORTAMENTO = 0 then NUM_PITCH_SHIFT_INCREMENTS else AUN_PORTAMENTO_LUT.getD uc_portamento 0
  let uc_log_number_of_pitch_shift_increments :=
    if e.p_PORTAMENTO = 0 then LOG_NUM_PITCH_SHIFT_INCREMENTS else u8 (uc_portamento + 4)
  let r1 := pitch_increment sn1 un_number_of_pitch_shift_increments
    uc_log_number_of_pitch_shift_increments sn1
  let r2 := pitch_increment sn2 un_number_of_pitch_shift_increments
    uc_log_number_of_pitch_shift_increments r1.1
  { s with
    sn_pitch_shift_increment_osc1 := r1.1
    uc_pitch_shift_incrementer_osc1 := r1.2
    sn_pitch_shift_increment_osc2 := r2.1
    uc_pitch_shift_incrementer_osc2 := r2.2
    uc_pitch_shift_increment_counter_osc1 := 0
    uc_pitch_shift_increment_counter_osc2 := 0 }

/-- Lines 355-379: one increment per oscillator, or the snap to the target. -/
def pitch_advance (s : PitchState) : PitchState :=
  let s :=
    if s.uc_pitch_shift_increment_counter_osc1 < s.uc_pitch_shift_incrementer_osc1 then
      { s with
        uc_pitch_shift_increment_counter_osc1 := u8 (s.uc_pitch_shift_increment_counter_osc1 + 1)
        aun_note_frequency_osc1 :=
          ofS16 ((s.aun_note_frequency_osc1 : Int) + s.sn_pitch_shift_increment_osc1) }
    else
      { s with aun_note_frequency_osc1 := freq_lut s.uc_midi_note_number_osc1_shifted }
  let s := { s with un_old_oscillator_frequency_osc1 := s.aun_note_frequency_osc1 }
  let s :=
    if s.uc_pitch_shift_increment_counter_osc2 < s.uc_pitch_shift_incrementer_osc2 then
      { s with
        uc_pitch_shift_increment_counter_osc2 := u8 (s.uc_pitch_shift_increment_counter_osc2 + 1)
        aun_note_frequency_osc2 :=
          ofS16 ((s.aun_note_frequency_osc2 : Int) + s.sn_pitch_shift_increment_osc2) }
    else
      { s with aun_note_frequency_osc2 := freq_lut s.uc_midi_note_number_osc2_shifted }
  { s with un_old_oscillator_frequency_osc2 := s.aun_note_frequency_osc2 }

/-- Lines 387-396: the bypass path. -/
def pitch_bypass (s : PitchState) : PitchState :=
  { s with
    aun_note_frequency_osc1 := freq_lut s.auc_midi_note_index_osc1
    aun_note_frequency_osc2 := freq_lut s.auc_midi_note_index_osc2
    sn_pitch_shift_increment_osc1 := 0
    sn_pitch_shift_increment_osc2 := 0
    uc_pitch_shift_increment_counter_osc1 := 0
    uc_pitch_shift_increment_counter_osc2 := 0
    uc_old_pitch_shift := 0 }

/-- One call of `calculate_pitch()`. -/
def calculate_pitch (e : PitchEnv) (s : PitchState) : PitchState :=
  let s := pitch_startup s
  let s := pitch_detune e s
  let uc_pitch_shift := pitch_shift_compress e.p_PITCH_SHIFT
  if pitch_glide_required e uc_pitch_shift then
    let s :=
      if s.uc_old_pitch_shift ≠ uc_pitch_shift ∨
          s.uc_old_midi_note_number ≠ s.auc_midi_note_index_osc1 then
        pitch_recompute e uc_pitch_shift s
      else s
    pitch_advance s
  else
    pitch_bypass s

/-- Repeated calls of `calculate_pitch()` with the inputs held constant. -/
def calculate_pitch_n (e : PitchEnv) : Nat → PitchState → PitchState
  | 0, s => s
  | n + 1, s => calculate_pitch_n e n (calculate_pitch e s)

/-- The statics of `calculate_pitch()` and the pitch fields of the global
setting structure at reset (all zero). -/
def pitch_boot : PitchState :=
  ⟨0, 0, 0, 0, 0, 0, 0, 0, 0, 0, 0, 0, 0, 0, 0, 0⟩

/-- Inputs that select the glide path with the default step count: portamento 0,
pitch shift 64, LFO destination pitch shift, note on. -/
def glide_env : PitchEnv := ⟨128, 0, 64, 2, 1⟩
/-- Reset state with both oscillators at `AUN_FREQ_LUT[59] = 247` and note index 0. -/
def glide_start : PitchState :=
  { pitch_boot with aun_note_frequency_osc1 := 247, aun_note_frequency_osc2 := 247 }

/-! ## sprockit_main.h: waveshapes, LFO parameter indices, auxiliary task states -/

def SAMPLE_MAX : Nat := 32767

def SIN : Nat := 0
def RAMP : Nat := 1
def SQUARE : Nat := 2
def TRIANGLE : Nat := 3
def MORPH_1 : Nat := 4
def MORPH_2 : Nat := 5
def MORPH_3 : Nat := 6
def MORPH_4 : Nat := 7
def MORPH_5 : Nat := 8
def MORPH_6 : Nat := 9
def MORPH_7 : Nat := 10
def MORPH_8 : Nat := 11
def MORPH_9 : Nat := 12
def HARD_SYNC : Nat := 13
def NOISE : Nat := 14
def RAW_SQUARE : Nat := 15

def LFO_RATE : Nat := 1
def LFO_AMOUNT : Nat := 5
def LFO_DEST : Nat := 21
def LFO_WAVESHAPE : Nat := 23
def LFO_SYNC : Nat := 24

def AUX_TASK_SPI : Nat := 0
def AUX_TASK_READ_AD : Nat := 1
def AUX_TASK_CALC_PITCH : Nat := 2
def AUX_TASK_LFO : Nat := 3
def AUX_TASK_MIDI : Nat := 4

/-! ## Noise generator (oscillator.c lines 623-626, lfo.c lines 403-406) -/

/-- The feedback bit as the code computes it:
`((lfsr >> 15) ^ (lfsr >> 13) ^ (lfsr ^ 12) ^ (lfsr >> 10)) & 1`. -/
def lfsr_bit (lfsr : Nat) : Nat :=
  u8 (((lfsr >>> 15) ^^^ (lfsr >>> 13) ^^^ (lfsr ^^^ 12) ^^^ (lfsr >>> 10)) &&& 1)

/-- The register update `lfsr = (lfsr << 1) | (lfsr_bit)` on a 16-bit `unsigned int`. -/
def lfsr_next (lfsr : Nat) : Nat :=
  u16 (u16 (lfsr <<< 1) ||| lfsr_bit lfsr)

/-- The `case NOISE:` arm of `oscillator()`: new register and the sample
`(unsigned char) lfsr`. -/
def oscillator_noise (lfsr : Nat) : Nat × Nat :=
  (lfsr_next lfsr, u8 (lfsr_next lfsr))

/-- The seed both generators start from (`lfsr = 0xACE1`). -/
def LFSR_SEED : Nat := 0xACE1

/-- The samples of `n` successive noise steps of the code. -/
def noise_samples : Nat → Nat → List Nat
  | 0, _ => []
  | n + 1, lfsr => (oscillator_noise lfsr).2 :: noise_samples n (oscillator_noise lfsr).1

/-- Reference generator, following the specification's words: feedback is the
XOR of bits 15, 13, 12 and 10; the register shifts left by one with the
feedback entering at bit 0. -/
def lfsr_reference_next (lfsr : Nat) : Nat :=
  let bit := ((lfsr >>> 15) ^^^ (lfsr >>> 13) ^^^ (lfsr >>> 12) ^^^ (lfsr >>> 10)) &&& 1
  ((lfsr <<< 1) ||| bit) % 65536

/-- The samples (low bytes) of `n` successive steps of the reference generator. -/
def reference_samples : Nat → Nat → List Nat
  | 0, _ => []
  | n + 1, lfsr => lfsr_reference_next lfsr % 256 :: reference_samples n (lfsr_reference_next lfsr)

/-! ## lfo.c -/

/-- The table `g_aun_lfo_rate_lut[32]`. -/
def g_aun_lfo_rate_lut : List Nat :=
  [1,2,4,8,16,32,48,64,80,96,112,128,192,224,256,288,320,352,384,448,
   512,576,640,704,778,896,1024,1280,1536,2048,2560,3072]

/-- The wavetables declared in `wavetables.h` that `lfo()` reads; their
contents are not part of the sources, so they are parameters. -/
structure WaveTables where
  G_AUC_SIN_LUT : Nat → Nat
  G_AUC_TRIANGLE_SIMPLE_WAVETABLE_LUT : Nat → Nat
  G_AUC_RAMP_SIMPLE_WAVETABLE_LUT : Nat → Nat
  G_AUC_SQUARE_SIMPLE_WAVETABLE_LUT : Nat → Nat

/-- The four parameter arrays of the global setting structure. -/
structure ParamArrays where
  auc_ad_values : Nat → Nat
  auc_synth_params : Nat → Nat
  auc_external_params : Nat → Nat
  auc_parameter_source : Nat → Nat

/-- Every array element holds an `unsigned char` value. -/
def ParamArrays.wf (g : ParamArrays) : Prop :=
  ∀ i, g.auc_ad_values i < 256 ∧ g.auc_synth_params i < 256 ∧
    g.auc_external_params i < 256 ∧ g.auc_parameter_source i < 256

/-- A read of an `unsigned char` table entry. -/
def table_read (t : Nat → Nat) (i : Nat) : Nat := u8 (t i)

/-- Wrap of a signed value into the range of a 16-bit `signed int`. -/
def s16 (x : Int) : Int := toS16 (ofS16 x)

/-- The statics of `lfo()` and the sync flag it clears. -/
structure LfoState where
  un_lfo_reference : Nat
  lfsr : Nat
  uc_morph_index : Nat
  uc_morph_timer : Nat
  uc_morph_state : Nat
  g_uc_lfo_midi_sync_flag : Nat
deriving DecidableEq

/-- The statics of `lfo()` at reset. -/
def lfo_boot : LfoState := ⟨0, LFSR_SEED, 0, 0, 0, 0⟩

/-- Lines 83-92: resynchronisation on a note-on when LFO sync is enabled. -/
def lfo_sync (g : ParamArrays) (s : LfoState) : LfoState :=
  if g.auc_synth_params LFO_SYNC = 1 ∧ s.g_uc_lfo_midi_sync_flag = 1 then
    { s with
      un_lfo_reference := 0
      g_uc_lfo_midi_sync_flag := 0
      uc_morph_timer := 0
      uc_morph_index := 0
      uc_morph_state := 0 }
  else s

/-- Lines 100-121: the destination's value at its governing source. -/
def lfo_initial_param (g : ParamArrays) (uc_lfo_dest : Nat) : Nat :=
  let uc_parameter_source := g.auc_parameter_source uc_lfo_dest
  if uc_parameter_source = SOURCE_AD then g.auc_ad_values uc_lfo_dest
  else if uc_parameter_source = SOURCE_EXTERNAL then g.auc_external_params uc_lfo_dest
  else 0

/-- The morph timer block shared by the morph cases:
`if(uc_morph_timer == 0) { uc_morph_index++; uc_morph_timer = LFO_RATE >> 3; } uc_morph_timer--;`. -/
def lfo_morph_tick (g : ParamArrays) (s : LfoState) : LfoState :=
  let s :=
    if s.uc_morph_timer = 0 then
      { s with
        uc_morph_index := u8 (s.uc_morph_index + 1)
        uc_morph_timer := g.auc_synth_params LFO_RATE >>> 3 }
    else s
  { s with uc_morph_timer := u8 (s.uc_morph_timer + 255) }

/-- The morph timer block of `case MORPH_5:` (lines 266-290), which sweeps the
index up and down. -/
def lfo_morph5_tick (g : ParamArrays) (s : LfoState) : LfoState :=
  let s :=
    if s.uc_morph_timer = 0 then
      let s :=
        if s.uc_morph_state = 0 then
          let i := u8 (s.uc_morph_index + 1)
          { s with uc_morph_index := i, uc_morph_state := if i = 255 then 1 else s.uc_morph_state }
        else
          let i := u8 (s.uc_morph_index + 255)
          { s with uc_morph_index := i, uc_morph_state := if i = 0 then 0 else s.uc_morph_state }
      { s with uc_morph_timer := g.auc_synth_params LFO_RATE >>> 3 }
    else s
  { s with uc_morph_timer := u8 (s.uc_morph_timer + 255) }

/-- The recentring used by the difference morphs:
`> 127` gives 255, `< -128` gives 0, otherwise `128 + sn_temp1`. -/
def lfo_recentre (sn_temp1 : Int) : Nat :=
  if sn_temp1 > 127 then 255
  else if sn_temp1 < -128 then 0
  else u8i (128 + sn_temp1)

/-- The product morphs: `(a * b) >> 8` in a 16-bit `unsigned int`, cast to `unsigned char`. -/
def lfo_product (a b : Nat) : Nat :=
  u8 (u16 (u16 a * b) >>> 8)

/-- Lines 136-432: the `switch(uc_wave_shape)`; returns the updated statics and `uc_modifier`. -/
def lfo_sample (w : WaveTables) (g : ParamArrays) (s : LfoState) : LfoState × Nat :=
  let uc_wave_shape := g.auc_synth_params LFO_WAVESHAPE
  let t7 := u8 (s.un_lfo_reference >>> 7)
  let t8 := u8 (s.un_lfo_reference >>> 8)
  if uc_wave_shape = SQUARE then (s, table_read w.G_AUC_SQUARE_SIMPLE_WAVETABLE_LUT t7)
  else if uc_wave_shape = RAMP then (s, table_read w.G_AUC_RAMP_SIMPLE_WAVETABLE_LUT t7)
  else if uc_wave_shape = TRIANGLE then (s, table_read w.G_AUC_TRIANGLE_SIMPLE_WAVETABLE_LUT t7)
  else if uc_wave_shape = SIN then (s, table_read w.G_AUC_SIN_LUT t7)
  else if uc_wave_shape = MORPH_1 then
    let s := lfo_morph_tick g s
    (s, lfo_product (table_read w.G_AUC_SIN_LUT t7)
          (table_read w.G_AUC_RAMP_SIMPLE_WAVETABLE_LUT s.uc_morph_index))
  else if uc_wave_shape = MORPH_2 then
    let s := lfo_morph_tick g s
    (s, lfo_product (table_read w.G_AUC_TRIANGLE_SIMPLE_WAVETABLE_LUT t7)
          (table_read w.G_AUC_RAMP_SIMPLE_WAVETABLE_LUT (s.uc_morph_index >>> 1)))
  else if uc_wave_shape = MORPH_3 then
    let s := lfo_morph_tick g s
    let uc_reverse_index := u8 (t7 + 256 - s.uc_morph_index % 256)
    (s, lfo_recentre ((table_read w.G_AUC_TRIANGLE_SIMPLE_WAVETABLE_LUT t7 : Int)
          - (table_read w.G_AUC_SQUARE_SIMPLE_WAVETABLE_LUT uc_reverse_index : Int)))
  else if uc_wave_shape = MORPH_4 then
    let s := lfo_morph_tick g s
    (s, lfo_product (table_read w.G_AUC_RAMP_SIMPLE_WAVETABLE_LUT t7)
          (table_read w.G_AUC_TRIANGLE_SIMPLE_WAVETABLE_LUT s.uc_morph_index))
  else if uc_wave_shape = MORPH_5 then
    let s := lfo_morph5_tick g s
    let uc_reverse_index := u8 (t7 + 256 - s.uc_morph_index % 256)
    (s, lfo_recentre ((table_read w.G_AUC_RAMP_SIMPLE_WAVETABLE_LUT t7 : Int)
          - (table_read w.G_AUC_RAMP_SIMPLE_WAVETABLE_LUT uc_reverse_index : Int)))
  else if uc_wave_shape = MORPH_6 then
    let s := lfo_morph_tick g s
    (s, lfo_product (table_read w.G_AUC_RAMP_SIMPLE_WAVETABLE_LUT t7)
          (table_read w.G_AUC_RAMP_SIMPLE_WAVETABLE_LUT s.uc_morph_index))
  else if uc_wave_shape = MORPH_7 then
    (s, table_read w.G_AUC_RAMP_SIMPLE_WAVETABLE_LUT (255 - t7))
  else if uc_wave_shape = MORPH_8 then
    let s := lfo_morph_tick g s
    let uc_reverse_index := u8 (t7 + 256 - s.uc_morph_index % 256)
    (s, lfo_recentre ((table_read w.G_AUC_RAMP_SIMPLE_WAVETABLE_LUT t7 : Int)
          - (table_read w.G_AUC_RAMP_SIMPLE_WAVETABLE_LUT uc_reverse_index : Int)))
  else if uc_wave_shape = MORPH_9 then (s, table_read w.G_AUC_RAMP_SIMPLE_WAVETABLE_LUT t8)
  else if uc_wave_shape = HARD_SYNC then (s, table_read w.G_AUC_RAMP_SIMPLE_WAVETABLE_LUT t8)
  else if uc_wave_shape = NOISE then
    ({ s with lfsr := lfsr_next s.lfsr }, u8 (lfsr_next s.lfsr))
  else if uc_wave_shape = RAW_SQUARE then (s, if t8 > 127 then 0 else 255)
  else (s, table_read w.G_AUC_SIN_LUT t7)

/-- Lines 437-455: the modulated value, saturated to `[0, 255]`. -/
def lfo_modulated (uc_modifier uc_lfo_amount uc_lfo_initial_param : Nat) : Nat :=
  let sn_temp1 : Int := s16 uc_modifier
  let sn_temp1 := s16 (sn_temp1 - 128)
  let sn_temp1 := s16 (sn_temp1 * uc_lfo_amount)
  let sn_temp1 := sn_temp1 >>> (7 : Nat)
  let sn_temp1 := s16 (sn_temp1 + uc_lfo_initial_param)
  let sn_temp1 := if sn_temp1 > 255 then 255 else if sn_temp1 < 0 then 0 else sn_temp1
  u8i sn_temp1

/-- Assignment `a[i] = v` on an array modelled as a function. -/
def array_set (a : Nat → Nat) (i v : Nat) : Nat → Nat :=
  fun j => if j = i then v else a j

/-- Lines 494-499: the phase accumulator advance. -/
def lfo_advance (un_lfo_rate : Nat) (s : LfoState) : LfoState :=
  let r := u16 (s.un_lfo_reference + un_lfo_rate)
  { s with un_lfo_reference := if r ≥ SAMPLE_MAX then r - SAMPLE_MAX else r }

/-- One call of `lfo()`. -/
def lfo (w : WaveTables) (g : ParamArrays) (s : LfoState) : ParamArrays × LfoState :=
  let s := lfo_sync g s
  let uc_lfo_amount := g.auc_synth_params LFO_AMOUNT
  let uc_temp1 := g.auc_synth_params LFO_RATE >>> 3
  let un_lfo_rate := g_aun_lfo_rate_lut.getD uc_temp1 0
  let uc_lfo_dest := auc_lfo_dest_decode.getD (g.auc_synth_params LFO_DEST) 0
  let uc_lfo_initial_param := lfo_initial_param g uc_lfo_dest
  if uc_lfo_amount > 1 then
    let r := lfo_sample w g s
    let v := lfo_modulated r.2 uc_lfo_amount uc_lfo_initial_param
    ({ g with auc_synth_params := array_set g.auc_synth_params uc_lfo_dest v },
     lfo_advance un_lfo_rate r.1)
  else
    let v := if uc_lfo_dest ≠ AMPLITUDE then uc_lfo_initial_param else 255
    ({ g with auc_synth_params := array_set g.auc_synth_params uc_lfo_dest v },
     lfo_advance un_lfo_rate s)

/-- The value the specification gives for the destination after an LFO tick:
bypass (source value, or 255 for the amplitude destination) when the amount is
at most 1, otherwise the source value plus the scaled sample, clamped to
`[0, 255]`. -/
def lfo_expected (dest source_value lfo_amount sample : Nat) : Int :=
  if lfo_amount ≤ 1 then
    (if dest = AMPLITUDE then 255 else source_value)
  else
    max 0 (min 255 ((source_value : Int) + Int.fdiv (((sample : Int) - 128) * lfo_amount) 128))

/-! ## Sprockit_main.c: the auxiliary task rotation -/

/-- The routines the auxiliary task switch can call. -/
inductive AuxCall where
  | spi
  | read_ad
  | calculate_pitch
  | lfo
  | midi_interpret_incoming_message
deriving DecidableEq

/-- What the switch reads besides its state: whether the ADC conversion is
still running (`CHECK_BIT(ADCSRA, ADSC)`) and whether the incoming MIDI fifo
holds a message. -/
structure AuxIn where
  adc_busy : Bool
  midi_pending : Bool
deriving DecidableEq

/-- Lines 173-229 of `main()`: the routines called on one slow tick and the next state. -/
def aux_task (uc_aux_task_state : Nat) (i : AuxIn) : List AuxCall × Nat :=
  if uc_aux_task_state = AUX_TASK_SPI then ([AuxCall.spi], AUX_TASK_READ_AD)
  else if uc_aux_task_state = AUX_TASK_READ_AD then
    (if !i.adc_busy then [AuxCall.read_ad] else [], AUX_TASK_CALC_PITCH)
  else if uc_aux_task_state = AUX_TASK_CALC_PITCH then ([AuxCall.calculate_pitch], AUX_TASK_LFO)
  else if uc_aux_task_state = AUX_TASK_LFO then ([AuxCall.lfo], AUX_TASK_MIDI)
  else if uc_aux_task_state = AUX_TASK_MIDI then
    (if i.midi_pending then [AuxCall.midi_interpret_incoming_message] else [], AUX_TASK_SPI)
  else ([], uc_aux_task_state)

/-- The value of `uc_aux_task_state` after `n` slow ticks from reset (static, so 0). -/
def aux_state_after (inp : Nat → AuxIn) : Nat → Nat
  | 0 => 0
  | n + 1 => (aux_task (aux_state_after inp n) (inp n)).2

/-- The routines called on slow tick number `n` (counting from 0). -/
def aux_calls_at (inp : Nat → AuxIn) (n : Nat) : List AuxCall :=
  (aux_task (aux_state_after inp n) (inp n)).1

/-- The routines called during the `len` slow ticks starting at tick `n`, in order. -/
def aux_window (inp : Nat → AuxIn) (n : Nat) : Nat → List AuxCall
  | 0 => []
  | len + 1 => aux_calls_at inp n ++ aux_window inp (n + 1) len

/-! ## filter.h -/

def MAX_FILTER_ADSR_STEP : Nat := 128
def NUMBER_OF_FILTER_ADSR_STEPS : Nat := 128
def LOG_NUMBER_OF_FILTER_ADSR_STEPS : Nat := 7

def ATTACK_STATE : Nat := 0
def DECAY_STATE : Nat := 1
def SUSTAIN_STATE : Nat := 2
def RELEASE_STATE : Nat := 3

def FREQUENCY_1_UPDATE : Nat := 0
def FREQUENCY_2_UPDATE : Nat := 1
def FILTER_Q_UPDATE : Nat := 2
def WAIT : Nat := 3

def FALSE : Nat := 0
def TRUE : Nat := 1

/-! ## filter.c -/

/-- Wrap of a signed value into the range of a 32-bit `signed long`. -/
def s32 (x : Int) : Int :=
  if x % 4294967296 < 2147483648 then x % 4294967296 else x % 4294967296 - 4294967296

/-- `antilog()`: the piecewise conversion of a linear 8-bit value (lines 483-533). -/
def antilog (uc_linear : Nat) : Int :=
  let uc_index := uc_linear >>> 5
  if uc_index = 0 then ((uc_linear * 4 : Nat) : Int)
  else if uc_index = 1 then ((uc_linear * 4 : Nat) : Int)
  else if uc_index = 2 then
    let uc_linear := u8 (uc_linear + 256 - 63)
    ((252 + uc_linear * 2 : Nat) : Int)
  else if uc_index = 3 then
    let uc_linear := u8 (uc_linear + 256 - 95)
    ((316 + uc_linear * 2 : Nat) : Int)
  else if uc_index = 4 then
    let uc_linear := u8 (255 + 256 - uc_linear)
    511 - (uc_linear : Int)
  else if uc_index = 5 then
    let uc_linear := u8 (255 + 256 - uc_linear)
    511 - (uc_linear : Int)
  else if uc_index = 6 then
    let uc_linear := u8 (255 + 256 - uc_linear)
    511 - (uc_linear : Int)
  else if uc_index = 7 then
    let uc_linear := u8 (255 + 256 - uc_linear)
    511 - (uc_linear : Int)
  else 511

/-- The statics of `filter()` that carry a value from one call to the next,
and the filter sync flag, which `filter()` reads, clears and (when droning)
raises. -/
structure FilterState where
  sl_adsr_temp_adder : Int
  sn_adsr_adder_increment : Int
  un_last_written_filter_value : Nat
  uc_filter_1_value : Nat
  uc_filter_2_value : Nat
  uc_antilog_q_value : Nat
  uc_update_state : Nat
  uc_adsr_state : Nat
  uc_adsr_timer : Nat
  uc_adsr_step_count : Nat
  g_uc_filter_envelope_sync_flag : Nat
deriving DecidableEq

/-- What `filter()` only reads: the key-press and drone flags and seven entries
of `auc_synth_params`.  `div_by_zero` stands for whatever the division routine
delivers for the quotient of line 89 when `uc_adsr_step_count` is 0, which C
leaves undefined. -/
structure FilterEnv where
  g_uc_key_press_flag : Nat
  g_uc_drone_flag : Nat
  p_FILTER_FREQUENCY : Nat
  p_FILTER_Q : Nat
  p_FILTER_ENV_AMT : Nat
  p_FILTER_SUSTAIN : Nat
  p_FILTER_ATTACK : Nat
  p_FILTER_DECAY : Nat
  p_FILTER_RELEASE : Nat
  div_by_zero : Int
deriving DecidableEq

/-- The statics of `filter()` at reset (all zero). -/
def filter_boot : FilterState := ⟨0, 0, 0, 0, 0, 0, 0, 0, 0, 0, 0⟩

/-- All parameters are `unsigned char` values. -/
def FilterEnv.wf (e : FilterEnv) : Prop :=
  e.p_FILTER_FREQUENCY < 256 ∧ e.p_FILTER_Q < 256 ∧ e.p_FILTER_ENV_AMT < 256 ∧
  e.p_FILTER_SUSTAIN < 256 ∧ e.p_FILTER_ATTACK < 256 ∧ e.p_FILTER_DECAY < 256 ∧
  e.p_FILTER_RELEASE < 256

instance (e : FilterEnv) : Decidable e.wf := by unfold FilterEnv.wf; infer_instance

/-- Lines 84-92: on key release (unless droning) the increment becomes
`sl_adsr_temp_adder / uc_adsr_step_count` and the state Release. -/
def filter_key (e : FilterEnv) (s : FilterState) : FilterState :=
  if 0 = e.g_uc_key_press_flag then
    if e.g_uc_drone_flag = FALSE then
      { s with
        sn_adsr_adder_increment :=
          s16 (if s.uc_adsr_step_count = 0 then e.div_by_zero
               else Int.tdiv s.sl_adsr_temp_adder s.uc_adsr_step_count)
        uc_adsr_state := RELEASE_STATE }
    else s
  else s

/-- Lines 115-137: the re-arm on the filter sync flag. -/
def filter_sync (e : FilterEnv) (s : FilterState) : FilterState :=
  if 1 = s.g_uc_filter_envelope_sync_flag then
    let sn_target_envelope_value : Int := (e.p_FILTER_ENV_AMT : Int) - 128
    let sn_target_envelope_value := s16 (sn_target_envelope_value * 256)
    let sn_target_envelope_value := s16 (sn_target_envelope_value - s.sl_adsr_temp_adder)
    let uc_remaining_number_of_adsr_steps :=
      u8i ((NUMBER_OF_FILTER_ADSR_STEPS : Int) - s.uc_adsr_step_count)
    let inc :=
      if uc_remaining_number_of_adsr_steps > 0 then
        Int.tdiv sn_target_envelope_value uc_remaining_number_of_adsr_steps
      else 0
    { s with
      uc_adsr_state := ATTACK_STATE
      uc_adsr_timer := e.p_FILTER_ATTACK >>> 2
      sn_adsr_adder_increment := inc
      g_uc_filter_envelope_sync_flag := 0 }
  else s

/-- Lines 140-157: the cutoff with the envelope applied, limited to `[0, 255]`. -/
def filter_cutoff (e : FilterEnv) (s : FilterState) : Nat :=
  let sn_filter_freq_calc_temp := s16 (s.sl_adsr_temp_adder >>> LOG_NUMBER_OF_FILTER_ADSR_STEPS)
  let sn_filter_freq_calc_temp := s16 (sn_filter_freq_calc_temp + e.p_FILTER_FREQUENCY)
  if sn_filter_freq_calc_temp > 255 then 255
  else if sn_filter_freq_calc_temp < 0 then 0
  else u8i sn_filter_freq_calc_temp

/-- The statement `sl_adsr_temp_adder += k * sn_adsr_adder_increment`, the
product taken in a 16-bit `int`, the sum in a `signed long`. -/
def adder_add (s : FilterState) (k : Int) : Int :=
  s32 (s.sl_adsr_temp_adder + s16 (k * s.sn_adsr_adder_increment))

/-- The statement `sl_adsr_temp_adder -= k * sn_adsr_adder_increment`. -/
def adder_sub (s : FilterState) (k : Int) : Int :=
  s32 (s.sl_adsr_temp_adder - s16 (k * s.sn_adsr_adder_increment))

/-- The step pattern of the first three Attack ranges (lines 185-194, 200-209,
215-224): advance by `k` steps while more than `k` remain, else finish. -/
def filter_attack_step (k : Nat) (s : FilterState) : FilterState :=
  if s.uc_adsr_step_count < MAX_FILTER_ADSR_STEP - k then
    { s with
      uc_adsr_step_count := u8 (s.uc_adsr_step_count + k)
      sl_adsr_temp_adder := adder_add s k }
  else
    { s with
      sl_adsr_temp_adder := adder_add s ((MAX_FILTER_ADSR_STEP : Int) - s.uc_adsr_step_count)
      uc_adsr_step_count := MAX_FILTER_ADSR_STEP }

/-- The `case ATTACK_STATE:` arm (lines 171-241). -/
def filter_attack (e : FilterEnv) (s : FilterState) : FilterState :=
  let s :=
    if s.uc_adsr_step_count = MAX_FILTER_ADSR_STEP then
      { s with
        sn_adsr_adder_increment := s16 (s.sl_adsr_temp_adder >>> (7 : Nat))
        uc_adsr_state := DECAY_STATE
        uc_adsr_timer := e.p_FILTER_DECAY >>> 3 }
    else s
  if e.p_FILTER_ATTACK < 32 then
    filter_attack_step 8 { s with uc_adsr_timer := e.p_FILTER_ATTACK >>> 4 }
  else if e.p_FILTER_ATTACK < 128 then
    filter_attack_step 4 { s with uc_adsr_timer := e.p_FILTER_ATTACK >>> 3 }
  else if e.p_FILTER_ATTACK < 192 then
    filter_attack_step 2 { s with uc_adsr_timer := e.p_FILTER_ATTACK >>> 2 }
  else
    let s := { s with uc_adsr_timer := e.p_FILTER_ATTACK >>> 1 }
    if s.uc_adsr_step_count < 253 then
      { s with
        uc_adsr_step_count := u8 (s.uc_adsr_step_count + 1)
        sl_adsr_temp_adder := adder_add s 1 }
    else
      { s with
        sl_adsr_temp_adder := adder_add s ((MAX_FILTER_ADSR_STEP : Int) - s.uc_adsr_step_count)
        uc_adsr_step_count := MAX_FILTER_ADSR_STEP }

/-- The step pattern of the first three Decay ranges (lines 250-259, 265-274,
281-290): go down by `k` steps while more than `k` above the sustain level,
else land on it. -/
def filter_decay_step (k : Nat) (uc_sustain_level : Nat) (s : FilterState) : FilterState :=
  if s.uc_adsr_step_count > uc_sustain_level + k then
    { s with
      uc_adsr_step_count := u8 (s.uc_adsr_step_count + 256 - k)
      sl_adsr_temp_adder := adder_sub s k }
  else
    { s with
      sl_adsr_temp_adder := adder_sub s ((s.uc_adsr_step_count : Int) - uc_sustain_level)
      uc_adsr_step_count := uc_sustain_level }

/-- The `case DECAY_STATE:` arm (lines 243-305). -/
def filter_decay (e : FilterEnv) (uc_sustain_level : Nat) (s : FilterState) : FilterState :=
  let s :=
    if e.p_FILTER_DECAY < 32 then
      filter_decay_step 6 uc_sustain_level { s with uc_adsr_timer := e.p_FILTER_DECAY >>> 3 }
    else if e.p_FILTER_DECAY < 128 then
      filter_decay_step 4 uc_sustain_level { s with uc_adsr_timer := e.p_FILTER_DECAY >>> 3 }
    else if e.p_FILTER_DECAY < 192 then
      filter_decay_step 2 uc_sustain_level { s with uc_adsr_timer := e.p_FILTER_DECAY >>> 2 }
    else
      { s with
        uc_adsr_timer := e.p_FILTER_DECAY >>> 1
        uc_adsr_step_count := u8 (s.uc_adsr_step_count + 255)
        sl_adsr_temp_adder := adder_sub s 1 }
  if s.uc_adsr_step_count = uc_sustain_level then { s with uc_adsr_state := SUSTAIN_STATE }
  else s

/-- The `case SUSTAIN_STATE:` arm (lines 307-315). -/
def filter_sustain (e : FilterEnv) (s : FilterState) : FilterState :=
  if e.g_uc_drone_flag = TRUE then { s with uc_adsr_state := RELEASE_STATE } else s

/-- The step pattern of the first two Release ranges (lines 325-334, 341-350). -/
def filter_release_step (k : Nat) (s : FilterState) : FilterState :=
  if s.uc_adsr_step_count > k then
    { s with
      uc_adsr_step_count := u8 (s.uc_adsr_step_count + 256 - k)
      sl_adsr_temp_adder := adder_sub s k }
  else
    { s with sl_adsr_temp_adder := 0, uc_adsr_step_count := 0 }

/-- The `case RELEASE_STATE:` arm (lines 317-373). -/
def filter_release (e : FilterEnv) (s : FilterState) : FilterState :=
  if s.uc_adsr_step_count > 0 then
    if e.p_FILTER_RELEASE < 16 then
      filter_release_step 4 { s with uc_adsr_timer := e.p_FILTER_RELEASE >>> 3 }
    else if e.p_FILTER_RELEASE < 64 then
      filter_release_step 2 { s with uc_adsr_timer := e.p_FILTER_RELEASE >>> 2 }
    else
      { s with
        uc_adsr_timer := e.p_FILTER_DECAY >>> 1
        uc_adsr_step_count := u8 (s.uc_adsr_step_count + 255)
        sl_adsr_temp_adder := adder_sub s 1 }
  else
    { s with
      uc_adsr_state := ATTACK_STATE
      uc_adsr_timer := e.p_FILTER_ATTACK >>> 5
      uc_adsr_step_count := 0
      sl_adsr_temp_adder := 0
      g_uc_filter_envelope_sync_flag :=
        if e.g_uc_drone_flag = TRUE then 1 else s.g_uc_filter_envelope_sync_flag }

/-- Lines 163-381: the timer test and the `switch(uc_adsr_state)`. -/
def filter_envelope (e : FilterEnv) (s : FilterState) : FilterState :=
  if s.uc_adsr_timer > 0 then
    { s with uc_adsr_timer := s.uc_adsr_timer - 1 }
  else if s.uc_adsr_state = ATTACK_STATE then filter_attack e s
  else if s.uc_adsr_state = DECAY_STATE then filter_decay e (e.p_FILTER_SUSTAIN >>> 1) s
  else if s.uc_adsr_state = SUSTAIN_STATE then filter_sustain e s
  else if s.uc_adsr_state = RELEASE_STATE then filter_release e s
  else s

/-- The resonance value `antilog(uc_filter_q) >> 1`. -/
def filter_q_value (uc_filter_q : Nat) : Int :=
  antilog uc_filter_q >>> (1 : Nat)

/-- Lines 395-424: the choice of the next bus action, given the converted
cutoff `un_antilog_filter_frequency` and the resonance parameter. -/
def filter_sequence (un_antilog_filter_frequency : Nat) (uc_filter_q : Nat) (s : FilterState) :
    FilterState :=
  if (s.uc_update_state = FREQUENCY_2_UPDATE ∨ s.uc_update_state = WAIT) ∧
      (s.uc_antilog_q_value : Int) ≠ filter_q_value uc_filter_q then
    { s with
      uc_update_state := FILTER_Q_UPDATE
      uc_antilog_q_value := u8i (filter_q_value uc_filter_q) }
  else if s.uc_update_state = FREQUENCY_1_UPDATE then
    { s with uc_update_state := FREQUENCY_2_UPDATE }
  else if s.un_last_written_filter_value ≠ un_antilog_filter_frequency then
    let uc_filter_1_value := u8 (un_antilog_filter_frequency >>> 1)
    let uc_filter_2_value :=
      if uc_filter_1_value ≠ 255 ∧ un_antilog_filter_frequency % 2 = 1 then
        u8 (uc_filter_1_value + 1)
      else uc_filter_1_value
    { s with
      uc_update_state := FREQUENCY_1_UPDATE
      uc_filter_1_value := uc_filter_1_value
      uc_filter_2_value := uc_filter_2_value }
  else
    { s with uc_update_state := WAIT }

/-- Lines 427-478: the two bytes handed to `send_spi_two_bytes`, if any, as
(command, value). -/
def filter_bus_write (s : FilterState) : List (Nat × Nat) :=
  if s.uc_update_state = FREQUENCY_1_UPDATE then [(0x12, s.uc_filter_1_value)]
  else if s.uc_update_state = FREQUENCY_2_UPDATE then [(0x11, s.uc_filter_2_value)]
  else if s.uc_update_state = FILTER_Q_UPDATE then [(0x13, s.uc_antilog_q_value)]
  else []

/-- The converted cutoff `un_antilog_filter_frequency` a call of `filter()`
computes (line 389): from the adder as it stands after the sync block. -/
def filter_antilog_frequency (e : FilterEnv) (s : FilterState) : Nat :=
  ofS16 (antilog (filter_cutoff e (filter_sync e (filter_key e s))))

/-- One call of `filter()`: the new statics and the bus writes issued. -/
def filter (e : FilterEnv) (s : FilterState) : FilterState × List (Nat × Nat) :=
  let s := filter_key e s
  let s := filter_sync e s
  let uc_filter_frequency := filter_cutoff e s
  let s := filter_envelope e s
  let un_antilog_filter_frequency := ofS16 (antilog uc_filter_frequency)
  let s := filter_sequence un_antilog_filter_frequency e.p_FILTER_Q s
  (s, filter_bus_write s)

/-- Repeated calls of `filter()` with the inputs held constant: the statics
after `n` calls. -/
def filter_n (e : FilterEnv) : Nat → FilterState → FilterState
  | 0, s => s
  | n + 1, s => filter_n e n (filter e s).1

/-- The bus writes of the `n` calls, in order, one list per call. -/
def filter_writes (e : FilterEnv) : Nat → FilterState → List (List (Nat × Nat))
  | 0, _ => []
  | n + 1, s => (filter e s).2 :: filter_writes e n (filter e s).1

/-- The statics of the bus sequencer: last written value, pot values, last
resonance value sent, sequencer state. -/
def FilterState.bus (s : FilterState) : Nat × Nat × Nat × Nat × Nat :=
  (s.un_last_written_filter_value, s.uc_filter_1_value, s.uc_filter_2_value,
   s.uc_antilog_q_value, s.uc_update_state)

/-- The resonance value of this call differs from the one last sent. -/
def filter_q_pending (e : FilterEnv) (s : FilterState) : Prop :=
  (s.uc_antilog_q_value : Int) ≠ filter_q_value e.p_FILTER_Q

/-- This call performs the resonance write: the sequencer is in
`FILTER_Q_UPDATE`, command 0x13 goes out with the new resonance value, and
that value is recorded as the last one sent. -/
def filter_q_written (e : FilterEnv) (s : FilterState) : Prop :=
  (filter e s).1.uc_update_state = FILTER_Q_UPDATE ∧
  (filter e s).2 = [(0x13, u8i (filter_q_value e.p_FILTER_Q))] ∧
  (filter e s).1.uc_antilog_q_value = u8i (filter_q_value e.p_FILTER_Q)

instance (e : FilterEnv) (s : FilterState) : Decidable (filter_q_pending e s) := by
  unfold filter_q_pending; infer_instance
instance (e : FilterEnv) (s : FilterState) : Decidable (filter_q_written e s) := by
  unfold filter_q_written; infer_instance

/-- Inputs held constant with the key down: cutoff knob 100, resonance 0,
envelope amount at the centre, all envelope times 0. -/
def steady_env : FilterEnv := ⟨1, 0, 100, 0, 128, 0, 0, 0, 0, 0⟩

/-- The statics of the filter envelope, with the sync flag. -/
def FilterState.envelope (s : FilterState) : Int × Int × Nat × Nat × Nat × Nat :=
  (s.sl_adsr_temp_adder, s.sn_adsr_adder_increment, s.uc_adsr_state, s.uc_adsr_timer,
   s.uc_adsr_step_count, s.g_uc_filter_envelope_sync_flag)

/-- The envelope target `(envAmt - 128) << 8`. -/
def filter_target (e : FilterEnv) : Int := ((e.p_FILTER_ENV_AMT : Int) - 128) * 256

/-- The C quotient (truncated toward zero) of the distance to the target by
the number of steps left to `NUMBER_OF_FILTER_ADSR_STEPS`. -/
def filter_slope (e : FilterEnv) (s : FilterState) : Int :=
  Int.tdiv (filter_target e - s.sl_adsr_temp_adder) ((128 : Int) - s.uc_adsr_step_count)

/-- The envelope is on the ramp set up by a sync at step `s0` and adder `a0`
with slope `q`: in Attack, no sync pending, the increment is `q`, and the adder
has advanced by `q` for every step taken since. -/
def FilterRamp (q a0 : Int) (s0 : Nat) (x : FilterState) : Prop :=
  x.uc_adsr_state = ATTACK_STATE ∧ x.g_uc_filter_envelope_sync_flag = 0 ∧
  x.sn_adsr_adder_increment = q ∧ s0 ≤ x.uc_adsr_step_count ∧ x.uc_adsr_step_count ≤ 128 ∧
  x.sl_adsr_temp_adder = a0 + ((x.uc_adsr_step_count : Int) - s0) * q ∧ x.uc_adsr_timer ≤ 127

/-- No product or sum on the ramp leaves the range of its C type. -/
def RampFits (q a0 : Int) (s0 : Nat) : Prop :=
  ∀ k : Int, 0 ≤ k → k ≤ 128 - (s0 : Int) →
    -32768 ≤ k * q ∧ k * q ≤ 32767 ∧ -2147483648 ≤ a0 + k * q ∧ a0 + k * q ≤ 2147483647

/-- Upper bound on the number of calls the Attack ramp still needs: the
remaining timer plus 128 calls per step left. -/
def filter_attack_budget (x : FilterState) : Nat :=
  x.uc_adsr_timer + 128 * (128 - x.uc_adsr_step_count)

/-- First note-on of the two-note run: envelope amount 255, all times 0, key held. -/
def retrigger_env_a : FilterEnv := ⟨1, 0, 0, 0, 255, 0, 0, 0, 0, 0⟩

/-- Second note-on of the two-note run: envelope amount 129. -/
def retrigger_env_b : FilterEnv := ⟨1, 0, 0, 0, 129, 0, 0, 0, 0, 0⟩

/-- The statics after the first note-on's call, with the sync flag raised
again by the second note-on. -/
def retrigger_state : FilterState :=
  { (filter retrigger_env_a { filter_boot with g_uc_filter_envelope_sync_flag := 1 }).1 with
    g_uc_filter_envelope_sync_flag := 1 }

/-! ## oscillator.h / oscillator.c -/

def MORPH_2_TIME_PERIOD : Nat := 10
def PHASE_SHIFT_TIMER_2 : Nat := 50
def HALF_SAMPLE_MAX : Nat := 16383

/-- The two-dimensional wavetables declared in `wavetables.h` (32 tables of 256
samples); their contents are not part of the sources, so they are parameters. -/
structure OscTables where
  G_AUC_RAMP_WAVETABLE_LUT : Nat → Nat → Nat
  G_AUC_TRIANGLE_WAVETABLE_LUT : Nat → Nat → Nat

/-- A read `pgm_read_byte(&t[f][i])` of an `unsigned char` table entry. -/
def table_read2 (t : Nat → Nat → Nat) (f i : Nat) : Nat := u8 (t f i)

/-- The statics of `oscillator()` and the oscillator sync flag it clears. -/
structure OscState where
  uc_morph_timer : Nat
  uc_morph_index : Nat
  uc_morph_state : Nat
  uc_phase_shifter : Nat
  uc_phase_shift_timer : Nat
  un_morph_index : Nat
  un_morph_timer : Nat
  lfsr : Nat
  g_uc_oscillator_midi_sync_flag : Nat
deriving DecidableEq

/-- The statics of `oscillator()` at reset. -/
def osc_boot : OscState := ⟨0, 0, 0, 0, 0, 0, 0, LFSR_SEED, 0⟩

/-- `calculate_square()` (lines 669-699): the difference of two ramp samples
`uc_pulse_width` apart, recentred and limited. -/
def calculate_square (t : OscTables) (uc_sample_index uc_frequency uc_pulse_width : Nat) : Nat :=
  let uc_reverse_sample_index := u8 (uc_sample_index + 256 - uc_pulse_width % 256)
  let uc_temp := table_read2 t.G_AUC_RAMP_WAVETABLE_LUT uc_frequency uc_sample_index
  let sn_temp : Int := (uc_temp : Int)
    - (table_read2 t.G_AUC_RAMP_WAVETABLE_LUT uc_frequency uc_reverse_sample_index : Int)
  if sn_temp > 127 then 255
  else if sn_temp < -128 then 0
  else u8i (128 + sn_temp)

/-- `linear_interpolate()` (lines 708-724). -/
def linear_interpolate (uc_reference uc_sample_1 uc_sample_2 : Nat) : Nat :=
  let sn_difference : Int := (uc_sample_2 : Int) - uc_sample_1
  let sn_difference := s16 (sn_difference * uc_reference)
  let sn_difference := sn_difference >>> (8 : Nat)
  u8i (uc_sample_1 + sn_difference)

/-- Lines 150-164: the reset of the morph statics on the oscillator sync flag. -/
def oscillator_sync (uc_waveshape : Nat) (s : OscState) : OscState :=
  if s.g_uc_oscillator_midi_sync_flag = 1 then
    { s with
      g_uc_oscillator_midi_sync_flag := 0
      uc_morph_state := 0
      un_morph_index := 0
      uc_morph_timer := 0
      uc_morph_index := if uc_waveshape ≠ MORPH_7 then 0 else s.uc_morph_index }
  else s

/-- The blend of four neighbouring notes' tables used by `case RAMP:` and
`case TRIANGLE:` (lines 219-266 and 278-325). -/
def oscillator_blend (t : Nat → Nat → Nat) (uc_table_modulus uc_frequency uc_sample_index : Nat) :
    Nat :=
  let un_sample_calc :=
    if uc_table_modulus = 0 then
      u16 (table_read2 t uc_frequency uc_sample_index
        + table_read2 t (u8 (uc_frequency + 255)) uc_sample_index) >>> 1
    else if uc_table_modulus = 1 then
      u16 (u16 (table_read2 t uc_frequency uc_sample_index * 3)
        + table_read2 t (u8 (uc_frequency + 255)) uc_sample_index) >>> 2
    else if uc_table_modulus = 2 then
      u16 (u16 (table_read2 t uc_frequency uc_sample_index * 3)
        + table_read2 t (u8 (uc_frequency + 1)) uc_sample_index) >>> 2
    else if uc_table_modulus = 3 then
      u16 (table_read2 t uc_frequency uc_sample_index
        + table_read2 t (u8 (uc_frequency + 1)) uc_sample_index) >>> 1
    else 0
  u8 un_sample_calc

/-- The morph timer block `if(uc_morph_timer == 0) { uc_morph_index++;
uc_morph_timer = period; } uc_morph_timer--;`. -/
def oscillator_morph_tick (period : Nat) (s : OscState) : OscState :=
  let s :=
    if s.uc_morph_timer = 0 then
      { s with uc_morph_index := u8 (s.uc_morph_index + 1), uc_morph_timer := period }
    else s
  { s with uc_morph_timer := u8 (s.uc_morph_timer + 255) }

/-- The timer block of `case MORPH_5:` and `case MORPH_6:`, which advances the
16-bit `un_morph_index`. -/
def oscillator_morph_tick16 (period : Nat) (s : OscState) : OscState :=
  let s :=
    if s.uc_morph_timer = 0 then
      { s with un_morph_index := u16 (s.un_morph_index + 1), uc_morph_timer := period }
    else s
  { s with uc_morph_timer := u8 (s.uc_morph_timer + 255) }

/-- The cross-fade `(a * index + b * (255 - index)) >> 8` of `case MORPH_1:`
and `case MORPH_2:`. -/
def oscillator_crossfade (uc_morph_sample_1 uc_morph_sample_2 uc_morph_index : Nat) : Nat :=
  let un_temp := u16 (uc_morph_sample_1 * uc_morph_index)
  let un_temp2 := u16 (uc_morph_sample_2 * (255 - uc_morph_index))
  let un_temp := u16 (un_temp + un_temp2)
  u8 (un_temp >>> 8)

/-- The two enveloped oscillators of `case MORPH_5:` and `case MORPH_6:`
(lines 481-507 and 525-550), `first` being the table sample of the first one. -/
def oscillator_enveloped (w : WaveTables) (t : OscTables) (first uc_sample_index uc_frequency : Nat)
    (s : OscState) : OscState × Nat :=
  let uc_morph_sample_1 :=
    if s.un_morph_index < 255 then
      u8 (u16 (first * table_read w.G_AUC_RAMP_SIMPLE_WAVETABLE_LUT s.un_morph_index) >>> 8)
    else 0
  let uc_morph_sample_2 :=
    if s.un_morph_index > 128 ∧ s.un_morph_index < 383 then
      let uc_temp := u8 (s.un_morph_index + 65536 - 128)
      u8 (u16 (calculate_square t uc_sample_index uc_frequency s.uc_morph_index
        * (255 - table_read w.G_AUC_SIN_LUT uc_temp)) >>> 8)
    else 0
  let un_sample_calc := (uc_morph_sample_1 + uc_morph_sample_2) >>> 1
  ({ s with un_morph_index := if s.un_morph_index = 383 then 0 else s.un_morph_index },
   u8 un_sample_calc)

/-- The timer block of `case MORPH_4:` (lines 437-461): the index sweeps up to
255 and back down to 0. -/
def oscillator_morph4_tick (s : OscState) : OscState :=
  let s :=
    if s.uc_morph_timer = 0 then
      let s :=
        if s.uc_morph_state = 0 then
          let i := u8 (s.uc_morph_index + 1)
          { s with uc_morph_index := i, uc_morph_state := if i = 255 then 1 else s.uc_morph_state }
        else
          let i := u8 (s.uc_morph_index + 255)
          { s with uc_morph_index := i, uc_morph_state := if i = 0 then 0 else s.uc_morph_state }
      { s with uc_morph_timer := 250 }
    else s
  { s with uc_morph_timer := u8 (s.uc_morph_timer + 255) }

/-- The phase-shift timer block of `case MORPH_2:` (lines 372-379). -/
def oscillator_phase_tick (s : OscState) : OscState :=
  let s := { s with uc_phase_shift_timer := u8 (s.uc_phase_shift_timer + 255) }
  if s.uc_phase_shift_timer = 0 then
    { s with
      uc_phase_shifter := u8 (s.uc_phase_shifter + 1)
      uc_phase_shift_timer := PHASE_SHIFT_TIMER_2 }
  else s

/-- The timer block of `case MORPH_8:` (lines 579-586), on the 16-bit timer. -/
def oscillator_morph8_tick (s : OscState) : OscState :=
  let s :=
    if s.un_morph_timer = 0 then
      { s with uc_morph_index := u8 (s.uc_morph_index + 1), un_morph_timer := 4000 }
    else s
  { s with un_morph_timer := u16 (s.un_morph_timer + 65535) }

/-- The `switch(uc_waveshape)` of `oscillator()` (lines 181-651): the updated
statics and `uc_sample`. -/
def oscillator_switch (w : WaveTables) (t : OscTables) (s : OscState)
    (uc_waveshape un_sample_reference uc_frequency : Nat) : OscState × Nat :=
  let i7 := u8 (un_sample_reference >>> 7)
  let f2 := uc_frequency >>> 2
  if uc_waveshape = SIN then
    (s, linear_interpolate (un_sample_reference &&& 0x7F) (table_read w.G_AUC_SIN_LUT i7)
          (table_read w.G_AUC_SIN_LUT (u8 (i7 + 1))))
  else if uc_waveshape = SQUARE then (s, calculate_square t i7 f2 127)
  else if uc_waveshape = RAMP then
    (s, oscillator_blend t.G_AUC_RAMP_WAVETABLE_LUT (uc_frequency % 4) f2 i7)
  else if uc_waveshape = TRIANGLE then
    (s, oscillator_blend t.G_AUC_TRIANGLE_WAVETABLE_LUT (uc_frequency % 4) f2 i7)
  else if uc_waveshape = MORPH_1 then
    let s := oscillator_morph_tick 10 s
    let uc_morph_sample_1 := calculate_square t i7 f2 s.uc_morph_index
    let uc_morph_sample_2 := table_read2 t.G_AUC_RAMP_WAVETABLE_LUT f2 (u8 (i7 + 127))
    (s, oscillator_crossfade uc_morph_sample_1 uc_morph_sample_2 s.uc_morph_index)
  else if uc_waveshape = MORPH_2 then
    let s := oscillator_morph_tick MORPH_2_TIME_PERIOD s
    let s := oscillator_phase_tick s
    let uc_morph_sample_1 := table_read2 t.G_AUC_TRIANGLE_WAVETABLE_LUT f2 i7
    let uc_morph_sample_2 :=
      table_read2 t.G_AUC_RAMP_WAVETABLE_LUT f2 (u8 (i7 + s.uc_phase_shifter))
    (s, oscillator_crossfade uc_morph_sample_1 uc_morph_sample_2 s.uc_morph_index)
  else if uc_waveshape = MORPH_3 then
    let s := oscillator_morph_tick 50 s
    let uc_reverse_sample_index := u8 (i7 + 256 - s.uc_morph_index % 256)
    (s, lfo_recentre ((table_read2 t.G_AUC_TRIANGLE_WAVETABLE_LUT f2 i7 : Int)
          - (table_read2 t.G_AUC_RAMP_WAVETABLE_LUT f2 uc_reverse_sample_index : Int)))
  else if uc_waveshape = MORPH_4 then
    let s := oscillator_morph4_tick s
    (s, calculate_square t i7 f2 s.uc_morph_index)
  else if uc_waveshape = MORPH_5 then
    let s := oscillator_morph_tick16 10 s
    oscillator_enveloped w t (table_read w.G_AUC_SIN_LUT i7) i7 f2 s
  else if uc_waveshape = MORPH_6 then
    let s := oscillator_morph_tick16 50 s
    oscillator_enveloped w t (table_read w.G_AUC_RAMP_SIMPLE_WAVETABLE_LUT i7) i7 f2 s
  else if uc_waveshape = MORPH_7 then
    let s := oscillator_morph_tick 25 s
    (s, calculate_square t i7 f2 s.uc_morph_index)
  else if uc_waveshape = MORPH_8 then
    let s := oscillator_morph8_tick s
    (s, calculate_square t i7 f2 s.uc_morph_index)
  else if uc_waveshape = MORPH_9 then
    let s := oscillator_morph_tick 10 s
    (s, calculate_square t i7 f2 s.uc_morph_index)
  else if uc_waveshape = HARD_SYNC then
    (s, calculate_square t (u8 (un_sample_reference >>> 8)) (uc_frequency >>> 3) 126)
  else if uc_waveshape = NOISE then
    ({ s with lfsr := lfsr_next s.lfsr }, u8 (lfsr_next s.lfsr))
  else if uc_waveshape = RAW_SQUARE then
    (s, if un_sample_reference > HALF_SAMPLE_MAX then 255 else 0)
  else (s, table_read w.G_AUC_SIN_LUT i7)

/-- One call of `oscillator()`: the updated statics and the returned sample. -/
def oscillator (w : WaveTables) (t : OscTables) (s : OscState)
    (uc_waveshape un_sample_reference uc_frequency : Nat) : OscState × Nat :=
  oscillator_switch w t (oscillator_sync uc_waveshape s) uc_waveshape un_sample_reference
    uc_frequency

/-- The waveforms whose `case` reads no static variable. -/
def osc_static_free (uc_waveshape : Nat) : Prop :=
  uc_waveshape = SIN ∨ uc_waveshape = SQUARE ∨ uc_waveshape = RAMP ∨ uc_waveshape = TRIANGLE ∨
  uc_waveshape = HARD_SYNC ∨ uc_waveshape = RAW_SQUARE

instance (k : Nat) : Decidable (osc_static_free k) := by unfold osc_static_free; infer_instance

/-- All-zero wavetables, for evaluating the cases that read no table. -/
def zero_tables : WaveTables := ⟨fun _ => 0, fun _ => 0, fun _ => 0, fun _ => 0⟩

/-- All-zero two-dimensional wavetables. -/
def zero_osc_tables : OscTables := ⟨fun _ _ => 0, fun _ _ => 0⟩

/-! ## interrupt_routines.c: the sample interrupt -/

/-- The statics of `ISR(TIMER2_COMPA_vect)`, the two oscillator phases of the
global setting structure, and the statics of `oscillator()`, which it calls.
The flag `g_uc_sample_request_flag`, which the interrupt clears and nothing
embedded here reads, is left out. -/
structure IsrState where
  uc_last_sample : Nat
  uc_output : Nat
  aun_sample_reference_osc1 : Nat
  aun_sample_reference_osc2 : Nat
  osc : OscState
deriving DecidableEq

/-- What the interrupt only reads: the note-on flag, three entries of
`auc_synth_params`, the note indices and the note frequencies. -/
structure IsrEnv where
  g_uc_note_on_flag : Nat
  p_OSC_1_WAVESHAPE : Nat
  p_OSC_2_WAVESHAPE : Nat
  p_OSC_MIX : Nat
  auc_midi_note_index_osc1 : Nat
  auc_midi_note_index_osc2 : Nat
  aun_note_frequency_osc1 : Nat
  aun_note_frequency_osc2 : Nat
deriving DecidableEq

/-- What one run of the interrupt puts out: the value written to `OCR1BL` and
the argument triples of its `oscillator()` calls, in order. -/
structure IsrOut where
  OCR1BL : Nat
  oscillator_calls : List (Nat × Nat × Nat)
deriving DecidableEq

/-- The statics of the interrupt at reset: samples at 127, phases at 0. -/
def isr_boot : IsrState := ⟨127, 127, 0, 0, osc_boot⟩

/-- Lines 72-80: one subtraction of `SAMPLE_MAX` when the phase has reached it. -/
def isr_reduce (un_sample_reference : Nat) : Nat :=
  if un_sample_reference ≥ SAMPLE_MAX then un_sample_reference - SAMPLE_MAX
  else un_sample_reference

/-- Lines 95-104: the cross-fade of the two samples by the mix parameter. -/
def isr_mix (uc_temp1 uc_temp2 OSC_MIX : Nat) : Nat :=
  let un_temp1 := u16 (uc_temp1 * (255 - OSC_MIX))
  let un_temp2 := u16 (uc_temp2 * OSC_MIX)
  let un_temp1 := u16 (un_temp1 + un_temp2)
  u8 (un_temp1 >>> 8)

/-- Lines 111-115: the one-pole low-pass step. -/
def isr_low_pass (uc_sample uc_last_sample : Nat) : Nat :=
  let sn_low_pass_filter_calc : Int := s16 ((uc_sample : Int) - uc_last_sample)
  let sn_low_pass_filter_calc := sn_low_pass_filter_calc >>> (2 : Nat)
  let sn_low_pass_filter_calc := s16 (sn_low_pass_filter_calc + uc_last_sample)
  u8i sn_low_pass_filter_calc

/-- One run of `ISR(TIMER2_COMPA_vect)`. -/
def timer2_compa (w : WaveTables) (t : OscTables) (e : IsrEnv) (s : IsrState) :
    IsrState × IsrOut :=
  if 1 = e.g_uc_note_on_flag then
    let r1 := isr_reduce s.aun_sample_reference_osc1
    let r2 := isr_reduce s.aun_sample_reference_osc2
    let o1 := oscillator w t s.osc e.p_OSC_1_WAVESHAPE r1 e.auc_midi_note_index_osc1
    let o2 := oscillator w t o1.1 e.p_OSC_2_WAVESHAPE r2 e.auc_midi_note_index_osc2
    let uc_sample := isr_mix o1.2 o2.2 e.p_OSC_MIX
    let uc_output := isr_low_pass uc_sample s.uc_last_sample
    ({ uc_last_sample := uc_output
       uc_output := uc_output
       aun_sample_reference_osc1 := u16 (r1 + e.aun_note_frequency_osc1)
       aun_sample_reference_osc2 := u16 (r2 + e.aun_note_frequency_osc2)
       osc := o2.1 },
     ⟨s.uc_output, [(e.p_OSC_1_WAVESHAPE, r1, e.auc_midi_note_index_osc1),
                    (e.p_OSC_2_WAVESHAPE, r2, e.auc_midi_note_index_osc2)]⟩)
  else
    ({ s with uc_output := 0, aun_sample_reference_osc1 := 0, aun_sample_reference_osc2 := 0 },
     ⟨s.uc_output, []⟩)

/-- A sequence of sample interrupts: the final statics and all `oscillator()`
argument triples, in order. -/
def timer2_run (w : WaveTables) (t : OscTables) :
    IsrState → List IsrEnv → IsrState × List (Nat × Nat × Nat)
  | s, [] => (s, [])
  | s, e :: es =>
    ((timer2_run w t (timer2_compa w t e s).1 es).1,
     (timer2_compa w t e s).2.oscillator_calls ++ (timer2_run w t (timer2_compa w t e s).1 es).2)

/-- Both phases are at most `SAMPLE_MAX - 1` plus the largest table frequency. -/
def PhaseInv (s : IsrState) : Prop :=
  s.aun_sample_reference_osc1 ≤ 32766 + 12544 ∧ s.aun_sample_reference_osc2 ≤ 32766 + 12544

/-- Both note frequencies are at most the largest entry of `AUN_FREQ_LUT`. -/
def IsrEnv.table_freq (e : IsrEnv) : Prop :=
  e.aun_note_frequency_osc1 ≤ 12544 ∧ e.aun_note_frequency_osc2 ≤ 12544

instance (s : IsrState) : Decidable (PhaseInv s) := by unfold PhaseInv; infer_instance
instance (e : IsrEnv) : Decidable e.table_freq := by unfold IsrEnv.table_freq; infer_instance

/-- Note on, noise on both oscillators, the highest note with its table
frequency 12544. -/
def top_note_env : IsrEnv := ⟨1, NOISE, NOISE, 0, 127, 127, 12544, 12544⟩

/-! ## States that differ in the LFO destination slot -/

/-- The parameter arrays with `auc_synth_params[dest]` replaced by `v`, where
`dest` is the slot the LFO destination parameter decodes to. -/
def set_dest_slot (g : ParamArrays) (v : Nat) : ParamArrays :=
  let dest := auc_lfo_dest_decode.getD (g.auc_synth_params LFO_DEST) 0
  { g with auc_synth_params := array_set g.auc_synth_params dest v }

/-! ## midi.h -/

def MIDI_NOTE_NUMBER : Nat := 0
def MIDI_NOTE_VELOCITY : Nat := 1

def MESSAGE_TYPE_NULL : Nat := 0
def MESSAGE_TYPE_NOTE_ON : Nat := 1
def MESSAGE_TYPE_NOTE_OFF : Nat := 2
def MESSAGE_TYPE_PROGRAM_CHANGE : Nat := 3
def MESSAGE_TYPE_CONTROL_CHANGE : Nat := 4
def MESSAGE_TYPE_MIDI_START : Nat := 5
def MESSAGE_TYPE_MIDI_STOP : Nat := 6
def MESSAGE_TYPE_PITCH_WHEEL : Nat := 7

def LENGTH_OF_ACTIVE_NOTE_ARRAY : Nat := 12
def MIDI_CONTROLLER_0_INDEX : Nat := 2

/-! ## sprockit_main.h: further parameter indices -/

def ARPEGGIATOR_MODE : Nat := 26
def NUMBER_OF_PARAMETERS : Nat := 32

/-! ## midi.c -/

/-- The structure `MIDI_MESSAGE`. -/
structure MIDI_MESSAGE where
  uc_message_type : Nat
  uc_data_byte_one : Nat
  uc_data_byte_two : Nat
deriving DecidableEq

/-- What `midi_interpret_incoming_message()` reads and writes: the parameter
arrays, note index and velocity of the global setting structure, the key-press
flag, the four sync flags, and the active-note table of `midi.c` with its
count.  The table `auc_midi_active_notes[i][j]` is a function of both indices. -/
structure MidiState where
  g : ParamArrays
  auc_midi_note_index_osc1 : Nat
  uc_note_velocity : Nat
  g_uc_key_press_flag : Nat
  g_uc_lfo_midi_sync_flag : Nat
  g_uc_adsr_midi_sync_flag : Nat
  g_uc_filter_envelope_sync_flag : Nat
  g_uc_oscillator_midi_sync_flag : Nat
  auc_midi_active_notes : Nat → Nat → Nat
  uc_midi_number_active_notes : Nat

/-- Assignment `a[i][j] = v` on a two-dimensional array modelled as a function. -/
def array_set2 (a : Nat → Nat → Nat) (i j v : Nat) : Nat → Nat → Nat :=
  fun i' j' => if i' = i ∧ j' = j then v else a i' j'

/-- `midi_add_active_note()` (lines 102-115). -/
def midi_add_active_note (uc_note_number uc_note_velocity : Nat) (s : MidiState) : MidiState :=
  if s.uc_midi_number_active_notes ≠ LENGTH_OF_ACTIVE_NOTE_ARRAY then
    let a := array_set2 s.auc_midi_active_notes s.uc_midi_number_active_notes MIDI_NOTE_NUMBER
      uc_note_number
    let a := array_set2 a s.uc_midi_number_active_notes MIDI_NOTE_VELOCITY uc_note_velocity
    { s with
      auc_midi_active_notes := a
      uc_midi_number_active_notes := u8 (s.uc_midi_number_active_notes + 1) }
  else s

/-- Lines 148-152: the loop that moves the entries above the removed one down
by one place, from `uc_reorder_index` while it is below `n`; `fuel` bounds the
number of iterations. -/
def midi_reorder (n : Nat) : Nat → Nat → (Nat → Nat → Nat) → (Nat → Nat → Nat)
  | 0, _, a => a
  | fuel + 1, uc_reorder_index, a =>
    if uc_reorder_index < n then
      let a := array_set2 a uc_reorder_index MIDI_NOTE_NUMBER
        (a (uc_reorder_index + 1) MIDI_NOTE_NUMBER)
      let a := array_set2 a uc_reorder_index MIDI_NOTE_VELOCITY
        (a (uc_reorder_index + 1) MIDI_NOTE_VELOCITY)
      midi_reorder n fuel (u8 (uc_reorder_index + 1)) a
    else a

/-- Lines 136-164: one pass of the search loop of `midi_remove_active_note()`
at `uc_search_index`. -/
def midi_remove_step (uc_note_number : Nat) (s : MidiState) (uc_search_index : Nat) : MidiState :=
  if s.auc_midi_active_notes uc_search_index MIDI_NOTE_NUMBER = uc_note_number then
    let a := array_set2 s.auc_midi_active_notes uc_search_index MIDI_NOTE_NUMBER 255
    let a := array_set2 a uc_search_index MIDI_NOTE_VELOCITY 0
    let n := u8 (s.uc_midi_number_active_notes + 255)
    let a := if uc_search_index ≠ n then midi_reorder n 256 uc_search_index a else a
    let note := if n > 0 then a (n - 1) MIDI_NOTE_NUMBER else s.auc_midi_note_index_osc1
    let velocity := if n > 0 then a (n - 1) MIDI_NOTE_VELOCITY else s.uc_note_velocity
    let a := array_set2 a n MIDI_NOTE_NUMBER 255
    let a := array_set2 a n MIDI_NOTE_VELOCITY 0
    { s with
      auc_midi_active_notes := a
      uc_midi_number_active_notes := n
      auc_midi_note_index_osc1 := note
      uc_note_velocity := velocity }
  else s

/-- `midi_remove_active_note()` (lines 123-166): the search loop runs over the
indices 0 to `LENGTH_OF_ACTIVE_NOTE_ARRAY - 2`. -/
def midi_remove_active_note (uc_note_number : Nat) (s : MidiState) : MidiState :=
  (List.range (LENGTH_OF_ACTIVE_NOTE_ARRAY - 1)).foldl (midi_remove_step uc_note_number) s

/-- The `case MESSAGE_TYPE_CONTROL_CHANGE:` arm (lines 627-658). -/
def midi_control_change (uc_data_byte_one uc_data_byte_two : Nat) (g : ParamArrays) :
    ParamArrays :=
  let uc_data_byte_one :=
    if uc_data_byte_one > 2 then u8 (uc_data_byte_one + 256 - MIDI_CONTROLLER_0_INDEX)
    else LFO_AMOUNT
  let external :=
    if uc_data_byte_one ≠ PITCH_SHIFT then
      array_set g.auc_external_params uc_data_byte_one (u8 (uc_data_byte_two <<< 1))
    else g.auc_external_params
  let source := array_set g.auc_parameter_source uc_data_byte_one SOURCE_EXTERNAL
  let params :=
    if uc_data_byte_one ≠ auc_lfo_dest_decode.getD (g.auc_synth_params LFO_DEST) 0 then
      array_set g.auc_synth_params uc_data_byte_one (u8 (uc_data_byte_two <<< 1))
    else g.auc_synth_params
  { g with
    auc_external_params := external
    auc_parameter_source := source
    auc_synth_params := params }

/-- `midi_interpret_incoming_message()` (lines 574-674). -/
def midi_interpret_incoming_message (mm_the_message : MIDI_MESSAGE) (s : MidiState) : MidiState :=
  let uc_message_type := mm_the_message.uc_message_type
  let uc_data_byte_one := mm_the_message.uc_data_byte_one
  let uc_data_byte_two := mm_the_message.uc_data_byte_two
  if uc_message_type = MESSAGE_TYPE_NOTE_ON then
    let s := { s with
      g_uc_lfo_midi_sync_flag := 1
      g_uc_adsr_midi_sync_flag := 1
      g_uc_filter_envelope_sync_flag := 1
      g_uc_oscillator_midi_sync_flag := 1 }
    let s := midi_add_active_note uc_data_byte_one uc_data_byte_two s
    if s.g.auc_synth_params ARPEGGIATOR_MODE = 0 then
      { s with
        auc_midi_note_index_osc1 := uc_data_byte_one
        uc_note_velocity := uc_data_byte_two
        g_uc_key_press_flag := 1 }
    else s
  else if uc_message_type = MESSAGE_TYPE_NOTE_OFF then
    let s := midi_remove_active_note uc_data_byte_one s
    if s.uc_midi_number_active_notes = 0 then { s with g_uc_key_press_flag := 0 } else s
  else if uc_message_type = MESSAGE_TYPE_CONTROL_CHANGE then
    { s with g := midi_control_change uc_data_byte_one uc_data_byte_two s.g }
  else if uc_message_type = MESSAGE_TYPE_PITCH_WHEEL then
    { s with g := { s.g with
        auc_synth_params := array_set s.g.auc_synth_params PITCH_SHIFT uc_data_byte_two } }
  else s

/-- The state of the MIDI variables at reset: everything zero. -/
def midi_boot : MidiState :=
  ⟨⟨fun _ => 0, fun _ => 0, fun _ => 0, fun _ => 0⟩, 0, 0, 0, 0, 0, 0, 0, fun _ _ => 0, 0⟩

/-- A full active-note table (twelve held notes 40..51 at velocity 64) with
note 51 sounding and the arpeggiator off. -/
def full_table_state : MidiState :=
  { midi_boot with
    auc_midi_note_index_osc1 := 51
    uc_note_velocity := 64
    g_uc_key_press_flag := 1
    auc_midi_active_notes := fun i j => if i < 12 then (if j = 0 then 40 + i else 64) else 0
    uc_midi_number_active_notes := 12 }

/-- The table lookups of `lfo()` at lines 94-100 and the accesses to the
parameter arrays at the decoded destination, each as (index, number of entries
of the table). -/
def lfo_lookups (g : ParamArrays) : List (Nat × Nat) :=
  [(g.auc_synth_params LFO_RATE >>> 3, 32),
   (g.auc_synth_params LFO_DEST, 8),
   (auc_lfo_dest_decode.getD (g.auc_synth_params LFO_DEST) 0, NUMBER_OF_PARAMETERS)]

/-- The slot a control change addresses, in the words of the specification:
`LFO_AMOUNT` for controllers 0 to 2, otherwise the controller number less 2. -/
def control_change_slot (c : Nat) : Nat := if c ≤ 2 then LFO_AMOUNT else c - 2

/-- The active LFO destination: the slot `auc_synth_params[LFO_DEST]` decodes to. -/
def active_lfo_dest (g : ParamArrays) : Nat :=
  auc_lfo_dest_decode.getD (g.auc_synth_params LFO_DEST) 0

/-! ## Inputs for evaluating the sine interpolation and the pot split -/

/-- A sine table whose entry 0 is 0 and whose other entries are 128. -/
def step_sin_tables : WaveTables :=
  ⟨fun i => if i = 0 then 0 else 128, fun _ => 0, fun _ => 0, fun _ => 0⟩

/-- Inputs with the cutoff knob at 255: key held, resonance 0, envelope amount
at the centre, all envelope times 0. -/
def top_cutoff_env : FilterEnv := ⟨1, 0, 255, 0, 128, 0, 0, 0, 0, 0⟩

/-! ## Table numbers of the blend; glide inputs -/

/-- The numbers of the tables `case RAMP:` and `case TRIANGLE:` read (lines
223-253): the band table `uc_frequency` and then, after `uc_frequency--` or
`uc_frequency++` on an `unsigned char`, its neighbour. -/
def oscillator_blend_rows (uc_table_modulus uc_frequency : Nat) : List Nat :=
  if uc_table_modulus = 0 then [uc_frequency, u8 (uc_frequency + 255)]
  else if uc_table_modulus = 1 then [uc_frequency, u8 (uc_frequency + 255)]
  else if uc_table_modulus = 2 then [uc_frequency, u8 (uc_frequency + 1)]
  else if uc_table_modulus = 3 then [uc_frequency, u8 (uc_frequency + 1)]
  else []

/-- Two-dimensional wavetables that are 0 throughout the bank of 32 tables and
200 at every table number outside it. -/
def outside_bank_tables : OscTables :=
  ⟨fun f _ => if f < 32 then 0 else 200, fun f _ => if f < 32 then 0 else 200⟩

/-- Glide inputs with the given portamento: no detune, pitch shift at the
centre, LFO destination amplitude, note on. -/
def portamento_env (p : Nat) : PitchEnv := ⟨128, p, 64, 0, 1⟩

/-- Note 0 sounding (both frequencies and the remembered old frequencies at
`AUN_FREQ_LUT[0] = 8`, pitch shift remembered at the centre) when the note
index changes to 127. -/
def leap_start : PitchState :=
  { pitch_boot with
    auc_midi_note_index_osc1 := 127
    aun_note_frequency_osc1 := 8
    aun_note_frequency_osc2 := 8
    uc_old_pitch_shift := 64
    un_old_oscillator_frequency_osc1 := 8
    un_old_oscillator_frequency_osc2 := 8 }

/-! ## Glide target (spec side) -/

/-- Spec side: `clamp(x, 0, 127)` of a signed note number. -/
def clamp_note (x : Int) : Nat := (max 0 (min 127 x)).toNat

/-- Spec side: the note whose table frequency a glide ends on,
`clamp(note + (shift - 64), 0, 127)`. -/
def glide_target_note (note shift : Nat) : Nat :=
  clamp_note ((note : Int) + ((shift : Int) - 64))

/-- The glide bookkeeping `j` ticks after a recompute: the remembered inputs
match the current ones, the shifted notes are `t1` and `t2`, and each oscillator
has either counted `j` steps or has finished counting and sits on its target. -/
def GlideInv (c n1 n2 t1 t2 j : Nat) (s : PitchState) : Prop :=
  s.auc_midi_note_index_osc1 = n1 ∧ s.auc_midi_note_index_osc2 = n2 ∧
  s.uc_old_pitch_shift = c ∧ s.uc_old_midi_note_number = n1 ∧
  s.uc_midi_note_number_osc1_shifted = t1 ∧ s.uc_midi_note_number_osc2_shifted = t2 ∧
  s.uc_pitch_shift_incrementer_osc1 ≤ 255 ∧ s.uc_pitch_shift_incrementer_osc2 ≤ 255 ∧
  ((j ≤ s.uc_pitch_shift_increment_counter_osc1 ∧
      s.uc_pitch_shift_increment_counter_osc1 ≤ s.uc_pitch_shift_incrementer_osc1) ∨
    (s.uc_pitch_shift_increment_counter_osc1 = s.uc_pitch_shift_incrementer_osc1 ∧
      s.aun_note_frequency_osc1 = freq_lut t1)) ∧
  ((j ≤ s.uc_pitch_shift_increment_counter_osc2 ∧
      s.uc_pitch_shift_increment_counter_osc2 ≤ s.uc_pitch_shift_incrementer_osc2) ∨
    (s.uc_pitch_shift_increment_counter_osc2 = s.uc_pitch_shift_incrementer_osc2 ∧
      s.aun_note_frequency_osc2 = freq_lut t2))


/-! ## Control-change slot; rest inputs of the filter; inputs of the pitch claims -/

/-- Lines 633-641 of `midi.c`: the slot a control change addresses, as the code
computes it from the controller number. -/
def midi_control_change_index (uc_data_byte_one : Nat) : Nat :=
  if uc_data_byte_one > 2 then u8 (uc_data_byte_one + 256 - MIDI_CONTROLLER_0_INDEX)
  else LFO_AMOUNT

/-- Parameter arrays with the given LFO wave shape and amount, everything else 0. -/
def lfo_shape_params (shape amount : Nat) : ParamArrays :=
  ⟨fun _ => 0,
   fun i => if i = LFO_WAVESHAPE then shape else if i = LFO_AMOUNT then amount else 0,
   fun _ => 0, fun _ => 0⟩

/-- The inputs of `calculate_pitch()` as `main()` leaves them (lines 102-117):
`PITCH_SHIFT` 127, `PORTAMENTO` 0, detune and LFO destination at their reset
value 0 (destination amplitude), with a note on. -/
def boot_pitch_env : PitchEnv := ⟨0, 0, 127, 0, 1⟩

/-- Reset state of the pitch variables with note 60 held. -/
def first_note_start : PitchState := { pitch_boot with auc_midi_note_index_osc1 := 60 }

/-- Glide inputs (LFO destination pitch shift, note on; portamento 0, pitch
shift at the centre) with the given detune parameter. -/
def detune_glide_env (detune : Nat) : PitchEnv := ⟨detune, 0, 64, 2, 1⟩

/-- The pitch variables settled on the note `old` (oscillator 1 at
`AUN_FREQ_LUT[old]`, oscillator 2 at `AUN_FREQ_LUT[old2]`) when the note index
changes to `new`. -/
def settled_then (old old2 new : Nat) : PitchState :=
  { pitch_boot with
    auc_midi_note_index_osc1 := new
    auc_midi_note_index_osc2 := old2
    aun_note_frequency_osc1 := freq_lut old
    aun_note_frequency_osc2 := freq_lut old2
    uc_old_midi_note_number := old
    uc_old_pitch_shift := 64
    uc_midi_note_number_osc1_shifted := old
    uc_midi_note_number_osc2_shifted := old2
    un_old_oscillator_frequency_osc1 := freq_lut old
    un_old_oscillator_frequency_osc2 := freq_lut old2 }

/-- The divisors of the divisions one call of `filter()` evaluates, in order:
`uc_adsr_step_count` at line 89 when the key is released and the drone flag is
off, and `uc_remaining_number_of_adsr_steps` at line 129 when the sync flag is
set and the guard of line 127 lets the division run. -/
def filter_divisors (e : FilterEnv) (s : FilterState) : List Nat :=
  (if 0 = e.g_uc_key_press_flag ∧ e.g_uc_drone_flag = FALSE then [s.uc_adsr_step_count]
   else []) ++
  (if 1 = (filter_key e s).g_uc_filter_envelope_sync_flag then
     (if u8i ((NUMBER_OF_FILTER_ADSR_STEPS : Int) - (filter_key e s).uc_adsr_step_count) > 0 then
        [u8i ((NUMBER_OF_FILTER_ADSR_STEPS : Int) - (filter_key e s).uc_adsr_step_count)]
      else [])
   else [])

/-- Key released, drone off, cutoff knob 100, envelope amount 128, all times 0;
`d` is what the division routine delivers for a zero divisor. -/
def released_env (d : Int) : FilterEnv := ⟨0, 0, 100, 0, 128, 0, 0, 0, 0, d⟩

/-- Key held, drone off, envelope amount 128, attack knob 255, everything else 0. -/
def slow_attack_env : FilterEnv := ⟨1, 0, 0, 0, 128, 0, 255, 0, 0, 0⟩

/-- The MIDI variables after the messages `ms` have been interpreted in order. -/
def midi_run (ms : List MIDI_MESSAGE) (s : MidiState) : MidiState :=
  ms.foldl (fun x m => midi_interpret_incoming_message m x) s

/-- Note-on messages for the notes `ns`, in order, at velocity 64. -/
def note_ons (ns : List Nat) : List MIDI_MESSAGE :=
  ns.map (fun n => ⟨MESSAGE_TYPE_NOTE_ON, n, 64⟩)

/-- Note-off messages for the notes `ns`, in order. -/
def note_offs (ns : List Nat) : List MIDI_MESSAGE :=
  ns.map (fun n => ⟨MESSAGE_TYPE_NOTE_OFF, n, 0⟩)

/-- The active-note table holds the notes `L`, oldest first: the count is the
length of `L`, the note column agrees with `L` on the entries below the count,
and every entry from the count on is 0 (never written since reset) or 255
(vacated). -/
def TableHolds (s : MidiState) (L : List Nat) : Prop :=
  s.uc_midi_number_active_notes = L.length ∧ L.length ≤ 12 ∧
  (∀ i x, L[i]? = some x → s.auc_midi_active_notes i MIDI_NOTE_NUMBER = x) ∧
  (∀ i, L.length ≤ i → i < 12 →
    s.auc_midi_active_notes i MIDI_NOTE_NUMBER = 0 ∨
    s.auc_midi_active_notes i MIDI_NOTE_NUMBER = 255)

/-- The held notes after a note-off for `n`, as the search loop finds them: `n`
is taken out when it stands in one of the first eleven places. -/
def held_after_off (L : List Nat) (n : Nat) : List Nat :=
  if n ∈ L.take 11 then L.erase n else L

/-- The held notes and the key-press flag after a note-off for `n`. -/
def off_effect (x : List Nat × Nat) (n : Nat) : List Nat × Nat :=
  (held_after_off x.1 n, if (held_after_off x.1 n).length = 0 then 0 else x.2)

/-! ## midi.c: the incoming message FIFO -/

def MIDI_MESSAGE_INCOMING_FIFO_SIZE : Nat := 12

/-- The array `g_midi_message_incoming_fifo`, the message count and the two
pointers of the incoming FIFO. -/
structure FifoState where
  g_midi_message_incoming_fifo : Nat → MIDI_MESSAGE
  g_uc_midi_messages_in_incoming_fifo : Nat
  uc_midi_incoming_fifo_write_pointer : Nat
  uc_midi_incoming_fifo_read_pointer : Nat

/-- `init_midi_incoming_fifo()` (lines 63-69). -/
def init_midi_incoming_fifo (s : FifoState) : FifoState :=
  { s with
    g_uc_midi_messages_in_incoming_fifo := 0
    uc_midi_incoming_fifo_write_pointer := 0
    uc_midi_incoming_fifo_read_pointer := 0 }

/-- `get_midi_message_from_incoming_fifo()` (lines 211-230): the new statics
and the caller's message variable after the call. -/
def get_midi_message_from_incoming_fifo (mm_the_message : MIDI_MESSAGE) (s : FifoState) :
    FifoState × MIDI_MESSAGE :=
  if s.g_uc_midi_messages_in_incoming_fifo > 0 then
    let mm : MIDI_MESSAGE :=
      ⟨(s.g_midi_message_incoming_fifo s.uc_midi_incoming_fifo_read_pointer).uc_message_type,
       (s.g_midi_message_incoming_fifo s.uc_midi_incoming_fifo_read_pointer).uc_data_byte_one,
       (s.g_midi_message_incoming_fifo s.uc_midi_incoming_fifo_read_pointer).uc_data_byte_two⟩
    let p := u8 (s.uc_midi_incoming_fifo_read_pointer + 1)
    let p := if p ≥ MIDI_MESSAGE_INCOMING_FIFO_SIZE then 0 else p
    ({ s with
       uc_midi_incoming_fifo_read_pointer := p
       g_uc_midi_messages_in_incoming_fifo := u8 (s.g_uc_midi_messages_in_incoming_fifo + 255) },
     mm)
  else (s, mm_the_message)

/-- `put_midi_message_in_incoming_fifo()` (lines 232-251). -/
def put_midi_message_in_incoming_fifo (mm_the_message : MIDI_MESSAGE) (s : FifoState) :
    FifoState :=
  if s.g_uc_midi_messages_in_incoming_fifo < MIDI_MESSAGE_INCOMING_FIFO_SIZE then
    let mm : MIDI_MESSAGE :=
      ⟨mm_the_message.uc_message_type, mm_the_message.uc_data_byte_one,
       mm_the_message.uc_data_byte_two⟩
    let p := u8 (s.uc_midi_incoming_fifo_write_pointer + 1)
    let p := if p ≥ MIDI_MESSAGE_INCOMING_FIFO_SIZE then 0 else p
    { s with
      g_midi_message_incoming_fifo :=
        fun i => if i = s.uc_midi_incoming_fifo_write_pointer then mm
                 else s.g_midi_message_incoming_fifo i
      uc_midi_incoming_fifo_write_pointer := p
      g_uc_midi_messages_in_incoming_fifo := u8 (s.g_uc_midi_messages_in_incoming_fifo + 1) }
  else s

/-- A call on the FIFO: a put of a message, or a get. -/
inductive FifoOp where
  | put (m : MIDI_MESSAGE)
  | get

/-- One call on the FIFO: the statics, the caller's message variable, and the
values that variable had after each get so far. -/
def fifo_step (x : FifoState × MIDI_MESSAGE × List MIDI_MESSAGE) :
    FifoOp → FifoState × MIDI_MESSAGE × List MIDI_MESSAGE
  | FifoOp.put m => (put_midi_message_in_incoming_fifo m x.1, x.2.1, x.2.2)
  | FifoOp.get =>
    ((get_midi_message_from_incoming_fifo x.2.1 x.1).1,
     (get_midi_message_from_incoming_fifo x.2.1 x.1).2,
     x.2.2 ++ [(get_midi_message_from_incoming_fifo x.2.1 x.1).2])

/-- Spec side: the same call on a queue of at most 12 messages held as a list,
oldest first. -/
def queue_step (x : List MIDI_MESSAGE × MIDI_MESSAGE × List MIDI_MESSAGE) :
    FifoOp → List MIDI_MESSAGE × MIDI_MESSAGE × List MIDI_MESSAGE
  | FifoOp.put m => (if x.1.length < 12 then x.1 ++ [m] else x.1, x.2.1, x.2.2)
  | FifoOp.get =>
    match x.1 with
    | [] => ([], x.2.1, x.2.2 ++ [x.2.1])
    | m :: q => (q, m, x.2.2 ++ [m])

/-- The queued messages of a FIFO state, oldest first: the count's worth of
entries from the read pointer on, wrapping at the end of the array. -/
def fifo_contents (s : FifoState) : List MIDI_MESSAGE :=
  (List.range s.g_uc_midi_messages_in_incoming_fifo).map
    (fun i => s.g_midi_message_incoming_fifo ((s.uc_midi_incoming_fifo_read_pointer + i) % 12))

/-- The read pointer is inside the array, the count is at most 12, and the
write pointer is the count's worth of entries ahead of the read pointer. -/
def FifoInv (s : FifoState) : Prop :=
  s.uc_midi_incoming_fifo_read_pointer < 12 ∧ s.g_uc_midi_messages_in_incoming_fifo ≤ 12 ∧
  s.uc_midi_incoming_fifo_write_pointer
    = (s.uc_midi_incoming_fifo_read_pointer + s.g_uc_midi_messages_in_incoming_fifo) % 12

/-! # Verified properties -/

theorem adsr_sync_fields (e : AdsrEnv) (s : AdsrState) :
    (adsr_sync e s).uc_adsr_multiplier = s.uc_adsr_multiplier ∧
    (adsr_sync e s).uc_sustain_level = s.uc_sustain_level ∧
    (adsr_sync e s).uc_adsr_timer = s.uc_adsr_timer ∧
    (adsr_sync e s).g_uc_note_on_flag = s.g_uc_note_on_flag := by
  unfold adsr_sync; split <;> simp

theorem adsr_key_fields (e : AdsrEnv) (s : AdsrState) :
    (adsr_key e s).uc_adsr_multiplier = s.uc_adsr_multiplier ∧
    (adsr_key e s).uc_sustain_level = s.uc_sustain_level ∧
    (adsr_key e s).uc_adsr_timer = s.uc_adsr_timer ∧
    (adsr_key e s).uc_velocity = s.uc_velocity ∧
    (adsr_key e s).g_uc_adsr_midi_sync_flag = s.g_uc_adsr_midi_sync_flag := by
  unfold adsr_key; split <;> simp

theorem sustain_level_of_bounds (v k : Nat) :
    47 ≤ sustain_level_of v k ∧ sustain_level_of v k < 256 := by
  simp only [sustain_level_of, u8, u16, NUMBER_OF_ADSR_STEPS, SUSTAIN_MIN_VALUE,
    Nat.shiftRight_eq_div_pow, Nat.reducePow, Nat.reduceSub]
  generalize v * k = p
  have hx : p % 65536 / 256 ≤ 255 := by omega
  generalize p % 65536 / 256 = x at hx ⊢
  have hm : x * 208 % 65536 = x * 208 := Nat.mod_eq_of_lt (by omega)
  have hy : x * 208 % 65536 / 256 ≤ 207 := by rw [hm]; omega
  generalize x * 208 % 65536 / 256 = y at hy ⊢
  omega

theorem adsr_timer_inv (e : AdsrEnv) (s : AdsrState) (h : AdsrInv s) : AdsrInv (adsr_timer e s) := by
  obtain ⟨h1, h2, h3⟩ := h
  have hs := sustain_level_of_bounds s.uc_velocity e.ADSR_SUSTAIN
  unfold sustain_level_of at hs
  unfold adsr_timer adsr_attack adsr_decay adsr_release AdsrInv
  simp only [u8, NUMBER_OF_ADSR_STEPS, ADSR_MIN_VALUE] at *
  split_ifs <;> (try simp only []) <;> omega

theorem adsr_inv (e : AdsrEnv) (s : AdsrState) (h : AdsrInv s) : AdsrInv (adsr e s) := by
  apply adsr_timer_inv
  obtain ⟨k1, k2, _, _, _⟩ := adsr_key_fields e (adsr_sync e s)
  obtain ⟨s1, s2, _, _⟩ := adsr_sync_fields e s
  unfold AdsrInv at *
  rw [k1, k2, s1, s2]; exact h

theorem adsr_tick_inv (s : AdsrState) (t : AdsrTick) (h : AdsrInv s) : AdsrInv (adsr_tick s t) := by
  unfold adsr_tick
  apply adsr_inv
  split
  · exact h
  · exact h

theorem adsr_run_inv (ts : List AdsrTick) (s : AdsrState) (h : AdsrInv s) :
    AdsrInv (adsr_run s ts) := by
  induction ts generalizing s with
  | nil => exact h
  | cons t ts ih => exact ih _ (adsr_tick_inv s t h)

theorem adsr_boot_inv : AdsrInv adsr_boot := by
  unfold AdsrInv adsr_boot ADSR_MIN_VALUE; simp

/-- C1, evaluation of the code: three slow ticks after boot (a note-on with
velocity 1, all four envelope knobs at 0, key held) the multiplier is 44, below
`ADSR_MIN_VALUE` = 47: the Decay arm decrements once and then subtracts 4,
guarding against 0 only, where the Release arm stops at `ADSR_MIN_VALUE`. -/
theorem adsr_floor_47_violated :
    (∀ t ∈ trace_v1.take 3, t.env.wf ∧ t.env.uc_note_velocity ≤ 127) ∧
    (adsr_run adsr_boot (trace_v1.take 3)).uc_adsr_multiplier = 44 ∧
    ¬ (ADSR_MIN_VALUE ≤ (adsr_run adsr_boot (trace_v1.take 3)).uc_adsr_multiplier) := by
  decide

theorem set_amplitude_floor (m a : Nat) :
    ADSR_MIN_VALUE ≤ set_amplitude m a ∧ set_amplitude m a < 256 := by
  simp only [set_amplitude, u8, u16, ADSR_MIN_VALUE, Nat.shiftRight_eq_div_pow, Nat.reducePow]
  generalize m * a = p
  have hx : p % 65536 / 256 ≤ 255 := by omega
  generalize p % 65536 / 256 = x at hx ⊢
  split_ifs <;> omega

/-- How far the Decay arm can take the multiplier: along every run from boot it
stays at 43 or above, and the value `set_amplitude` derives from it for the VCA
is clamped to `ADSR_MIN_VALUE` (47) or above. -/
theorem adsr_multiplier_floor (ts : List AdsrTick) (a : Nat) :
    ADSR_MIN_VALUE - 4 ≤ (adsr_run adsr_boot ts).uc_adsr_multiplier ∧
    ADSR_MIN_VALUE ≤ set_amplitude (adsr_run adsr_boot ts).uc_adsr_multiplier a := by
  refine ⟨?_, (set_amplitude_floor _ _).1⟩
  have h := adsr_run_inv ts adsr_boot adsr_boot_inv
  simp only [ADSR_MIN_VALUE]
  exact h.2.1

/-! ### Attack (C8) -/

/-- C8, counterexample: after a note-on with velocity 2 the ceiling is 50 and
the multiplier 49; the next expiry in Attack adds 2 and gives 51, above the
ceiling. -/
theorem attack_overshoots_ceiling :
    (adsr_run adsr_boot [⟨true, ⟨1, 2, 0, 0, 0, 0⟩⟩]).uc_state = ATTACK ∧
    (adsr_run adsr_boot [⟨true, ⟨1, 2, 0, 0, 0, 0⟩⟩]).uc_adsr_timer = 0 ∧
    (adsr_run adsr_boot [⟨true, ⟨1, 2, 0, 0, 0, 0⟩⟩]).g_uc_adsr_midi_sync_flag = 0 ∧
    (adsr_run adsr_boot [⟨true, ⟨1, 2, 0, 0, 0, 0⟩⟩]).uc_adsr_multiplier = 49 ∧
    (adsr_run adsr_boot [⟨true, ⟨1, 2, 0, 0, 0, 0⟩⟩]).uc_velocity = 50 ∧
    (adsr ⟨1, 2, 0, 0, 0, 0⟩ (adsr_run adsr_boot [⟨true, ⟨1, 2, 0, 0, 0, 0⟩⟩])).uc_adsr_multiplier = 51 ∧
    ¬ ((adsr ⟨1, 2, 0, 0, 0, 0⟩ (adsr_run adsr_boot [⟨true, ⟨1, 2, 0, 0, 0, 0⟩⟩])).uc_adsr_multiplier
        ≤ (adsr ⟨1, 2, 0, 0, 0, 0⟩ (adsr_run adsr_boot [⟨true, ⟨1, 2, 0, 0, 0, 0⟩⟩])).uc_velocity) := by
  decide

theorem adsr_held_nosync (e : AdsrEnv) (s : AdsrState)
    (hkey : e.g_uc_key_press_flag ≠ 0) (hsync : s.g_uc_adsr_midi_sync_flag ≠ 1) :
    adsr e s = adsr_timer e { s with g_uc_note_on_flag := 1 } := by
  unfold adsr adsr_sync adsr_key
  rw [if_neg hsync, if_neg (fun h => hkey h.symm)]

/-- C8, amended: in Attack at a timer expiry, key held and no sync pending, the
ceiling is unchanged.  Below the ceiling the state stays Attack and the
multiplier strictly increases: with the attack knob below 192 it becomes
`m + 2` while `m < 253` and 255 otherwise, with the knob at 192 or above it
becomes `m + 1` while `m < 253` and 255 otherwise; so it rises by at most 2, to
at most ceiling + 1, and with step 1 and a ceiling of at most 253 it does not
pass the ceiling.  At or above the ceiling the state becomes Decay and the
multiplier is unchanged. -/
theorem adsr_attack_expiry (e : AdsrEnv) (s : AdsrState)
    (hstate : s.uc_state = ATTACK) (htimer : s.uc_adsr_timer = 0)
    (hkey : e.g_uc_key_press_flag ≠ 0) (hsync : s.g_uc_adsr_midi_sync_flag ≠ 1)
    (hceil : s.uc_velocity < 256) :
    (adsr e s).uc_velocity = s.uc_velocity ∧
    (s.uc_adsr_multiplier < s.uc_velocity →
      s.uc_adsr_multiplier < (adsr e s).uc_adsr_multiplier ∧
      (adsr e s).uc_adsr_multiplier ≤ s.uc_adsr_multiplier + 2 ∧
      (adsr e s).uc_adsr_multiplier ≤ s.uc_velocity + 1 ∧
      (192 ≤ e.ADSR_ATTACK → s.uc_velocity ≤ 253 →
        (adsr e s).uc_adsr_multiplier = s.uc_adsr_multiplier + 1 ∧
        (adsr e s).uc_adsr_multiplier ≤ s.uc_velocity) ∧
      (adsr e s).uc_state = ATTACK ∧
      (e.ADSR_ATTACK < 192 →
        (adsr e s).uc_adsr_multiplier
          = if s.uc_adsr_multiplier < 253 then s.uc_adsr_multiplier + 2 else 255) ∧
      (192 ≤ e.ADSR_ATTACK →
        (adsr e s).uc_adsr_multiplier
          = if s.uc_adsr_multiplier < 253 then s.uc_adsr_multiplier + 1 else 255) ∧
      (e.ADSR_ATTACK < 192 → s.uc_velocity ≤ 253 →
        (adsr e s).uc_adsr_multiplier = s.uc_adsr_multiplier + 2)) ∧
    (s.uc_velocity ≤ s.uc_adsr_multiplier →
      (adsr e s).uc_state = DECAY ∧ (adsr e s).uc_adsr_multiplier = s.uc_adsr_multiplier) := by
  rw [adsr_held_nosync e s hkey hsync]
  simp only [ATTACK] at hstate
  unfold adsr_timer adsr_attack
  simp only [htimer, hstate, u8, NUMBER_OF_ADSR_STEPS, ATTACK, DECAY]
  refine ⟨?_, ?_, ?_⟩
  · split_ifs <;> simp
  · intro hlt
    simp only [lt_irrefl, if_false, if_true, hlt]
    split_ifs <;> simp only [] <;>
      exact ⟨by omega, by omega, by omega, fun h1 h2 => by omega, trivial,
        fun h1 => by first | trivial | omega, fun h1 => by first | trivial | omega,
        fun h1 h2 => by omega⟩
  · intro hge
    have : ¬ s.uc_adsr_multiplier < s.uc_velocity := by omega
    simp [this]

/-- C8, instance: from multiplier 47 under the ceiling 209, attack knob 100
gives 49 and attack knob 200 gives 48; from 253 under the ceiling 255 either
knob gives 255. -/
theorem adsr_attack_expiry_witness :
    (adsr ⟨1, 100, 100, 64, 127, 64⟩ ⟨0, ATTACK, 127, 209, 47, 0, 1⟩).uc_adsr_multiplier = 49 ∧
    (adsr ⟨1, 100, 200, 64, 127, 64⟩ ⟨0, ATTACK, 127, 209, 47, 0, 1⟩).uc_adsr_multiplier = 48 ∧
    (adsr ⟨1, 100, 100, 64, 127, 64⟩ ⟨0, ATTACK, 127, 255, 253, 0, 1⟩).uc_adsr_multiplier = 255 ∧
    (adsr ⟨1, 100, 200, 64, 127, 64⟩ ⟨0, ATTACK, 127, 255, 253, 0, 1⟩).uc_adsr_multiplier = 255 :=
  ⟨((adsr_attack_expiry ⟨1, 100, 100, 64, 127, 64⟩ ⟨0, ATTACK, 127, 209, 47, 0, 1⟩
      rfl rfl (by decide) (by decide) (by decide)).2.1 (by decide)).2.2.2.2.2.1 (by decide),
   ((adsr_attack_expiry ⟨1, 100, 200, 64, 127, 64⟩ ⟨0, ATTACK, 127, 209, 47, 0, 1⟩
      rfl rfl (by decide) (by decide) (by decide)).2.1 (by decide)).2.2.2.2.2.2.1 (by decide),
   ((adsr_attack_expiry ⟨1, 100, 100, 64, 127, 64⟩ ⟨0, ATTACK, 127, 255, 253, 0, 1⟩
      rfl rfl (by decide) (by decide) (by decide)).2.1 (by decide)).2.2.2.2.2.1 (by decide),
   ((adsr_attack_expiry ⟨1, 100, 200, 64, 127, 64⟩ ⟨0, ATTACK, 127, 255, 253, 0, 1⟩
      rfl rfl (by decide) (by decide) (by decide)).2.1 (by decide)).2.2.2.2.2.2.1 (by decide)⟩

/-! ### Sustain (C9) -/

/-- C9, counterexample: with the key held throughout, the run of four ticks
from boot enters Decay with sustain level 47 (the formula at ceiling 48, knob
0) and reaches Sustain with multiplier 44, which is not the sustain level. -/
theorem sustain_below_level :
    (∀ t ∈ trace_v1, t.env.g_uc_key_press_flag = 1) ∧
    (adsr_run adsr_boot (trace_v1.take 2)).uc_state = DECAY ∧
    (adsr_run adsr_boot (trace_v1.take 2)).uc_sustain_level
      = ((((48 * 0) >>> 8) * (255 - 47)) >>> 8) + 47 ∧
    (adsr_run adsr_boot trace_v1).uc_state = SUSTAIN ∧
    (adsr_run adsr_boot trace_v1).uc_sustain_level = 47 ∧
    (adsr_run adsr_boot trace_v1).uc_adsr_multiplier = 44 ∧
    (adsr_run adsr_boot trace_v1).uc_adsr_multiplier
      ≠ (adsr_run adsr_boot trace_v1).uc_sustain_level := by
  decide

theorem adsr_sync_flag (e : AdsrEnv) (s : AdsrState) :
    (adsr_sync e s).g_uc_adsr_midi_sync_flag ≠ 1 ∧
    ((adsr_sync e s).uc_state = ATTACK ∨ (adsr_sync e s).uc_state = s.uc_state) := by
  unfold adsr_sync
  split
  · simp
  · exact ⟨by assumption, Or.inr rfl⟩

theorem adsr_key_state (e : AdsrEnv) (s : AdsrState) :
    (adsr_key e s).uc_state = RELEASE ∨ (adsr_key e s).uc_state = s.uc_state := by
  unfold adsr_key; split <;> simp

theorem adsr_timer_sync_flag (e : AdsrEnv) (s : AdsrState) :
    (adsr_timer e s).g_uc_adsr_midi_sync_flag = s.g_uc_adsr_midi_sync_flag := by
  unfold adsr_timer adsr_attack adsr_decay adsr_release
  split_ifs <;> rfl

theorem adsr_sync_flag_cleared (e : AdsrEnv) (s : AdsrState) :
    (adsr e s).g_uc_adsr_midi_sync_flag ≠ 1 := by
  unfold adsr
  rw [adsr_timer_sync_flag, (adsr_key_fields e _).2.2.2.2]
  exact (adsr_sync_flag e s).1

theorem adsr_timer_sustain (e : AdsrEnv) (s : AdsrState)
    (h : s.uc_state = SUSTAIN → s.uc_adsr_multiplier ≤ s.uc_sustain_level)
    (h2 : (adsr_timer e s).uc_state = SUSTAIN) :
    (adsr_timer e s).uc_adsr_multiplier ≤ (adsr_timer e s).uc_sustain_level := by
  revert h h2
  unfold adsr_timer adsr_attack adsr_decay adsr_release
  simp only [ATTACK, DECAY, SUSTAIN, RELEASE]
  split_ifs <;> intro h h2 <;> (try simp only [] at h2 ⊢) <;> omega

theorem adsr_sustain_inv (e : AdsrEnv) (s : AdsrState)
    (h2 : s.uc_state = SUSTAIN → s.uc_adsr_multiplier ≤ s.uc_sustain_level) :
    SustainInv (adsr e s) := by
  refine ⟨adsr_sync_flag_cleared e s, ?_⟩
  unfold adsr
  apply adsr_timer_sustain
  obtain ⟨k1, k2, _, _, _⟩ := adsr_key_fields e (adsr_sync e s)
  obtain ⟨s1, s2, _, _⟩ := adsr_sync_fields e s
  rw [k1, k2, s1, s2]
  intro hst
  apply h2
  rcases adsr_key_state e (adsr_sync e s) with hk | hk
  · rw [hk] at hst; simp [RELEASE, SUSTAIN] at hst
  · rw [hk] at hst
    rcases (adsr_sync_flag e s).2 with hs | hs
    · rw [hs] at hst; simp [ATTACK, SUSTAIN] at hst
    · rw [← hs]; exact hst

theorem adsr_tick_sustain_inv (s : AdsrState) (t : AdsrTick) (h : SustainInv s) :
    SustainInv (adsr_tick s t) := by
  unfold adsr_tick
  split
  · exact adsr_sustain_inv _ _ h.2
  · exact adsr_sustain_inv _ _ h.2

theorem adsr_run_sustain_inv (ts : List AdsrTick) (s : AdsrState) (h : SustainInv s) :
    SustainInv (adsr_run s ts) := by
  induction ts generalizing s with
  | nil => exact h
  | cons t ts ih => exact ih _ (adsr_tick_sustain_inv s t h)

theorem adsr_boot_sustain_inv : SustainInv adsr_boot := by
  unfold SustainInv adsr_boot SUSTAIN; simp

/-- In Sustain, with the key held and no pending sync, `adsr()` changes
neither the state nor the multiplier nor the sustain level. -/
theorem adsr_sustain_hold (e : AdsrEnv) (s : AdsrState)
    (hstate : s.uc_state = SUSTAIN) (hkey : e.g_uc_key_press_flag ≠ 0)
    (hsync : s.g_uc_adsr_midi_sync_flag ≠ 1) :
    (adsr e s).uc_state = SUSTAIN ∧ (adsr e s).uc_adsr_multiplier = s.uc_adsr_multiplier ∧
    (adsr e s).uc_sustain_level = s.uc_sustain_level ∧
    (adsr e s).g_uc_adsr_midi_sync_flag ≠ 1 := by
  rw [adsr_held_nosync e s hkey hsync]
  simp only [SUSTAIN] at hstate
  unfold adsr_timer
  simp only [hstate, ATTACK, DECAY, SUSTAIN]
  split_ifs <;> simp_all

theorem adsr_run_sustain_hold (ts : List AdsrTick) (s : AdsrState)
    (hstate : s.uc_state = SUSTAIN) (hsync : s.g_uc_adsr_midi_sync_flag ≠ 1)
    (hts : ∀ t ∈ ts, t.held) :
    (adsr_run s ts).uc_state = SUSTAIN ∧
    (adsr_run s ts).uc_adsr_multiplier = s.uc_adsr_multiplier ∧
    (adsr_run s ts).uc_sustain_level = s.uc_sustain_level := by
  induction ts generalizing s with
  | nil => exact ⟨hstate, rfl, rfl⟩
  | cons t ts ih =>
    obtain ⟨ht1, ht2⟩ := hts t (List.mem_cons_self _ _)
    have hstep := adsr_sustain_hold t.env s hstate ht2 hsync
    have htick : adsr_tick s t = adsr t.env s := by unfold adsr_tick; simp [ht1]
    have := ih (adsr_tick s t) (htick ▸ hstep.1) (htick ▸ hstep.2.2.2)
      (fun u hu => hts u (List.mem_cons_of_mem _ hu))
    simp only [adsr_run, List.foldl_cons] at this ⊢
    rw [htick] at this ⊢
    exact ⟨this.1, this.2.1.trans hstep.2.1, this.2.2.trans hstep.2.2.1⟩

/-- Entering Decay stores the sustain level of the formula. -/
theorem adsr_enter_decay (e : AdsrEnv) (s : AdsrState)
    (hstate : s.uc_state = ATTACK) (htimer : s.uc_adsr_timer = 0)
    (hkey : e.g_uc_key_press_flag ≠ 0) (hsync : s.g_uc_adsr_midi_sync_flag ≠ 1)
    (hceil : s.uc_velocity < 256) (hknob : e.ADSR_SUSTAIN < 256)
    (hge : s.uc_velocity ≤ s.uc_adsr_multiplier) :
    (adsr e s).uc_state = DECAY ∧
    (adsr e s).uc_sustain_level
      = ((((s.uc_velocity * e.ADSR_SUSTAIN) >>> 8) * (255 - 47)) >>> 8) + 47 := by
  rw [adsr_held_nosync e s hkey hsync]
  simp only [ATTACK] at hstate
  have hnot : ¬ s.uc_adsr_multiplier < s.uc_velocity := by omega
  have hp : s.uc_velocity * e.ADSR_SUSTAIN ≤ 255 * 255 := Nat.mul_le_mul (by omega) (by omega)
  unfold adsr_timer adsr_attack
  simp only [htimer, hstate, hnot, ATTACK, DECAY, lt_irrefl, if_false, if_true, u8, u16,
    NUMBER_OF_ADSR_STEPS, SUSTAIN_MIN_VALUE, Nat.shiftRight_eq_div_pow, Nat.reducePow, Nat.reduceSub,
    true_and]
  generalize s.uc_velocity * e.ADSR_SUSTAIN = p at hp ⊢
  have h1 : p % 65536 = p := Nat.mod_eq_of_lt (by omega)
  rw [h1]
  have hx : p / 256 ≤ 254 := by omega
  generalize p / 256 = x at hx ⊢
  have h2 : x * 208 % 65536 = x * 208 := Nat.mod_eq_of_lt (by omega)
  rw [h2]
  omega

/-- C9, amended: whenever a run from boot is in Sustain the multiplier is at
most the stored sustain level; while the key stays held and no note-on
arrives the state stays Sustain and the multiplier is unchanged; and the level
stored on entering Decay is
`((((ceiling * sustain_knob) >> 8) * (255 - 47)) >> 8) + 47`. -/
theorem adsr_sustain_contract (ts hold : List AdsrTick)
    (hS : (adsr_run adsr_boot ts).uc_state = SUSTAIN) (hheld : ∀ t ∈ hold, t.held) :
    (adsr_run adsr_boot ts).uc_adsr_multiplier ≤ (adsr_run adsr_boot ts).uc_sustain_level ∧
    (adsr_run (adsr_run adsr_boot ts) hold).uc_state = SUSTAIN ∧
    (adsr_run (adsr_run adsr_boot ts) hold).uc_adsr_multiplier
      = (adsr_run adsr_boot ts).uc_adsr_multiplier ∧
    (∀ (e : AdsrEnv) (s : AdsrState), s.uc_state = ATTACK → s.uc_adsr_timer = 0 →
      e.g_uc_key_press_flag ≠ 0 → s.g_uc_adsr_midi_sync_flag ≠ 1 →
      s.uc_velocity < 256 → e.ADSR_SUSTAIN < 256 → s.uc_velocity ≤ s.uc_adsr_multiplier →
      (adsr e s).uc_state = DECAY ∧
      (adsr e s).uc_sustain_level
        = ((((s.uc_velocity * e.ADSR_SUSTAIN) >>> 8) * (255 - 47)) >>> 8) + 47) := by
  have hinv := adsr_run_sustain_inv ts adsr_boot adsr_boot_sustain_inv
  have hh := adsr_run_sustain_hold hold (adsr_run adsr_boot ts) hS hinv.1 hheld
  exact ⟨hinv.2 hS, hh.1, hh.2.1, adsr_enter_decay⟩

/-- C9, instance: the four-tick run from boot followed by one held tick. -/
theorem adsr_sustain_contract_witness :
    (adsr_run adsr_boot trace_v1).uc_adsr_multiplier ≤ 47 ∧
    (adsr_run (adsr_run adsr_boot trace_v1) [⟨false, ⟨1, 1, 9, 9, 9, 9⟩⟩]).uc_adsr_multiplier
      = (adsr_run adsr_boot trace_v1).uc_adsr_multiplier := by
  have h := adsr_sustain_contract trace_v1 [⟨false, ⟨1, 1, 9, 9, 9, 9⟩⟩] (by decide) (by decide)
  exact ⟨h.1, h.2.2.1⟩

/-! ### Release (C10) -/

theorem adsr_released (e : AdsrEnv) (s : AdsrState) (hkey : e.g_uc_key_press_flag = 0) :
    adsr e s = adsr_timer e { adsr_sync e s with uc_state := RELEASE } := by
  unfold adsr adsr_key
  rw [if_pos hkey.symm]

theorem adsr_timer_of_release (e : AdsrEnv) (s : AdsrState) (h : s.uc_state = RELEASE) :
    adsr_timer e s =
      if s.uc_adsr_timer > 0 then { s with uc_adsr_timer := s.uc_adsr_timer - 1 }
      else adsr_release e s := by
  unfold adsr_timer
  simp [h, RELEASE, ATTACK, DECAY, SUSTAIN]

theorem adsr_release_step (e : AdsrEnv) (s : AdsrState) (hkey : e.g_uc_key_press_flag = 0)
    (he : e.ADSR_RELEASE < 256) :
    (adsr e s).uc_adsr_multiplier ≤ s.uc_adsr_multiplier ∧
    (((adsr e s).uc_state = ATTACK ∧ (adsr e s).g_uc_note_on_flag = 0) ∨
      release_budget (adsr e s) + 1 ≤ release_budget s) := by
  rw [adsr_released e s hkey, adsr_timer_of_release _ _ rfl]
  obtain ⟨s1, _, s3, _⟩ := adsr_sync_fields e s
  unfold adsr_release release_budget
  simp only [ATTACK, u8, ADSR_MIN_VALUE, hkey, s1, s3,
    Nat.shiftRight_eq_div_pow, Nat.reducePow]
  split_ifs <;> simp only [s1, s3] <;> first | contradiction | omega | simp


theorem adsr_release_within (n : Nat) (ts : List AdsrTick) (s : AdsrState)
    (hb : release_budget s ≤ n) (hlen : n ≤ ts.length) (hts : ∀ t ∈ ts, t.released) :
    ∃ k, 1 ≤ k ∧ k ≤ n ∧
      (adsr_run s (ts.take k)).uc_state = ATTACK ∧
      (adsr_run s (ts.take k)).g_uc_note_on_flag = 0 := by
  induction n generalizing ts s with
  | zero => unfold release_budget at hb; omega
  | succ n ih =>
    match ts, hlen, hts with
    | [], hlen, _ => simp at hlen
    | t :: ts, hlen, hts =>
      obtain ⟨hk, hw⟩ := hts t (List.mem_cons_self _ _)
      have hstep := (adsr_release_step t.env (if t.sync then { s with g_uc_adsr_midi_sync_flag := 1 } else s)
        hk hw.2.2.2.2.2).2
      have hbud : release_budget (if t.sync then { s with g_uc_adsr_midi_sync_flag := 1 } else s)
          = release_budget s := by
        split <;> rfl
      rw [hbud] at hstep
      rcases hstep with hdone | hdec
      · exact ⟨1, le_refl _, by omega, hdone⟩
      · obtain ⟨k, hk1, hk2, hk3⟩ := ih ts (adsr_tick s t) (by unfold adsr_tick; omega)
          (by simpa using hlen) (fun u hu => hts u (List.mem_cons_of_mem _ hu))
        exact ⟨k + 1, by omega, by omega, by simpa [adsr_run] using hk3⟩

theorem adsr_tick_released_le (s : AdsrState) (t : AdsrTick) (ht : t.released) :
    (adsr_tick s t).uc_adsr_multiplier ≤ s.uc_adsr_multiplier := by
  have h := (adsr_release_step t.env (if t.sync then { s with g_uc_adsr_midi_sync_flag := 1 } else s)
    ht.1 ht.2.2.2.2.2.2).1
  unfold adsr_tick
  refine le_trans h ?_
  split <;> exact le_refl _

theorem release_budget_le (s : AdsrState) (hw : s.wf) : release_budget s ≤ 13568 := by
  obtain ⟨h1, _, _, _, h5, _⟩ := hw
  unfold release_budget ADSR_MIN_VALUE
  omega

theorem adsr_run_append (s : AdsrState) (xs ys : List AdsrTick) :
    adsr_run s (xs ++ ys) = adsr_run (adsr_run s xs) ys := by
  unfold adsr_run; exact List.foldl_append _ _ _ _

theorem adsr_run_take_succ (s : AdsrState) (ts : List AdsrTick) (k : Nat)
    (hts : ∀ t ∈ ts, t.released) :
    (adsr_run s (ts.take (k + 1))).uc_adsr_multiplier
      ≤ (adsr_run s (ts.take k)).uc_adsr_multiplier := by
  rw [List.take_succ, adsr_run_append]
  cases h : ts[k]? with
  | none => exact le_refl _
  | some t =>
    have hmem : t ∈ ts := List.getElem?_mem h
    exact adsr_tick_released_le _ t (hts t hmem)

/-- C10: with the key released on every tick, from any state with 8-bit
fields, the multiplier never increases from one tick to the next, and within
at most 13568 ticks the state is Attack and the note-on flag is cleared. -/
theorem adsr_release_terminates (s : AdsrState) (ts : List AdsrTick) (hw : s.wf)
    (hlen : 13568 ≤ ts.length) (hts : ∀ t ∈ ts, t.released) :
    (∀ k, (adsr_run s (ts.take (k + 1))).uc_adsr_multiplier
        ≤ (adsr_run s (ts.take k)).uc_adsr_multiplier) ∧
    ∃ k, 1 ≤ k ∧ k ≤ 13568 ∧
      (adsr_run s (ts.take k)).uc_state = ATTACK ∧
      (adsr_run s (ts.take k)).g_uc_note_on_flag = 0 :=
  ⟨fun k => adsr_run_take_succ s ts k hts,
   adsr_release_within 13568 ts s (release_budget_le s hw) hlen hts⟩

/-- C10, instance: the slowest release, from multiplier 255 with timer 255
and release knob 255. -/
theorem adsr_release_terminates_witness :
    ∃ k, 1 ≤ k ∧ k ≤ 13568 ∧
      (adsr_run ⟨255, SUSTAIN, 127, 253, 255, 0, 1⟩
        ((List.replicate 13568 ⟨false, ⟨0, 0, 255, 255, 255, 255⟩⟩).take k)).uc_state = ATTACK ∧
      (adsr_run ⟨255, SUSTAIN, 127, 253, 255, 0, 1⟩
        ((List.replicate 13568 ⟨false, ⟨0, 0, 255, 255, 255, 255⟩⟩).take k)).g_uc_note_on_flag = 0 :=
  (adsr_release_terminates ⟨255, SUSTAIN, 127, 253, 255, 0, 1⟩
    (List.replicate 13568 ⟨false, ⟨0, 0, 255, 255, 255, 255⟩⟩) (by decide)
    (by rw [List.length_replicate])
    (fun t ht => by rw [List.eq_of_mem_replicate ht]; decide)).2

/-! ### Note table (C7) -/

theorem freq_lut_step : ∀ i, i < 127 → freq_lut i ≤ freq_lut (i + 1) := by
  unfold freq_lut
  decide!

/-- C7: the note-to-frequency table is monotonically non-decreasing on the
note indices 0..127. -/
theorem freq_lut_monotone (m n : Nat) (hmn : m ≤ n) (hn : n ≤ 127) :
    freq_lut m ≤ freq_lut n := by
  induction n with
  | zero =>
    have : m = 0 := by omega
    subst this; exact le_refl _
  | succ k ih =>
    rcases Nat.eq_or_lt_of_le hmn with h | h
    · subst h; exact le_refl _
    · exact le_trans (ih (by omega) (by omega)) (freq_lut_step k (by omega))

/-- C7, instance: notes 59 and 60. -/
theorem freq_lut_monotone_witness : freq_lut 59 ≤ freq_lut 60 :=
  freq_lut_monotone 59 60 (by decide) (by decide)

/-! ### Bypass path (C2) -/

/-- C2, counterexample: with portamento 0 and pitch shift 64, but the LFO
destination set to pitch shift while a note is on, one `calculate_pitch()` tick
from frequency 8 towards note 60 leaves oscillator 1 at 9, not at
`AUN_FREQ_LUT[60] = 262`. -/
theorem pitch_lfo_gate_glides :
    (calculate_pitch ⟨128, 0, 64, 2, 1⟩
      { pitch_boot with auc_midi_note_index_osc1 := 60, aun_note_frequency_osc1 := 8,
                        aun_note_frequency_osc2 := 8 }).auc_midi_note_index_osc1 = 60 ∧
    (calculate_pitch ⟨128, 0, 64, 2, 1⟩
      { pitch_boot with auc_midi_note_index_osc1 := 60, aun_note_frequency_osc1 := 8,
                        aun_note_frequency_osc2 := 8 }).aun_note_frequency_osc1 = 9 ∧
    freq_lut 60 = 262 := by
  decide!

theorem pitch_startup_note (s : PitchState) :
    (pitch_startup s).auc_midi_note_index_osc1 = s.auc_midi_note_index_osc1 := by
  unfold pitch_startup; split <;> rfl

theorem pitch_detune_note (e : PitchEnv) (s : PitchState) :
    (pitch_detune e s).auc_midi_note_index_osc1 = s.auc_midi_note_index_osc1 := by
  unfold pitch_detune; simp only []; split_ifs <;> rfl

/-- C2, amended: with portamento 0 and pitch shift 64, and unless the LFO
destination is pitch shift while a note is on, one `calculate_pitch()` tick
leaves both note frequencies equal to the table entries of their note indices,
for every prior state. -/
theorem pitch_bypass_lookup (e : PitchEnv) (s : PitchState)
    (hport : e.p_PORTAMENTO = 0) (hps : e.p_PITCH_SHIFT = 64)
    (hlfo : ¬ (auc_lfo_dest_decode.getD e.p_LFO_DEST 0 = PITCH_SHIFT ∧ e.g_uc_note_on_flag = 1)) :
    (calculate_pitch e s).aun_note_frequency_osc1
      = freq_lut (calculate_pitch e s).auc_midi_note_index_osc1 ∧
    (calculate_pitch e s).aun_note_frequency_osc2
      = freq_lut (calculate_pitch e s).auc_midi_note_index_osc2 ∧
    (calculate_pitch e s).auc_midi_note_index_osc1 = s.auc_midi_note_index_osc1 := by
  have hc : pitch_shift_compress e.p_PITCH_SHIFT = ZERO_PITCH_BEND := by rw [hps]; decide
  have hg : pitch_glide_required e ZERO_PITCH_BEND = false := by
    unfold pitch_glide_required
    rw [hport]
    have : (auc_lfo_dest_decode.getD e.p_LFO_DEST 0 == PITCH_SHIFT && 1 == e.g_uc_note_on_flag)
        = false := by
      by_contra hne
      apply hlfo
      simp only [Bool.not_eq_false, Bool.and_eq_true, beq_iff_eq] at hne
      exact ⟨hne.1, hne.2.symm⟩
    rw [this]; decide
  unfold calculate_pitch
  simp only [hc, hg, Bool.false_eq_true, if_false]
  unfold pitch_bypass
  simp only [pitch_detune_note, pitch_startup_note, and_self]

/-- C2, instance: note 60 with a stale glide state gives 262 at once. -/
theorem pitch_bypass_lookup_witness :
    (calculate_pitch ⟨128, 0, 64, 0, 1⟩
      { pitch_boot with auc_midi_note_index_osc1 := 60, uc_old_pitch_shift := 70,
                        aun_note_frequency_osc1 := 1234 }).aun_note_frequency_osc1 = 262 := by
  have h := (pitch_bypass_lookup ⟨128, 0, 64, 0, 1⟩
      { pitch_boot with auc_midi_note_index_osc1 := 60, uc_old_pitch_shift := 70,
                        aun_note_frequency_osc1 := 1234 } rfl rfl (by decide)).1
  rw [h]; decide

/-! ### Glide (C3) -/

/-- C3, evaluation of the code: gliding from `AUN_FREQ_LUT[59] = 247` to
`AUN_FREQ_LUT[0] = 8` the increment is -2 for 128 steps; the frequency is 9
after 119 ticks, 7 (past the target) after 120, wraps to 65535 after 124,
is 65527 after 128 and only then snaps to 8. -/
theorem glide_overshoots_and_wraps :
    glide_start.aun_note_frequency_osc1 = freq_lut 59 ∧
    glide_start.auc_midi_note_index_osc1 = 0 ∧ freq_lut 0 = 8 ∧
    (calculate_pitch glide_env glide_start).sn_pitch_shift_increment_osc1 = -2 ∧
    (calculate_pitch glide_env glide_start).uc_pitch_shift_incrementer_osc1 = 128 ∧
    (calculate_pitch_n glide_env 119 glide_start).aun_note_frequency_osc1 = 9 ∧
    (calculate_pitch_n glide_env 120 glide_start).aun_note_frequency_osc1 = 7 ∧
    (calculate_pitch_n glide_env 124 glide_start).aun_note_frequency_osc1 = 65535 ∧
    (calculate_pitch_n glide_env 128 glide_start).aun_note_frequency_osc1 = 65527 ∧
    (calculate_pitch_n glide_env 129 glide_start).aun_note_frequency_osc1 = 8 := by
  decide!

/-! ### Noise generator (C6) -/

/-- C6, evaluation of the code: both noise sites compute the third tap as
`lfsr ^ 12` rather than `lfsr >> 12`.  At the seed 0xACE1 the code's feedback
bit is 0 while the XOR of bits 15, 13, 12 and 10 is 1; the first register value
is 0x59C2 (sample 0xC2) against 0x59C3 (sample 0xC3) for the reference, and
the first four samples differ throughout. -/
theorem noise_feedback_differs_from_reference :
    lfsr_bit LFSR_SEED = 0 ∧
    ((LFSR_SEED >>> 15) ^^^ (LFSR_SEED >>> 13) ^^^ (LFSR_SEED >>> 12) ^^^ (LFSR_SEED >>> 10)) &&& 1 = 1 ∧
    oscillator_noise LFSR_SEED = (0x59C2, 0xC2) ∧
    (lfo_sample ⟨fun _ => 0, fun _ => 0, fun _ => 0, fun _ => 0⟩
      ⟨fun _ => 0, fun i => if i = LFO_WAVESHAPE then NOISE else 0, fun _ => 0, fun _ => 0⟩
      lfo_boot).2 = 0xC2 ∧
    lfsr_reference_next LFSR_SEED = 0x59C3 ∧
    noise_samples 4 LFSR_SEED = [0xC2, 0x84, 0x08, 0x10] ∧
    reference_samples 4 LFSR_SEED = [0xC3, 0x87, 0x0F, 0x1E] := by
  decide!

/-! ### Auxiliary task rotation (C5) -/

theorem aux_state_le (inp : Nat → AuxIn) (n : Nat) : aux_state_after inp n ≤ 4 := by
  induction n with
  | zero => simp [aux_state_after]
  | succ k ih =>
    simp only [aux_state_after, aux_task, AUX_TASK_SPI, AUX_TASK_READ_AD, AUX_TASK_CALC_PITCH,
      AUX_TASK_LFO, AUX_TASK_MIDI]
    split_ifs <;> simp only [] <;> omega

theorem aux_task_cases (st : Nat) (hst : st ≤ 4) (i1 i2 i3 i4 i5 : AuxIn) :
    (aux_task st i1).2 = (st + 1) % 5 ∧
    (aux_task (aux_task (aux_task (aux_task (aux_task st i1).2 i2).2 i3).2 i4).2 i5).2 = st ∧
    ∀ calls, calls = (aux_task st i1).1 ++ ((aux_task (aux_task st i1).2 i2).1 ++
        ((aux_task (aux_task (aux_task st i1).2 i2).2 i3).1 ++
        ((aux_task (aux_task (aux_task (aux_task st i1).2 i2).2 i3).2 i4).1 ++
        ((aux_task (aux_task (aux_task (aux_task (aux_task st i1).2 i2).2 i3).2 i4).2 i5).1
          ++ [])))) →
      calls.count AuxCall.spi = 1 ∧ calls.count AuxCall.calculate_pitch = 1 ∧
      calls.count AuxCall.lfo = 1 ∧ calls.count AuxCall.read_ad ≤ 1 ∧
      calls.count AuxCall.midi_interpret_incoming_message ≤ 1 := by
  obtain ⟨a1, m1⟩ := i1
  obtain ⟨a2, m2⟩ := i2
  obtain ⟨a3, m3⟩ := i3
  obtain ⟨a4, m4⟩ := i4
  obtain ⟨a5, m5⟩ := i5
  interval_cases st
  · refine ⟨rfl, rfl, ?_⟩; rintro _ rfl; cases a2 <;> cases m5 <;>
      simp [aux_task, AUX_TASK_SPI, AUX_TASK_READ_AD, AUX_TASK_CALC_PITCH, AUX_TASK_LFO, AUX_TASK_MIDI]
  · refine ⟨rfl, rfl, ?_⟩; rintro _ rfl; cases a1 <;> cases m4 <;>
      simp [aux_task, AUX_TASK_SPI, AUX_TASK_READ_AD, AUX_TASK_CALC_PITCH, AUX_TASK_LFO, AUX_TASK_MIDI]
  · refine ⟨rfl, rfl, ?_⟩; rintro _ rfl; cases a5 <;> cases m3 <;>
      simp [aux_task, AUX_TASK_SPI, AUX_TASK_READ_AD, AUX_TASK_CALC_PITCH, AUX_TASK_LFO, AUX_TASK_MIDI]
  · refine ⟨rfl, rfl, ?_⟩; rintro _ rfl; cases a4 <;> cases m2 <;>
      simp [aux_task, AUX_TASK_SPI, AUX_TASK_READ_AD, AUX_TASK_CALC_PITCH, AUX_TASK_LFO, AUX_TASK_MIDI]
  · refine ⟨by cases m1 <;> rfl, by cases m1 <;> rfl, ?_⟩
    rintro _ rfl; cases a3 <;> cases m1 <;>
      simp [aux_task, AUX_TASK_SPI, AUX_TASK_READ_AD, AUX_TASK_CALC_PITCH, AUX_TASK_LFO, AUX_TASK_MIDI]

theorem s16_of_small (x : Int) (h1 : -32768 ≤ x) (h2 : x ≤ 32767) : s16 x = x := by
  unfold s16 toS16 ofS16
  have h3 : ((x % 65536).toNat : Int) = x % 65536 := Int.toNat_of_nonneg (by omega)
  have h4 : (x % 65536).toNat % 65536 = (x % 65536).toNat := by omega
  rw [h4]
  split_ifs with h <;> omega

theorem lfo_modulated_eq (m a p : Nat) (hm : m < 256) (ha : a < 256) (hp : p < 256) :
    (lfo_modulated m a p : Int)
      = max 0 (min 255 ((p : Int) + Int.fdiv (((m : Int) - 128) * a) 128)) := by
  unfold lfo_modulated
  have e1 : s16 (m : Int) = m := s16_of_small _ (by omega) (by omega)
  have e2 : s16 ((m : Int) - 128) = m - 128 := s16_of_small _ (by omega) (by omega)
  have hprod : -32640 ≤ ((m : Int) - 128) * a ∧ ((m : Int) - 128) * a ≤ 32385 := by
    constructor <;> nlinarith
  have e3 : s16 (((m : Int) - 128) * a) = (m - 128) * a :=
    s16_of_small _ (by omega) (by omega)
  have e4 : (((m : Int) - 128) * a) >>> (7 : Nat) = Int.fdiv (((m : Int) - 128) * a) 128 := by
    rw [Int.shiftRight_eq_div_pow, Int.fdiv_eq_ediv _ (by norm_num)]; norm_num
  have hq : -255 ≤ Int.fdiv (((m : Int) - 128) * a) 128 ∧
      Int.fdiv (((m : Int) - 128) * a) 128 ≤ 253 := by
    rw [Int.fdiv_eq_ediv _ (by norm_num)]
    generalize ((m : Int) - 128) * a = pr at hprod
    constructor <;> omega
  simp only [e1, e2, e3, e4]
  generalize Int.fdiv (((m : Int) - 128) * a) 128 = q at hq ⊢
  have e5 : s16 (q + p) = q + p := s16_of_small _ (by omega) (by omega)
  rw [e5]
  unfold u8i
  split_ifs with h1 h2
  · rw [max_eq_right (by omega), min_eq_left (by omega)]; rfl
  · rw [min_eq_right (by omega), max_eq_left (by omega)]; rfl
  · rw [min_eq_right (by omega), max_eq_right (by omega)]
    rw [Int.toNat_of_nonneg (by omega)]
    omega

theorem lfo_written_value (w : WaveTables) (g : ParamArrays) (s : LfoState) :
    (lfo w g s).1.auc_synth_params (auc_lfo_dest_decode.getD (g.auc_synth_params LFO_DEST) 0)
      = if g.auc_synth_params LFO_AMOUNT > 1 then
          lfo_modulated (lfo_sample w g (lfo_sync g s)).2 (g.auc_synth_params LFO_AMOUNT)
            (lfo_initial_param g (auc_lfo_dest_decode.getD (g.auc_synth_params LFO_DEST) 0))
        else if auc_lfo_dest_decode.getD (g.auc_synth_params LFO_DEST) 0 ≠ AMPLITUDE then
          lfo_initial_param g (auc_lfo_dest_decode.getD (g.auc_synth_params LFO_DEST) 0)
        else 255 := by
  by_cases h : g.auc_synth_params LFO_AMOUNT > 1
  · simp only [lfo, h, if_true, array_set]
  · simp only [lfo, h, if_false, array_set, if_true]

theorem table_read_lt (t : Nat → Nat) (i : Nat) : table_read t i < 256 := by
  unfold table_read u8; omega

theorem lfo_product_lt (a b : Nat) : lfo_product a b < 256 := by
  unfold lfo_product u8; omega

theorem lfo_recentre_lt (x : Int) : lfo_recentre x < 256 := by
  unfold lfo_recentre u8i
  split_ifs <;> omega



/-- A conditional between two pairs whose second components are bytes. -/
theorem ite_snd_lt (c : Prop) [Decidable c] (a b : LfoState × Nat) (ha : a.2 < 256) (hb : b.2 < 256) :
    (if c then a else b).2 < 256 := by
  split <;> assumption

theorem lfo_sample_byte (w : WaveTables) (g : ParamArrays) (s : LfoState) :
    (lfo_sample w g s).2 < 256 := by
  unfold lfo_sample
  repeat' (first | apply ite_snd_lt | exact table_read_lt _ _ | exact lfo_product_lt _ _ | exact lfo_recentre_lt _)
  show (if _ then _ else _) < 256
  split <;> omega


/-- C4: the value `lfo()` writes to the destination slot is the specified one:
the governing source value (or 255 for the amplitude destination) when the
amount is at most 1, otherwise the source value plus the arithmetically
shifted, amount-scaled sample, saturated to `[0, 255]`. -/
theorem lfo_destination_value (w : WaveTables) (g : ParamArrays) (s : LfoState)
    (hwf : g.wf) (_hdest : g.auc_synth_params LFO_DEST < 8) :
    ((lfo w g s).1.auc_synth_params (auc_lfo_dest_decode.getD (g.auc_synth_params LFO_DEST) 0) : Int)
      = lfo_expected (auc_lfo_dest_decode.getD (g.auc_synth_params LFO_DEST) 0)
          (lfo_initial_param g (auc_lfo_dest_decode.getD (g.auc_synth_params LFO_DEST) 0))
          (g.auc_synth_params LFO_AMOUNT) (lfo_sample w g (lfo_sync g s)).2 ∧
    (g.auc_parameter_source (auc_lfo_dest_decode.getD (g.auc_synth_params LFO_DEST) 0) = SOURCE_AD →
      lfo_initial_param g (auc_lfo_dest_decode.getD (g.auc_synth_params LFO_DEST) 0)
        = g.auc_ad_values (auc_lfo_dest_decode.getD (g.auc_synth_params LFO_DEST) 0)) ∧
    (g.auc_parameter_source (auc_lfo_dest_decode.getD (g.auc_synth_params LFO_DEST) 0)
        = SOURCE_EXTERNAL →
      lfo_initial_param g (auc_lfo_dest_decode.getD (g.auc_synth_params LFO_DEST) 0)
        = g.auc_external_params (auc_lfo_dest_decode.getD (g.auc_synth_params LFO_DEST) 0)) := by
  have hp : ∀ dest, lfo_initial_param g dest < 256 := by
    intro dest
    unfold lfo_initial_param
    simp only []
    split_ifs
    · exact (hwf dest).1
    · exact (hwf dest).2.2.1
    · decide
  refine ⟨?_, ?_, ?_⟩
  · rw [lfo_written_value]
    unfold lfo_expected
    by_cases h : g.auc_synth_params LFO_AMOUNT > 1
    · have h2 : ¬ g.auc_synth_params LFO_AMOUNT ≤ 1 := by omega
      simp only [h, h2, if_true, if_false]
      exact lfo_modulated_eq _ _ _ (lfo_sample_byte _ _ _) (hwf _).2.1 (hp _)
    · have h2 : g.auc_synth_params LFO_AMOUNT ≤ 1 := by omega
      simp only [h, h2, if_true, if_false]
      split_ifs <;> simp_all
  · intro h
    unfold lfo_initial_param
    simp only [h, if_true]
  · intro h
    unfold lfo_initial_param
    simp only [h, SOURCE_EXTERNAL, SOURCE_AD, if_true]
    simp

/-- C4, instance: amplitude destination from the knob value 100, amount 64 and
sample 200 give 100 + ((200 - 128) * 64 >> 7) = 136. -/
theorem lfo_destination_value_witness :
    (lfo ⟨fun _ => 200, fun _ => 0, fun _ => 0, fun _ => 0⟩
      ⟨fun _ => 100, fun i => if i = LFO_AMOUNT then 64 else 0, fun _ => 0, fun _ => 0⟩
      lfo_boot).1.auc_synth_params AMPLITUDE = 136 := by
  have h := (lfo_destination_value ⟨fun _ => 200, fun _ => 0, fun _ => 0, fun _ => 0⟩
      ⟨fun _ => 100, fun i => if i = LFO_AMOUNT then 64 else 0, fun _ => 0, fun _ => 0⟩
      lfo_boot
      (fun i => ⟨by show 100 < 256; decide, by dsimp only; split <;> decide,
        by show 0 < 256; decide, by show 0 < 256; decide⟩)
      (by decide)).1
  have h2 : lfo_expected AMPLITUDE 100 64 200 = 136 := by decide
  exact_mod_cast h.trans h2


/-! ### Note-on ceiling (C11) and VCA value (C12) -/

theorem adsr_timer_velocity (e : AdsrEnv) (s : AdsrState) :
    (adsr_timer e s).uc_velocity = s.uc_velocity := by
  unfold adsr_timer adsr_attack adsr_decay adsr_release
  split_ifs <;> rfl

/-- C11: when `adsr()` sees the sync flag with velocity `v` in 0..127 it selects
Attack in the sync block, ahead of the key check and the stage switch, clears
the flag and stores the ceiling `((2 * v * (255 - 47)) >> 8) + 47`; the products
stay below 2^16, the ceiling lies in `[47, 253]`, and it is the ceiling the tick
ends with. -/
theorem adsr_sync_ceiling (e : AdsrEnv) (s : AdsrState)
    (hsync : s.g_uc_adsr_midi_sync_flag = 1) (hv : e.uc_note_velocity ≤ 127) :
    (adsr_sync e s).uc_state = ATTACK ∧
    (adsr_sync e s).g_uc_adsr_midi_sync_flag = 0 ∧
    adsr e s = adsr_timer e (adsr_key e (adsr_sync e s)) ∧
    2 * e.uc_note_velocity * (255 - 47) < 65536 ∧
    (adsr_sync e s).uc_velocity = ((2 * e.uc_note_velocity * (255 - 47)) >>> 8) + 47 ∧
    (adsr e s).uc_velocity = ((2 * e.uc_note_velocity * (255 - 47)) >>> 8) + 47 ∧
    47 ≤ (adsr e s).uc_velocity ∧ (adsr e s).uc_velocity ≤ 253 := by
  have hc : (adsr_sync e s).uc_velocity = ((2 * e.uc_note_velocity * (255 - 47)) >>> 8) + 47 := by
    unfold adsr_sync
    simp only [hsync, if_true, u8, u16, NUMBER_OF_ADSR_STEPS, ADSR_MIN_VALUE,
      Nat.shiftRight_eq_div_pow, Nat.shiftLeft_eq, Nat.reducePow, Nat.reduceSub]
    generalize e.uc_note_velocity = v at hv
    have h1 : v * 2 % 65536 = v * 2 := Nat.mod_eq_of_lt (by omega)
    have h2 : v * 2 * 208 % 65536 = v * 2 * 208 := Nat.mod_eq_of_lt (by omega)
    rw [h1, h2]
    have h3 : 2 * v * 208 = v * 2 * 208 := by ring
    rw [h3]
    have hx : v * 2 * 208 / 256 ≤ 206 := by omega
    generalize v * 2 * 208 / 256 = x at hx ⊢
    omega
  have hf : (adsr e s).uc_velocity = (adsr_sync e s).uc_velocity := by
    unfold adsr
    rw [adsr_timer_velocity, (adsr_key_fields e _).2.2.2.1]
  refine ⟨?_, ?_, rfl, by omega, hc, hf.trans hc, ?_, ?_⟩
  · unfold adsr_sync; simp [hsync]
  · unfold adsr_sync; simp [hsync]
  · rw [hf, hc]; omega
  · rw [hf, hc]
    simp only [Nat.shiftRight_eq_div_pow, Nat.reducePow, Nat.reduceSub]
    omega

/-- C11, instance: velocity 100 gives the ceiling 209. -/
theorem adsr_sync_ceiling_witness :
    (adsr ⟨1, 100, 0, 0, 0, 0⟩ { adsr_boot with g_uc_adsr_midi_sync_flag := 1 }).uc_velocity = 209 :=
  (adsr_sync_ceiling ⟨1, 100, 0, 0, 0, 0⟩ { adsr_boot with g_uc_adsr_midi_sync_flag := 1 }
    rfl (by decide)).2.2.2.2.2.1

/-- C12: for 8-bit inputs `set_amplitude` writes
`max(47, (uc_adsr_multiplier * AMPLITUDE) >> 8)`, a function of these two
values alone, and the written value lies in `[47, 254]`. -/
theorem set_amplitude_value (m a : Nat) (hm : m < 256) (ha : a < 256) :
    set_amplitude m a = max 47 ((m * a) >>> 8) ∧
    47 ≤ set_amplitude m a ∧ set_amplitude m a ≤ 254 := by
  have hp : m * a ≤ 255 * 255 := Nat.mul_le_mul (by omega) (by omega)
  simp only [set_amplitude, u8, u16, ADSR_MIN_VALUE, Nat.shiftRight_eq_div_pow, Nat.reducePow]
  generalize m * a = p at hp ⊢
  have h1 : p % 65536 = p := Nat.mod_eq_of_lt (by omega)
  rw [h1]
  have hx : p / 256 ≤ 254 := by omega
  generalize p / 256 = x at hx ⊢
  split_ifs <;> omega

/-- C12, instance: multiplier 255 and amplitude 255 give 254; multiplier 47 and
amplitude 0 give the floor 47. -/
theorem set_amplitude_value_witness : set_amplitude 255 255 = 254 ∧ set_amplitude 47 0 = 47 :=
  ⟨((set_amplitude_value 255 255 (by decide) (by decide)).1).trans (by decide),
   ((set_amplitude_value 47 0 (by decide) (by decide)).1).trans (by decide)⟩

/-! ### Antilog curve (C14) -/

theorem antilog_closed_form (c : Nat) (hc : c ≤ 255) :
    antilog c = if c < 64 then 4 * (c : Int) else if c < 128 then 2 * (c : Int) + 126
      else (c : Int) + 256 := by
  unfold antilog
  simp only [u8, Nat.shiftRight_eq_div_pow, Nat.reducePow]
  split_ifs <;> omega

/-- C14: `antilog` is strictly increasing on 0..255, is linear on each of the 8
segments of 32 consecutive inputs (one slope and offset per segment), maps 0
to 0 and 255 to 511, and every result lies in 0..511. -/
theorem antilog_monotone_piecewise :
    (∀ c1 c2 : Nat, c1 < c2 → c2 ≤ 255 → antilog c1 < antilog c2) ∧
    (∀ k : Nat, k < 8 → ∃ a b : Int, ∀ c : Nat, c ≤ 255 → c / 32 = k → antilog c = a * c + b) ∧
    antilog 0 = 0 ∧ antilog 255 = 511 ∧
    (∀ c : Nat, c ≤ 255 → 0 ≤ antilog c ∧ antilog c ≤ 511) := by
  refine ⟨?_, ?_, ?_, ?_, ?_⟩
  · intro c1 c2 h12 h2
    rw [antilog_closed_form c1 (by omega), antilog_closed_form c2 h2]
    split_ifs <;> omega
  · intro k hk
    by_cases h1 : k < 2
    · exact ⟨4, 0, fun c hc hck => by rw [antilog_closed_form c hc]; split_ifs <;> omega⟩
    · by_cases h2 : k < 4
      · exact ⟨2, 126, fun c hc hck => by rw [antilog_closed_form c hc]; split_ifs <;> omega⟩
      · exact ⟨1, 256, fun c hc hck => by rw [antilog_closed_form c hc]; split_ifs <;> omega⟩
  · decide
  · decide
  · intro c hc
    rw [antilog_closed_form c hc]
    split_ifs <;> omega

/-- C14, instance: the segment boundary 127 to 128 (380 to 384) and the ends. -/
theorem antilog_monotone_piecewise_witness :
    antilog 127 < antilog 128 ∧ antilog 0 = 0 ∧ antilog 255 = 511 :=
  ⟨antilog_monotone_piecewise.1 127 128 (by decide) (by decide),
   antilog_monotone_piecewise.2.2.1, antilog_monotone_piecewise.2.2.2.1⟩

/-! ### Bus sequencer (C15, C16) -/

theorem filter_key_bus (e : FilterEnv) (s : FilterState) : (filter_key e s).bus = s.bus := by
  unfold filter_key; split_ifs <;> rfl

theorem filter_sync_bus (e : FilterEnv) (s : FilterState) : (filter_sync e s).bus = s.bus := by
  unfold filter_sync; split_ifs <;> rfl

theorem filter_attack_step_bus (k : Nat) (s : FilterState) :
    (filter_attack_step k s).bus = s.bus := by
  unfold filter_attack_step; split_ifs <;> rfl

theorem filter_attack_bus (e : FilterEnv) (s : FilterState) : (filter_attack e s).bus = s.bus := by
  unfold filter_attack
  simp only []
  split_ifs <;> first | rfl | (rw [filter_attack_step_bus]; rfl)

theorem filter_decay_step_bus (k l : Nat) (s : FilterState) :
    (filter_decay_step k l s).bus = s.bus := by
  unfold filter_decay_step; split_ifs <;> rfl

theorem filter_decay_bus (e : FilterEnv) (l : Nat) (s : FilterState) :
    (filter_decay e l s).bus = s.bus := by
  have h : ∀ x : FilterState,
      (if x.uc_adsr_step_count = l then { x with uc_adsr_state := SUSTAIN_STATE } else x).bus
        = x.bus := by
    intro x; split_ifs <;> rfl
  unfold filter_decay
  simp only [h]
  split_ifs <;> first | rfl | (rw [filter_decay_step_bus]; rfl)

theorem filter_sustain_bus (e : FilterEnv) (s : FilterState) : (filter_sustain e s).bus = s.bus := by
  unfold filter_sustain; split_ifs <;> rfl

theorem filter_release_step_bus (k : Nat) (s : FilterState) :
    (filter_release_step k s).bus = s.bus := by
  unfold filter_release_step; split_ifs <;> rfl

theorem filter_release_bus (e : FilterEnv) (s : FilterState) : (filter_release e s).bus = s.bus := by
  unfold filter_release
  split_ifs <;> first | rfl | (rw [filter_release_step_bus]; rfl)

theorem filter_envelope_bus (e : FilterEnv) (s : FilterState) :
    (filter_envelope e s).bus = s.bus := by
  unfold filter_envelope
  split_ifs
  · rfl
  · exact filter_attack_bus e s
  · exact filter_decay_bus e _ s
  · exact filter_sustain_bus e s
  · exact filter_release_bus e s
  · rfl

/-- The statics of the sequencer reach it unchanged by the envelope part of the call. -/
theorem filter_pre_bus (e : FilterEnv) (s : FilterState) :
    (filter_envelope e (filter_sync e (filter_key e s))).bus = s.bus := by
  rw [filter_envelope_bus, filter_sync_bus, filter_key_bus]

theorem filter_eq_sequence (e : FilterEnv) (s : FilterState) :
    filter e s =
      (filter_sequence (filter_antilog_frequency e s) e.p_FILTER_Q
          (filter_envelope e (filter_sync e (filter_key e s))),
       filter_bus_write (filter_sequence (filter_antilog_frequency e s) e.p_FILTER_Q
          (filter_envelope e (filter_sync e (filter_key e s))))) := rfl

/-- No call of `filter()` assigns `un_last_written_filter_value`. -/
theorem filter_last_written_const (e : FilterEnv) (s : FilterState) :
    (filter e s).1.un_last_written_filter_value = s.un_last_written_filter_value := by
  rw [filter_eq_sequence]
  have h := filter_pre_bus e s
  have h1 : (filter_envelope e (filter_sync e (filter_key e s))).un_last_written_filter_value
      = s.un_last_written_filter_value := congrArg (fun b => b.1) h
  rw [← h1]
  unfold filter_sequence
  simp only []
  split_ifs <;> rfl

/-- The three ways the sequencer can move, by the state it is entered in. -/
theorem filter_sequence_cases (a q : Nat) (s : FilterState) :
    ((s.uc_update_state = FREQUENCY_2_UPDATE ∨ s.uc_update_state = WAIT) →
      (s.uc_antilog_q_value : Int) ≠ filter_q_value q →
      (filter_sequence a q s).uc_update_state = FILTER_Q_UPDATE ∧
      filter_bus_write (filter_sequence a q s) = [(0x13, u8i (filter_q_value q))] ∧
      (filter_sequence a q s).uc_antilog_q_value = u8i (filter_q_value q)) ∧
    (s.uc_update_state = FREQUENCY_1_UPDATE →
      (filter_sequence a q s).uc_update_state = FREQUENCY_2_UPDATE ∧
      (filter_sequence a q s).uc_antilog_q_value = s.uc_antilog_q_value) ∧
    (¬ (s.uc_update_state = FREQUENCY_2_UPDATE ∨ s.uc_update_state = WAIT) →
      s.uc_update_state ≠ FREQUENCY_1_UPDATE →
      ((filter_sequence a q s).uc_update_state = FREQUENCY_1_UPDATE ∨
        (filter_sequence a q s).uc_update_state = WAIT) ∧
      (filter_sequence a q s).uc_antilog_q_value = s.uc_antilog_q_value) := by
  refine ⟨?_, ?_, ?_⟩
  · intro h1 h2
    unfold filter_sequence
    rw [if_pos ⟨h1, h2⟩]
    simp [filter_bus_write, FILTER_Q_UPDATE, FREQUENCY_1_UPDATE, FREQUENCY_2_UPDATE]
  · intro h1
    unfold filter_sequence
    have : ¬ ((s.uc_update_state = FREQUENCY_2_UPDATE ∨ s.uc_update_state = WAIT) ∧
        (s.uc_antilog_q_value : Int) ≠ filter_q_value q) := by
      rw [h1]; simp [FREQUENCY_1_UPDATE, FREQUENCY_2_UPDATE, WAIT]
    rw [if_neg this, if_pos h1]
    exact ⟨rfl, rfl⟩
  · intro h1 h2
    unfold filter_sequence
    rw [if_neg (fun h => h1 h.1), if_neg h2]
    simp only []
    split_ifs <;> first | exact ⟨Or.inl rfl, rfl⟩ | exact ⟨Or.inr rfl, rfl⟩

theorem filter_step_cases (e : FilterEnv) (s : FilterState) :
    ((s.uc_update_state = FREQUENCY_2_UPDATE ∨ s.uc_update_state = WAIT) →
      filter_q_pending e s → filter_q_written e s) ∧
    (s.uc_update_state = FREQUENCY_1_UPDATE →
      (filter e s).1.uc_update_state = FREQUENCY_2_UPDATE ∧
      (filter e s).1.uc_antilog_q_value = s.uc_antilog_q_value) ∧
    (¬ (s.uc_update_state = FREQUENCY_2_UPDATE ∨ s.uc_update_state = WAIT) →
      s.uc_update_state ≠ FREQUENCY_1_UPDATE →
      ((filter e s).1.uc_update_state = FREQUENCY_1_UPDATE ∨
        (filter e s).1.uc_update_state = WAIT) ∧
      (filter e s).1.uc_antilog_q_value = s.uc_antilog_q_value) := by
  have hb := filter_pre_bus e s
  have hq : (filter_envelope e (filter_sync e (filter_key e s))).uc_antilog_q_value
      = s.uc_antilog_q_value := congrArg (fun b => b.2.2.2.1) hb
  have hu : (filter_envelope e (filter_sync e (filter_key e s))).uc_update_state
      = s.uc_update_state := congrArg (fun b => b.2.2.2.2) hb
  have hc := filter_sequence_cases (filter_antilog_frequency e s) e.p_FILTER_Q
    (filter_envelope e (filter_sync e (filter_key e s)))
  rw [hq, hu] at hc
  unfold filter_q_written filter_q_pending
  rw [filter_eq_sequence]
  exact hc

/-- C16: from any sequencer state and whatever the inputs of the three calls
(so for any cutoff), if the resonance value `antilog(Q) >> 1` differs from the
last value sent at each call until it is written, one of the next three
`filter()` calls performs the resonance write and records the new value. -/
theorem filter_q_not_starved (s : FilterState) (e1 e2 e3 : FilterEnv)
    (h1 : filter_q_pending e1 s)
    (h2 : ¬ filter_q_written e1 s → filter_q_pending e2 (filter e1 s).1)
    (h3 : ¬ filter_q_written e1 s → ¬ filter_q_written e2 (filter e1 s).1 →
      filter_q_pending e3 (filter e2 (filter e1 s).1).1) :
    filter_q_written e1 s ∨ filter_q_written e2 (filter e1 s).1 ∨
      filter_q_written e3 (filter e2 (filter e1 s).1).1 := by
  by_cases w1 : filter_q_written e1 s
  · exact Or.inl w1
  by_cases w2 : filter_q_written e2 (filter e1 s).1
  · exact Or.inr (Or.inl w2)
  refine Or.inr (Or.inr ?_)
  have p2 := h2 w1
  have p3 := h3 w1 w2
  obtain ⟨a1, b1, c1⟩ := filter_step_cases e1 s
  obtain ⟨a2, b2, c2⟩ := filter_step_cases e2 (filter e1 s).1
  obtain ⟨a3, _, _⟩ := filter_step_cases e3 (filter e2 (filter e1 s).1).1
  by_cases k1 : s.uc_update_state = FREQUENCY_2_UPDATE ∨ s.uc_update_state = WAIT
  · exact absurd (a1 k1 h1) w1
  by_cases k2 : s.uc_update_state = FREQUENCY_1_UPDATE
  · exact absurd (a2 (Or.inl (b1 k2).1) p2) w2
  rcases (c1 k1 k2).1 with k3 | k3
  · exact a3 (Or.inl (b2 k3).1) p3
  · exact absurd (a2 (Or.inr k3) p2) w2

/-- C16, instance: entered in `FILTER_Q_UPDATE` with a changed cutoff, the
resonance 200 is written by the third call. -/
theorem filter_q_not_starved_witness :
    filter_q_written ⟨1, 0, 100, 200, 128, 0, 0, 0, 0, 0⟩
      (filter ⟨1, 0, 100, 200, 128, 0, 0, 0, 0, 0⟩
        (filter ⟨1, 0, 100, 200, 128, 0, 0, 0, 0, 0⟩
          { filter_boot with uc_update_state := FILTER_Q_UPDATE }).1).1 := by
  have h := filter_q_not_starved { filter_boot with uc_update_state := FILTER_Q_UPDATE }
    ⟨1, 0, 100, 200, 128, 0, 0, 0, 0, 0⟩ ⟨1, 0, 100, 200, 128, 0, 0, 0, 0, 0⟩
    ⟨1, 0, 100, 200, 128, 0, 0, 0, 0, 0⟩ (by decide) (fun _ => by decide) (fun _ _ => by decide)
  rcases h with h | h | h
  · exact absurd h (by decide)
  · exact absurd h (by decide)
  · exact h

/-! ### Filter envelope re-arm (C13) -/

/-- C13, counterexample: a note-on with envelope amount 255 followed one call
later by a note-on with amount 129 (all times 0, key held).  The second sync
finds step count 8 and adder 2032, the target is 256 and the slope
`(256 - 2032) / 120 = -14`; after the remaining 120 steps (15 calls) the
adder is 352, not 256, and the next call changes the state to Decay. -/
theorem filter_ramp_misses_target :
    retrigger_state.g_uc_filter_envelope_sync_flag = 1 ∧
    retrigger_env_b.g_uc_key_press_flag = 1 ∧
    retrigger_state.uc_adsr_step_count = 8 ∧
    retrigger_state.sl_adsr_temp_adder = 2032 ∧
    filter_target retrigger_env_b = 256 ∧
    (filter retrigger_env_b retrigger_state).1.sn_adsr_adder_increment = -14 ∧
    (filter_n retrigger_env_b 15 retrigger_state).uc_adsr_step_count = 128 ∧
    (filter_n retrigger_env_b 15 retrigger_state).uc_adsr_state = ATTACK_STATE ∧
    (filter_n retrigger_env_b 15 retrigger_state).sl_adsr_temp_adder = 352 ∧
    (filter_n retrigger_env_b 15 retrigger_state).sl_adsr_temp_adder
      ≠ filter_target retrigger_env_b ∧
    (filter_n retrigger_env_b 16 retrigger_state).uc_adsr_state = DECAY_STATE := by
  decide!

theorem s32_of_small (x : Int) (h1 : -2147483648 ≤ x) (h2 : x ≤ 2147483647) : s32 x = x := by
  unfold s32
  split_ifs with h <;> omega

/-- Truncated division by a positive divisor: the product of quotient and
divisor lies between 0 and the dividend, less than one divisor away from it. -/
theorem tdiv_mul_bounds (d r : Int) (hr : 0 < r) :
    (0 ≤ d → 0 ≤ d.tdiv r ∧ d.tdiv r * r ≤ d ∧ d < d.tdiv r * r + r) ∧
    (d ≤ 0 → d.tdiv r ≤ 0 ∧ d ≤ d.tdiv r * r ∧ d.tdiv r * r - r < d) := by
  have key : ∀ x : Int, 0 ≤ x → 0 ≤ x.tdiv r ∧ x.tdiv r * r ≤ x ∧ x < x.tdiv r * r + r := by
    intro x hx
    have h1 := Int.tmod_add_tdiv' x r
    have h2 := Int.tmod_nonneg r hx
    have h3 := Int.tmod_lt_of_pos x hr
    have h4 := Int.tdiv_nonneg hx (le_of_lt hr)
    exact ⟨h4, by omega, by omega⟩
  refine ⟨key d, ?_⟩
  intro hd
  have h := key (-d) (by omega)
  rw [Int.neg_tdiv] at h
  obtain ⟨h1, h2, h3⟩ := h
  have e : -d.tdiv r * r = -(d.tdiv r * r) := by ring
  rw [e] at h2 h3
  exact ⟨by omega, by omega, by omega⟩

/-- A slope obtained by truncated division of a 16-bit distance keeps every
intermediate value of the ramp inside its C type. -/
theorem ramp_fits_of_slope (t a0 : Int) (s0 : Nat) (hs : s0 < 128)
    (ht1 : -32768 ≤ t) (ht2 : t ≤ 32767)
    (hd1 : -32768 ≤ t - a0) (hd2 : t - a0 ≤ 32767) :
    RampFits ((t - a0).tdiv ((128 : Int) - s0)) a0 s0 := by
  intro k hk0 hk
  have hr : (0 : Int) < 128 - (s0 : Int) := by omega
  obtain ⟨hp, hn⟩ := tdiv_mul_bounds (t - a0) (128 - (s0 : Int)) hr
  generalize (t - a0).tdiv ((128 : Int) - s0) = q at hp hn ⊢
  rcases le_total 0 (t - a0) with h | h
  · obtain ⟨q0, q1, _⟩ := hp h
    have h1 : 0 ≤ k * q := mul_nonneg hk0 q0
    have h2 : k * q ≤ (128 - (s0 : Int)) * q := mul_le_mul_of_nonneg_right hk q0
    have h3 : (128 - (s0 : Int)) * q = q * (128 - (s0 : Int)) := by ring
    exact ⟨by omega, by omega, by omega, by omega⟩
  · obtain ⟨q0, q1, _⟩ := hn h
    have h1 : k * q ≤ 0 := mul_nonpos_of_nonneg_of_nonpos hk0 q0
    have h2 : (128 - (s0 : Int)) * q ≤ k * q := mul_le_mul_of_nonpos_right hk q0
    have h3 : (128 - (s0 : Int)) * q = q * (128 - (s0 : Int)) := by ring
    exact ⟨by omega, by omega, by omega, by omega⟩

theorem adder_add_ramp (q a0 : Int) (s0 : Nat) (y : FilterState) (j k : Int)
    (hf : RampFits q a0 s0) (hinc : y.sn_adsr_adder_increment = q)
    (hadd : y.sl_adsr_temp_adder = a0 + j * q) (hj0 : 0 ≤ j) (hk0 : 0 ≤ k)
    (hjk : j + k ≤ 128 - (s0 : Int)) :
    adder_add y k = a0 + (j + k) * q := by
  unfold adder_add
  rw [hinc, hadd]
  have h1 := hf k hk0 (by omega)
  rw [s16_of_small _ h1.1 h1.2.1]
  have h2 := hf (j + k) (by omega) hjk
  have e : a0 + j * q + k * q = a0 + (j + k) * q := by ring
  rw [e]
  exact s32_of_small _ h2.2.2.1 h2.2.2.2

theorem filter_attack_step_ramp (q a0 : Int) (s0 k : Nat) (hk : 1 ≤ k) (hk8 : k ≤ 8)
    (y : FilterState) (hf : RampFits q a0 s0) (hI : FilterRamp q a0 s0 y)
    (hlt : y.uc_adsr_step_count < 128) :
    FilterRamp q a0 s0 (filter_attack_step k y) ∧
    y.uc_adsr_step_count < (filter_attack_step k y).uc_adsr_step_count ∧
    (filter_attack_step k y).uc_adsr_timer = y.uc_adsr_timer := by
  obtain ⟨i1, i2, i3, i4, i5, i6, i7⟩ := hI
  unfold filter_attack_step FilterRamp
  simp only [MAX_FILTER_ADSR_STEP]
  split_ifs with h
  · have hu : u8 (y.uc_adsr_step_count + k) = y.uc_adsr_step_count + k := by
      unfold u8; omega
    have ha := adder_add_ramp q a0 s0 y ((y.uc_adsr_step_count : Int) - s0) k hf i3 i6
      (by omega) (by omega) (by omega)
    simp only [hu, ha]
    refine ⟨⟨i1, i2, i3, by omega, by omega, ?_, i7⟩, by omega, trivial⟩
    push_cast
    ring
  · have ha := adder_add_ramp q a0 s0 y ((y.uc_adsr_step_count : Int) - s0)
      ((128 : Int) - y.uc_adsr_step_count) hf i3 i6 (by omega) (by omega) (by omega)
    have hc : ((128 : Nat) : Int) = 128 := rfl
    simp only [hc, ha]
    refine ⟨⟨i1, i2, i3, by omega, by omega, ?_, i7⟩, by omega, trivial⟩
    ring

theorem filter_attack_ramp (e : FilterEnv) (q a0 : Int) (s0 : Nat) (x : FilterState)
    (hw : e.wf) (hf : RampFits q a0 s0) (hI : FilterRamp q a0 s0 x)
    (hlt : x.uc_adsr_step_count < 128) :
    FilterRamp q a0 s0 (filter_attack e x) ∧
    x.uc_adsr_step_count < (filter_attack e x).uc_adsr_step_count := by
  have hA : e.p_FILTER_ATTACK < 256 := hw.2.2.2.2.1
  have hne : ¬ x.uc_adsr_step_count = MAX_FILTER_ADSR_STEP := by
    unfold MAX_FILTER_ADSR_STEP; omega
  have hT : ∀ t : Nat, t ≤ 127 → FilterRamp q a0 s0 { x with uc_adsr_timer := t } := by
    intro t ht
    obtain ⟨i1, i2, i3, i4, i5, i6, _⟩ := hI
    exact ⟨i1, i2, i3, i4, i5, i6, ht⟩
  unfold filter_attack
  simp only [hne, if_false]
  split_ifs with c1 c2 c3 c4
  · have h := filter_attack_step_ramp q a0 s0 8 (by decide) (by decide) _ hf
      (hT (e.p_FILTER_ATTACK >>> 4) (by simp only [Nat.shiftRight_eq_div_pow]; omega)) hlt
    exact ⟨h.1, h.2.1⟩
  · have h := filter_attack_step_ramp q a0 s0 4 (by decide) (by decide) _ hf
      (hT (e.p_FILTER_ATTACK >>> 3) (by simp only [Nat.shiftRight_eq_div_pow]; omega)) hlt
    exact ⟨h.1, h.2.1⟩
  · have h := filter_attack_step_ramp q a0 s0 2 (by decide) (by decide) _ hf
      (hT (e.p_FILTER_ATTACK >>> 2) (by simp only [Nat.shiftRight_eq_div_pow]; omega)) hlt
    exact ⟨h.1, h.2.1⟩
  · have h := filter_attack_step_ramp q a0 s0 1 (by decide) (by decide) _ hf
      (hT (e.p_FILTER_ATTACK >>> 1) (by simp only [Nat.shiftRight_eq_div_pow]; omega)) hlt
    have hs : filter_attack_step 1 { x with uc_adsr_timer := e.p_FILTER_ATTACK >>> 1 }
        = { x with
            uc_adsr_timer := e.p_FILTER_ATTACK >>> 1
            uc_adsr_step_count := u8 (x.uc_adsr_step_count + 1)
            sl_adsr_temp_adder := adder_add { x with uc_adsr_timer := e.p_FILTER_ATTACK >>> 1 } 1 } := by
      unfold filter_attack_step
      simp only [MAX_FILTER_ADSR_STEP]
      split_ifs with h0
      · rfl
      · have h127 : x.uc_adsr_step_count = 127 := by
          have : ¬ x.uc_adsr_step_count < 128 - 1 := h0
          omega
        simp [h127, u8]
    rw [hs] at h
    exact ⟨h.1, h.2.1⟩
  · omega

/-- One pass through the timer test and the switch while on the ramp, before
the last step: still on the ramp, and the budget has gone down. -/
theorem filter_envelope_ramp (e : FilterEnv) (q a0 : Int) (s0 : Nat) (x : FilterState)
    (hw : e.wf) (hf : RampFits q a0 s0) (hI : FilterRamp q a0 s0 x)
    (hlt : x.uc_adsr_step_count < 128) :
    FilterRamp q a0 s0 (filter_envelope e x) ∧
    filter_attack_budget (filter_envelope e x) < filter_attack_budget x := by
  unfold filter_envelope
  split_ifs with ht hs
  · obtain ⟨i1, i2, i3, i4, i5, i6, i7⟩ := hI
    refine ⟨⟨i1, i2, i3, i4, i5, i6, ?_⟩, ?_⟩
    · show x.uc_adsr_timer - 1 ≤ 127
      omega
    · show x.uc_adsr_timer - 1 + 128 * (128 - x.uc_adsr_step_count)
        < x.uc_adsr_timer + 128 * (128 - x.uc_adsr_step_count)
      omega
  · obtain ⟨h1, h2⟩ := filter_attack_ramp e q a0 s0 x hw hf hI hlt
    refine ⟨h1, ?_⟩
    have h3 := h1.2.2.2.2.2.2
    have h4 := h1.2.2.2.2.1
    unfold filter_attack_budget
    omega
  all_goals exact absurd hI.1 hs

/-- At the end of the ramp the timer runs down with everything else left in
place, and the expiry that finds the step count at 128 selects Decay. -/
theorem filter_envelope_ramp_end (e : FilterEnv) (q a0 : Int) (s0 : Nat) (x : FilterState)
    (hI : FilterRamp q a0 s0 x) (heq : x.uc_adsr_step_count = 128) :
    (0 < x.uc_adsr_timer →
      FilterRamp q a0 s0 (filter_envelope e x) ∧
      (filter_envelope e x).uc_adsr_step_count = 128 ∧
      (filter_envelope e x).uc_adsr_timer = x.uc_adsr_timer - 1) ∧
    (x.uc_adsr_timer = 0 → (filter_envelope e x).uc_adsr_state = DECAY_STATE) := by
  obtain ⟨i1, i2, i3, i4, i5, i6, i7⟩ := hI
  constructor
  · intro ht
    unfold filter_envelope
    rw [if_pos ht]
    exact ⟨⟨i1, i2, i3, i4, i5, i6, by show x.uc_adsr_timer - 1 ≤ 127; omega⟩, heq, rfl⟩
  · intro ht
    unfold filter_envelope
    rw [if_neg (by omega), if_pos i1]
    unfold filter_attack filter_attack_step
    simp only [heq, MAX_FILTER_ADSR_STEP, if_true]
    split_ifs <;> rfl

theorem filter_sequence_envelope (a q : Nat) (s : FilterState) :
    (filter_sequence a q s).envelope = s.envelope := by
  unfold filter_sequence
  simp only []
  split_ifs <;> rfl

theorem filter_held_envelope (e : FilterEnv) (x : FilterState)
    (hkey : e.g_uc_key_press_flag ≠ 0) (hsync : x.g_uc_filter_envelope_sync_flag ≠ 1) :
    (filter e x).1.envelope = (filter_envelope e x).envelope := by
  have h1 : filter_key e x = x := by
    unfold filter_key; rw [if_neg (fun h => hkey h.symm)]
  have h2 : filter_sync e x = x := by
    unfold filter_sync; rw [if_neg (fun h => hsync h.symm)]
  rw [filter_eq_sequence, filter_sequence_envelope, h1, h2]

theorem filter_ramp_congr (q a0 : Int) (s0 : Nat) (x y : FilterState)
    (h : y.envelope = x.envelope) (hI : FilterRamp q a0 s0 x) : FilterRamp q a0 s0 y := by
  have e1 : y.sl_adsr_temp_adder = x.sl_adsr_temp_adder := congrArg (fun b => b.1) h
  have e2 : y.sn_adsr_adder_increment = x.sn_adsr_adder_increment := congrArg (fun b => b.2.1) h
  have e3 : y.uc_adsr_state = x.uc_adsr_state := congrArg (fun b => b.2.2.1) h
  have e4 : y.uc_adsr_timer = x.uc_adsr_timer := congrArg (fun b => b.2.2.2.1) h
  have e5 : y.uc_adsr_step_count = x.uc_adsr_step_count := congrArg (fun b => b.2.2.2.2.1) h
  have e6 : y.g_uc_filter_envelope_sync_flag = x.g_uc_filter_envelope_sync_flag :=
    congrArg (fun b => b.2.2.2.2.2) h
  unfold FilterRamp at *
  rw [e1, e2, e3, e4, e5, e6]
  exact hI

theorem filter_budget_congr (x y : FilterState) (h : y.envelope = x.envelope) :
    filter_attack_budget y = filter_attack_budget x := by
  have e4 : y.uc_adsr_timer = x.uc_adsr_timer := congrArg (fun b => b.2.2.2.1) h
  have e5 : y.uc_adsr_step_count = x.uc_adsr_step_count := congrArg (fun b => b.2.2.2.2.1) h
  unfold filter_attack_budget
  rw [e4, e5]

/-- One call of `filter()` on the ramp, key held, before the last step. -/
theorem filter_ramp_step (e : FilterEnv) (q a0 : Int) (s0 : Nat) (x : FilterState)
    (hw : e.wf) (hkey : e.g_uc_key_press_flag ≠ 0) (hf : RampFits q a0 s0)
    (hI : FilterRamp q a0 s0 x) (hlt : x.uc_adsr_step_count < 128) :
    FilterRamp q a0 s0 (filter e x).1 ∧
    filter_attack_budget (filter e x).1 < filter_attack_budget x := by
  have hc := filter_held_envelope e x hkey (by rw [hI.2.1]; decide)
  obtain ⟨h1, h2⟩ := filter_envelope_ramp e q a0 s0 x hw hf hI hlt
  exact ⟨filter_ramp_congr q a0 s0 _ _ hc h1, by rw [filter_budget_congr _ _ hc]; exact h2⟩

/-- One call of `filter()` at the end of the ramp, key held. -/
theorem filter_ramp_end (e : FilterEnv) (q a0 : Int) (s0 : Nat) (x : FilterState)
    (hkey : e.g_uc_key_press_flag ≠ 0)
    (hI : FilterRamp q a0 s0 x) (heq : x.uc_adsr_step_count = 128) :
    (0 < x.uc_adsr_timer →
      FilterRamp q a0 s0 (filter e x).1 ∧ (filter e x).1.uc_adsr_step_count = 128 ∧
      (filter e x).1.uc_adsr_timer = x.uc_adsr_timer - 1) ∧
    (x.uc_adsr_timer = 0 → (filter e x).1.uc_adsr_state = DECAY_STATE) := by
  have hc := filter_held_envelope e x hkey (by rw [hI.2.1]; decide)
  have e3 : (filter e x).1.uc_adsr_state = (filter_envelope e x).uc_adsr_state :=
    congrArg (fun b => b.2.2.1) hc
  have e4 : (filter e x).1.uc_adsr_timer = (filter_envelope e x).uc_adsr_timer :=
    congrArg (fun b => b.2.2.2.1) hc
  have e5 : (filter e x).1.uc_adsr_step_count = (filter_envelope e x).uc_adsr_step_count :=
    congrArg (fun b => b.2.2.2.2.1) hc
  obtain ⟨h1, h2⟩ := filter_envelope_ramp_end e q a0 s0 x hI heq
  constructor
  · intro ht
    obtain ⟨k1, k2, k3⟩ := h1 ht
    exact ⟨filter_ramp_congr q a0 s0 _ _ hc k1, e5.trans k2, e4.trans k3⟩
  · intro ht
    exact e3.trans (h2 ht)

theorem filter_n_add (e : FilterEnv) (m n : Nat) (s : FilterState) :
    filter_n e (m + n) s = filter_n e n (filter_n e m s) := by
  induction m generalizing s with
  | zero => simp [filter_n]
  | succ k ih =>
    have : k + 1 + n = (k + n) + 1 := by omega
    rw [this]
    simp only [filter_n]
    exact ih _

/-- The ramp reaches step count 128 within its budget of calls. -/
theorem filter_ramp_reaches_top (e : FilterEnv) (q a0 : Int) (s0 : Nat)
    (hw : e.wf) (hkey : e.g_uc_key_press_flag ≠ 0) (hf : RampFits q a0 s0) (n : Nat) :
    ∀ x : FilterState, FilterRamp q a0 s0 x → filter_attack_budget x ≤ n →
      ∃ m, m ≤ n ∧ FilterRamp q a0 s0 (filter_n e m x) ∧
        (filter_n e m x).uc_adsr_step_count = 128 := by
  induction n with
  | zero =>
    intro x hI hb
    refine ⟨0, le_refl _, hI, ?_⟩
    have h5 := hI.2.2.2.2.1
    unfold filter_attack_budget at hb
    show x.uc_adsr_step_count = 128
    omega
  | succ n ih =>
    intro x hI hb
    by_cases hlt : x.uc_adsr_step_count < 128
    · obtain ⟨h1, h2⟩ := filter_ramp_step e q a0 s0 x hw hkey hf hI hlt
      obtain ⟨m, hm, k1, k2⟩ := ih (filter e x).1 h1 (by omega)
      exact ⟨m + 1, by omega, k1, k2⟩
    · have h5 := hI.2.2.2.2.1
      exact ⟨0, by omega, hI, by show x.uc_adsr_step_count = 128; omega⟩

/-- At step count 128 the adder rests while the timer runs down, and the call
after that selects Decay. -/
theorem filter_ramp_rests (e : FilterEnv) (q a0 : Int) (s0 : Nat)
    (hkey : e.g_uc_key_press_flag ≠ 0) (t : Nat) :
    ∀ x : FilterState, FilterRamp q a0 s0 x → x.uc_adsr_step_count = 128 →
      x.uc_adsr_timer = t →
      (∀ k, k ≤ t → FilterRamp q a0 s0 (filter_n e k x) ∧
        (filter_n e k x).uc_adsr_step_count = 128) ∧
      (filter_n e (t + 1) x).uc_adsr_state = DECAY_STATE := by
  induction t with
  | zero =>
    intro x hI heq ht
    refine ⟨fun k hk => ?_, ?_⟩
    · have : k = 0 := by omega
      subst this
      exact ⟨hI, heq⟩
    · exact (filter_ramp_end e q a0 s0 x hkey hI heq).2 ht
  | succ t ih =>
    intro x hI heq ht
    obtain ⟨k1, k2, k3⟩ := (filter_ramp_end e q a0 s0 x hkey hI heq).1 (by omega)
    obtain ⟨r1, r2⟩ := ih (filter e x).1 k1 k2 (by omega)
    refine ⟨fun k hk => ?_, r2⟩
    cases k with
    | zero => exact ⟨hI, heq⟩
    | succ j => exact r1 j (by omega)

/-- The sync block, given a step count below 128 and a distance to the target
that fits a 16-bit `int`: Attack, timer from the attack knob, flag cleared, and
the increment is the truncated quotient. -/
theorem filter_sync_slope (e : FilterEnv) (s : FilterState) (hw : e.wf)
    (hsync : s.g_uc_filter_envelope_sync_flag = 1) (hs : s.uc_adsr_step_count < 128)
    (hd1 : -32768 ≤ filter_target e - s.sl_adsr_temp_adder)
    (hd2 : filter_target e - s.sl_adsr_temp_adder ≤ 32767) :
    filter_sync e s =
      { s with
        uc_adsr_state := ATTACK_STATE
        uc_adsr_timer := e.p_FILTER_ATTACK >>> 2
        sn_adsr_adder_increment := filter_slope e s
        g_uc_filter_envelope_sync_flag := 0 } := by
  have hE : e.p_FILTER_ENV_AMT < 256 := hw.2.2.1
  unfold filter_target at hd1 hd2
  have h1 : s16 (((e.p_FILTER_ENV_AMT : Int) - 128) * 256) = ((e.p_FILTER_ENV_AMT : Int) - 128) * 256 :=
    s16_of_small _ (by omega) (by omega)
  have h2 : s16 (((e.p_FILTER_ENV_AMT : Int) - 128) * 256 - s.sl_adsr_temp_adder)
      = ((e.p_FILTER_ENV_AMT : Int) - 128) * 256 - s.sl_adsr_temp_adder :=
    s16_of_small _ hd1 hd2
  have h3 : ((u8i ((NUMBER_OF_FILTER_ADSR_STEPS : Int) - s.uc_adsr_step_count) : Nat) : Int)
      = (128 : Int) - s.uc_adsr_step_count := by
    unfold u8i NUMBER_OF_FILTER_ADSR_STEPS
    have : ((128 : Nat) : Int) = 128 := rfl
    rw [this, Int.toNat_of_nonneg (by omega)]
    omega
  have h4 : u8i ((NUMBER_OF_FILTER_ADSR_STEPS : Int) - s.uc_adsr_step_count) > 0 := by
    have : (0 : Int) < ((u8i ((NUMBER_OF_FILTER_ADSR_STEPS : Int) - s.uc_adsr_step_count) : Nat) : Int) := by
      rw [h3]; omega
    exact_mod_cast this
  unfold filter_sync
  rw [if_pos hsync.symm]
  simp only [h1, h2, h3, h4, if_true]
  rfl

/-- The call that sees the sync flag puts the envelope on the ramp. -/
theorem filter_sync_call_ramp (e : FilterEnv) (s : FilterState) (hw : e.wf)
    (hkey : e.g_uc_key_press_flag ≠ 0)
    (hsync : s.g_uc_filter_envelope_sync_flag = 1) (hs : s.uc_adsr_step_count < 128)
    (hd1 : -32768 ≤ filter_target e - s.sl_adsr_temp_adder)
    (hd2 : filter_target e - s.sl_adsr_temp_adder ≤ 32767) :
    RampFits (filter_slope e s) s.sl_adsr_temp_adder s.uc_adsr_step_count ∧
    FilterRamp (filter_slope e s) s.sl_adsr_temp_adder s.uc_adsr_step_count (filter e s).1 := by
  have hE : e.p_FILTER_ENV_AMT < 256 := hw.2.2.1
  have hA : e.p_FILTER_ATTACK < 256 := hw.2.2.2.2.1
  have hf : RampFits (filter_slope e s) s.sl_adsr_temp_adder s.uc_adsr_step_count := by
    unfold filter_slope
    refine ramp_fits_of_slope (filter_target e) _ _ hs ?_ ?_ hd1 hd2
    · unfold filter_target; omega
    · unfold filter_target; omega
  refine ⟨hf, ?_⟩
  have hk : filter_key e s = s := by
    unfold filter_key; rw [if_neg (fun h => hkey h.symm)]
  have hx := filter_sync_slope e s hw hsync hs hd1 hd2
  have hI : FilterRamp (filter_slope e s) s.sl_adsr_temp_adder s.uc_adsr_step_count
      (filter_sync e s) := by
    rw [hx]
    refine ⟨rfl, rfl, rfl, le_refl _, le_of_lt hs, ?_, ?_⟩
    · show s.sl_adsr_temp_adder
        = s.sl_adsr_temp_adder + ((s.uc_adsr_step_count : Int) - s.uc_adsr_step_count) * _
      ring
    · show e.p_FILTER_ATTACK >>> 2 ≤ 127
      simp only [Nat.shiftRight_eq_div_pow]; omega
  have hlt : (filter_sync e s).uc_adsr_step_count < 128 := by rw [hx]; exact hs
  have hr := (filter_envelope_ramp e _ _ _ (filter_sync e s) hw hf hI hlt).1
  refine filter_ramp_congr _ _ _ _ _ ?_ hr
  rw [filter_eq_sequence, filter_sequence_envelope, hk]

/-- C13, amended: on the filter-sync signal with the key held, a step count
`s < 128` and a distance from the adder to the target `(envAmt - 128) << 8`
that fits a 16-bit `int`, `filter()` sets the slope to the C quotient
(truncated toward zero) of that distance by `128 - s`.  With the inputs then
held constant, after some `n` calls the step count is 128 and the adder is
`adder + (128 - s) * slope`; it stays so, in Attack, up to some call `m`, and
call `m + 1` changes the state to Decay.  The value reached is less than
`128 - s` away from the target and equals it when `128 - s` divides the
distance. -/
theorem filter_sync_ramp_contract (e : FilterEnv) (s : FilterState) (hw : e.wf)
    (hkey : e.g_uc_key_press_flag ≠ 0)
    (hsync : s.g_uc_filter_envelope_sync_flag = 1) (hs : s.uc_adsr_step_count < 128)
    (hd1 : -32768 ≤ filter_target e - s.sl_adsr_temp_adder)
    (hd2 : filter_target e - s.sl_adsr_temp_adder ≤ 32767) :
    (filter e s).1.sn_adsr_adder_increment = filter_slope e s ∧
    (∃ n m, 1 ≤ n ∧ n ≤ m ∧
      (∀ k, n ≤ k → k ≤ m →
        (filter_n e k s).uc_adsr_state = ATTACK_STATE ∧
        (filter_n e k s).uc_adsr_step_count = 128 ∧
        (filter_n e k s).sl_adsr_temp_adder
          = s.sl_adsr_temp_adder + ((128 : Int) - s.uc_adsr_step_count) * filter_slope e s) ∧
      (filter_n e (m + 1) s).uc_adsr_state = DECAY_STATE) ∧
    |filter_target e
        - (s.sl_adsr_temp_adder + ((128 : Int) - s.uc_adsr_step_count) * filter_slope e s)|
      < (128 : Int) - s.uc_adsr_step_count ∧
    (((128 : Int) - s.uc_adsr_step_count) ∣ (filter_target e - s.sl_adsr_temp_adder) →
      s.sl_adsr_temp_adder + ((128 : Int) - s.uc_adsr_step_count) * filter_slope e s
        = filter_target e) := by
  obtain ⟨hf, hI⟩ := filter_sync_call_ramp e s hw hkey hsync hs hd1 hd2
  refine ⟨hI.2.2.1, ?_, ?_, ?_⟩
  · obtain ⟨m, _, k1, k2⟩ := filter_ramp_reaches_top e _ _ _ hw hkey hf
      (filter_attack_budget (filter e s).1) (filter e s).1 hI (le_refl _)
    obtain ⟨r1, r2⟩ := filter_ramp_rests e _ _ _ hkey (filter_n e m (filter e s).1).uc_adsr_timer
      (filter_n e m (filter e s).1) k1 k2 rfl
    have hshift : ∀ j, filter_n e (m + 1 + j) s = filter_n e j (filter_n e m (filter e s).1) := by
      intro j
      rw [filter_n_add]
      rfl
    refine ⟨m + 1, m + 1 + (filter_n e m (filter e s).1).uc_adsr_timer, by omega, by omega, ?_, ?_⟩
    · intro k hk1 hk2
      obtain ⟨j, rfl⟩ : ∃ j, k = m + 1 + j := ⟨k - (m + 1), by omega⟩
      rw [hshift]
      obtain ⟨i, j128⟩ := r1 j (by omega)
      refine ⟨i.1, j128, ?_⟩
      rw [i.2.2.2.2.2.1, j128]
      push_cast
      ring
    · have := hshift ((filter_n e m (filter e s).1).uc_adsr_timer + 1)
      rw [← add_assoc] at this
      rw [this]
      exact r2
  · have hr : (0 : Int) < 128 - (s.uc_adsr_step_count : Int) := by omega
    obtain ⟨hp, hn⟩ := tdiv_mul_bounds (filter_target e - s.sl_adsr_temp_adder) _ hr
    unfold filter_slope
    generalize (filter_target e - s.sl_adsr_temp_adder).tdiv ((128 : Int) - s.uc_adsr_step_count)
      = q at hp hn ⊢
    have hc : ((128 : Int) - s.uc_adsr_step_count) * q = q * ((128 : Int) - s.uc_adsr_step_count) := by
      ring
    rw [abs_lt]
    rcases le_total 0 (filter_target e - s.sl_adsr_temp_adder) with h | h
    · obtain ⟨_, q1, q2⟩ := hp h
      constructor <;> omega
    · obtain ⟨_, q1, q2⟩ := hn h
      constructor <;> omega
  · intro hdvd
    have := Int.tdiv_mul_cancel hdvd
    unfold filter_slope
    have hc : ((128 : Int) - s.uc_adsr_step_count)
        * (filter_target e - s.sl_adsr_temp_adder).tdiv ((128 : Int) - s.uc_adsr_step_count)
        = (filter_target e - s.sl_adsr_temp_adder).tdiv ((128 : Int) - s.uc_adsr_step_count)
          * ((128 : Int) - s.uc_adsr_step_count) := by ring
    rw [hc, this]
    ring

/-- C13, instance: a first note-on from rest with envelope amount 255: the
slope is 254 and, 128 dividing the distance, the completed ramp stands exactly
at the target 32512. -/
theorem filter_sync_ramp_contract_witness :
    (filter retrigger_env_a
      { filter_boot with g_uc_filter_envelope_sync_flag := 1 }).1.sn_adsr_adder_increment = 254 ∧
    (0 : Int) + ((128 : Int) - (0 : Nat))
        * filter_slope retrigger_env_a { filter_boot with g_uc_filter_envelope_sync_flag := 1 }
      = filter_target retrigger_env_a := by
  have h := filter_sync_ramp_contract retrigger_env_a
    { filter_boot with g_uc_filter_envelope_sync_flag := 1 }
    (by decide) (by decide) rfl (by decide) (by decide) (by decide)
  exact ⟨h.1.trans (by decide), h.2.2.2 (by decide)⟩

/-! ### Sample interrupt: mix and low-pass (C17), phase reduction (C18) -/

theorem isr_mix_value (s1 s2 mix : Nat) (h1 : s1 < 256) (h2 : s2 < 256) (hm : mix < 256) :
    s1 * (255 - mix) + s2 * mix < 65536 ∧
    isr_mix s1 s2 mix = (s1 * (255 - mix) + s2 * mix) >>> 8 ∧ isr_mix s1 s2 mix ≤ 254 := by
  have ha : s1 * (255 - mix) ≤ 255 * (255 - mix) := Nat.mul_le_mul_right _ (by omega)
  have hb : s2 * mix ≤ 255 * mix := Nat.mul_le_mul_right _ (by omega)
  have hc : 255 * (255 - mix) + 255 * mix = 65025 := by
    rw [← Nat.mul_add]
    have : 255 - mix + mix = 255 := by omega
    rw [this]
  unfold isr_mix
  simp only [u8, u16, Nat.shiftRight_eq_div_pow, Nat.reducePow]
  generalize s1 * (255 - mix) = a at ha ⊢
  generalize s2 * mix = b at hb ⊢
  have e1 : a % 65536 = a := Nat.mod_eq_of_lt (by omega)
  have e2 : b % 65536 = b := Nat.mod_eq_of_lt (by omega)
  have e3 : (a + b) % 65536 = a + b := Nat.mod_eq_of_lt (by omega)
  rw [e1, e2, e3]
  omega

theorem isr_low_pass_value (x l : Nat) (hx : x < 256) (hl : l < 256) :
    (isr_low_pass x l : Int) = (l : Int) + (((x : Int) - l) >>> (2 : Nat)) ∧
    min l x ≤ isr_low_pass x l ∧ isr_low_pass x l ≤ max l x := by
  unfold isr_low_pass
  have e1 : s16 ((x : Int) - l) = (x : Int) - l := s16_of_small _ (by omega) (by omega)
  have e2 : ((x : Int) - l) >>> (2 : Nat) = ((x : Int) - l) / 4 := by
    rw [Int.shiftRight_eq_div_pow]; norm_num
  simp only [e1, e2]
  have hq1 : -64 ≤ ((x : Int) - l) / 4 := by omega
  have hq2 : ((x : Int) - l) / 4 ≤ 63 := by omega
  have e3 : s16 (((x : Int) - l) / 4 + l) = ((x : Int) - l) / 4 + l :=
    s16_of_small _ (by omega) (by omega)
  rw [e3]
  unfold u8i
  have hnn : 0 ≤ ((x : Int) - l) / 4 + l := by omega
  have hlt : ((x : Int) - l) / 4 + l < 256 := by omega
  have e4 : (((x : Int) - l) / 4 + l) % 256 = ((x : Int) - l) / 4 + l := Int.emod_eq_of_lt hnn hlt
  rw [e4]
  have e5 : (((((x : Int) - l) / 4 + l).toNat : Nat) : Int) = ((x : Int) - l) / 4 + l :=
    Int.toNat_of_nonneg hnn
  refine ⟨by rw [e5]; ring, ?_, ?_⟩
  · have : ((min l x : Nat) : Int) ≤ (((((x : Int) - l) / 4 + l).toNat : Nat) : Int) := by
      rw [e5]
      rcases le_total l x with h | h
      · rw [min_eq_left h]; omega
      · rw [min_eq_right h]; omega
    exact_mod_cast this
  · have : (((((x : Int) - l) / 4 + l).toNat : Nat) : Int) ≤ ((max l x : Nat) : Int) := by
      rw [e5]
      rcases le_total l x with h | h
      · rw [max_eq_right h]; omega
      · rw [max_eq_left h]; omega
    exact_mod_cast this

/-- C17: on an audio tick with note on the new output is
`last + ((mixed - last) >> 2)` with an arithmetic shift, where
`mixed = (s1 * (255 - mix) + s2 * mix) >> 8` and the sum stays below 2^16; for
all 8-bit `s1`, `s2`, `mix` and `last` the result lies between `last` and
`mixed` inclusive, hence in `[0, 255]`. -/
theorem timer2_output_value (s1 s2 mix last : Nat)
    (h1 : s1 < 256) (h2 : s2 < 256) (hm : mix < 256) (hl : last < 256) :
    s1 * (255 - mix) + s2 * mix < 65536 ∧
    (isr_low_pass (isr_mix s1 s2 mix) last : Int)
      = (last : Int)
        + ((((s1 * (255 - mix) + s2 * mix) >>> 8 : Nat) : Int) - last) >>> (2 : Nat) ∧
    min last ((s1 * (255 - mix) + s2 * mix) >>> 8) ≤ isr_low_pass (isr_mix s1 s2 mix) last ∧
    isr_low_pass (isr_mix s1 s2 mix) last ≤ max last ((s1 * (255 - mix) + s2 * mix) >>> 8) ∧
    isr_low_pass (isr_mix s1 s2 mix) last ≤ 255 ∧
    (∀ (w : WaveTables) (t : OscTables) (e : IsrEnv) (s : IsrState),
      e.g_uc_note_on_flag = 1 → s.uc_last_sample = last → e.p_OSC_MIX = mix →
      (oscillator w t s.osc e.p_OSC_1_WAVESHAPE (isr_reduce s.aun_sample_reference_osc1)
        e.auc_midi_note_index_osc1).2 = s1 →
      (oscillator w t
        (oscillator w t s.osc e.p_OSC_1_WAVESHAPE (isr_reduce s.aun_sample_reference_osc1)
          e.auc_midi_note_index_osc1).1
        e.p_OSC_2_WAVESHAPE (isr_reduce s.aun_sample_reference_osc2)
        e.auc_midi_note_index_osc2).2 = s2 →
      (timer2_compa w t e s).1.uc_output = isr_low_pass (isr_mix s1 s2 mix) last ∧
      (timer2_compa w t e s).1.uc_last_sample = isr_low_pass (isr_mix s1 s2 mix) last) := by
  obtain ⟨m1, m2, m3⟩ := isr_mix_value s1 s2 mix h1 h2 hm
  obtain ⟨l1, l2, l3⟩ := isr_low_pass_value (isr_mix s1 s2 mix) last (by omega) hl
  rw [m2] at l1 l2 l3
  refine ⟨m1, ?_, ?_, ?_, ?_, ?_⟩
  · rw [m2]; exact l1
  · rw [m2]; exact l2
  · rw [m2]; exact l3
  · rw [m2]
    have : max last ((s1 * (255 - mix) + s2 * mix) >>> 8) ≤ 255 := by
      rw [← m2]
      exact max_le (by omega) (by omega)
    omega
  · intro w t e s hon hlast hmix ho1 ho2
    unfold timer2_compa
    rw [if_pos hon.symm]
    simp only [ho1, ho2, hlast, hmix, and_self]

/-- C17, instance: samples 255 and 0 at mix 0 from the reset level 127 give 158. -/
theorem timer2_output_value_witness :
    isr_low_pass (isr_mix 255 0 0) 127 = 158 ∧ isr_low_pass (isr_mix 255 0 0) 127 ≤ 255 :=
  ⟨by decide,
   (timer2_output_value 255 0 0 127 (by decide) (by decide) (by decide) (by decide)).2.2.2.2.1⟩

theorem timer2_phase_step (w : WaveTables) (t : OscTables) (e : IsrEnv) (s : IsrState)
    (hI : PhaseInv s) (hf : e.table_freq) :
    (∀ c ∈ (timer2_compa w t e s).2.oscillator_calls, c.2.1 < SAMPLE_MAX) ∧
    PhaseInv (timer2_compa w t e s).1 := by
  obtain ⟨i1, i2⟩ := hI
  obtain ⟨f1, f2⟩ := hf
  have r : ∀ x, x ≤ 32766 + 12544 → isr_reduce x < SAMPLE_MAX := by
    intro x hx
    unfold isr_reduce SAMPLE_MAX
    split_ifs <;> omega
  have r1 := r _ i1
  have r2 := r _ i2
  unfold SAMPLE_MAX at r1 r2
  unfold timer2_compa
  split_ifs with hon
  · refine ⟨?_, ?_⟩
    · intro c hc
      simp only [List.mem_cons, List.mem_singleton, List.not_mem_nil, or_false] at hc
      rcases hc with rfl | rfl
      · exact r _ i1
      · exact r _ i2
    · unfold PhaseInv u16
      constructor
      · show (isr_reduce s.aun_sample_reference_osc1 + e.aun_note_frequency_osc1) % 65536 ≤ _
        omega
      · show (isr_reduce s.aun_sample_reference_osc2 + e.aun_note_frequency_osc2) % 65536 ≤ _
        omega
  · refine ⟨fun c hc => ?_, ?_⟩
    · simp at hc
    · unfold PhaseInv
      exact ⟨Nat.zero_le _, Nat.zero_le _⟩

/-- C19, counterexample: two successive calls of `oscillator()` with the same
arguments (NOISE, phase 0, note 0) return 0xC2 and then 0x84: the sample
depends on the static shift register, which the first call advanced. -/
theorem oscillator_noise_stateful :
    (oscillator zero_tables zero_osc_tables osc_boot NOISE 0 0).2 = 0xC2 ∧
    (oscillator zero_tables zero_osc_tables
      (oscillator zero_tables zero_osc_tables osc_boot NOISE 0 0).1 NOISE 0 0).2 = 0x84 ∧
    (oscillator zero_tables zero_osc_tables osc_boot NOISE 0 0).2
      ≠ (oscillator zero_tables zero_osc_tables
          (oscillator zero_tables zero_osc_tables osc_boot NOISE 0 0).1 NOISE 0 0).2 := by
  decide

/-- C19, amended: for the waveforms SIN, SQUARE, RAMP, TRIANGLE, HARD_SYNC and
RAW_SQUARE the sample `oscillator()` returns is a function of its three
arguments alone: any two values of the static variables and of the sync flag
give the same sample. -/
theorem oscillator_static_free_sample (w : WaveTables) (t : OscTables) (s s' : OscState)
    (uc_waveshape un_sample_reference uc_frequency : Nat) (h : osc_static_free uc_waveshape) :
    (oscillator w t s uc_waveshape un_sample_reference uc_frequency).2
      = (oscillator w t s' uc_waveshape un_sample_reference uc_frequency).2 := by
  unfold oscillator
  rcases h with h | h | h | h | h | h <;> subst h <;>
    simp [oscillator_switch, SIN, SQUARE, RAMP, TRIANGLE, MORPH_1, MORPH_2, MORPH_3, MORPH_4,
      MORPH_5, MORPH_6, MORPH_7, MORPH_8, MORPH_9, HARD_SYNC, NOISE, RAW_SQUARE]

/-- C19, instance: the raw square wave at phase 20000 from two different sets
of statics. -/
theorem oscillator_static_free_sample_witness :
    (oscillator zero_tables zero_osc_tables osc_boot RAW_SQUARE 20000 60).2
      = (oscillator zero_tables zero_osc_tables ⟨3, 200, 1, 7, 9, 300, 17, 1, 1⟩
          RAW_SQUARE 20000 60).2 :=
  oscillator_static_free_sample zero_tables zero_osc_tables osc_boot ⟨3, 200, 1, 7, 9, 300, 17, 1, 1⟩
    RAW_SQUARE 20000 60 (by decide)

/-- C15, evaluation of the code: no call of `filter()` assigns
`un_last_written_filter_value`, so it keeps its reset value 0.  With the inputs
held constant (cutoff knob 100, converted cutoff 326, resonance 0) the pots
receive 163 and 163 on the second and third call; on the fourth call the
converted cutoff is still 326 = 163 + 163 and the resonance value equals the
one last sent, yet the sequencer enters `FREQUENCY_1_UPDATE`, not `WAIT`, and
writes 163 to pot 1 again, and so on every call after. -/
theorem filter_rewrites_unchanged_cutoff :
    (∀ (e : FilterEnv) (s : FilterState),
      (filter e s).1.un_last_written_filter_value = s.un_last_written_filter_value) ∧
    filter_writes steady_env 3 filter_boot = [[(0x11, 0)], [(0x12, 163)], [(0x11, 163)]] ∧
    filter_antilog_frequency steady_env (filter_n steady_env 3 filter_boot) = 163 + 163 ∧
    ¬ filter_q_pending steady_env (filter_n steady_env 3 filter_boot) ∧
    (filter steady_env (filter_n steady_env 3 filter_boot)).1.uc_update_state
      = FREQUENCY_1_UPDATE ∧
    (filter steady_env (filter_n steady_env 3 filter_boot)).1.uc_update_state ≠ WAIT ∧
    (filter steady_env (filter_n steady_env 3 filter_boot)).2 = [(0x12, 163)] ∧
    filter_writes steady_env 8 filter_boot
      = [[(0x11, 0)], [(0x12, 163)], [(0x11, 163)], [(0x12, 163)], [(0x11, 163)],
         [(0x12, 163)], [(0x11, 163)], [(0x12, 163)]] :=
  ⟨filter_last_written_const, by decide, by decide, by decide, by decide, by decide, by decide,
   by decide⟩

/-! ### LFO read-back (C20) -/

theorem lfo_dest_not_control (i : Nat) (hi : i < 8) :
    auc_lfo_dest_decode.getD i 0 ≠ LFO_SYNC ∧ auc_lfo_dest_decode.getD i 0 ≠ LFO_AMOUNT ∧
    auc_lfo_dest_decode.getD i 0 ≠ LFO_RATE ∧ auc_lfo_dest_decode.getD i 0 ≠ LFO_DEST ∧
    auc_lfo_dest_decode.getD i 0 ≠ LFO_WAVESHAPE := by
  interval_cases i <;> decide

theorem lfo_sample_congr (w : WaveTables) (g1 g2 : ParamArrays) (s : LfoState)
    (hW : g2.auc_synth_params LFO_WAVESHAPE = g1.auc_synth_params LFO_WAVESHAPE)
    (hR : g2.auc_synth_params LFO_RATE = g1.auc_synth_params LFO_RATE) :
    lfo_sample w g2 s = lfo_sample w g1 s := by
  unfold lfo_sample lfo_morph_tick lfo_morph5_tick
  simp only [hW, hR]

theorem lfo_sync_congr (g1 g2 : ParamArrays) (s : LfoState)
    (hS : g2.auc_synth_params LFO_SYNC = g1.auc_synth_params LFO_SYNC) :
    lfo_sync g2 s = lfo_sync g1 s := by
  unfold lfo_sync
  simp only [hS]

/-- C20: the value `lfo()` writes to its destination slot does not depend on
that slot's previous value: from two states that differ only in
`auc_synth_params[dest]` (the second holding an arbitrary `v` there) the same
value is written to `auc_synth_params[dest]`. -/
theorem lfo_no_read_back (w : WaveTables) (g : ParamArrays) (s : LfoState) (v : Nat)
    (hdest : g.auc_synth_params LFO_DEST < 8) :
    (lfo w (set_dest_slot g v) s).1.auc_synth_params
        (auc_lfo_dest_decode.getD (g.auc_synth_params LFO_DEST) 0)
      = (lfo w g s).1.auc_synth_params
          (auc_lfo_dest_decode.getD (g.auc_synth_params LFO_DEST) 0) := by
  obtain ⟨n1, n2, n3, n4, n5⟩ := lfo_dest_not_control _ hdest
  have hset : ∀ i, i ≠ auc_lfo_dest_decode.getD (g.auc_synth_params LFO_DEST) 0 →
      (set_dest_slot g v).auc_synth_params i = g.auc_synth_params i := by
    intro i hi
    unfold set_dest_slot array_set
    simp only [if_neg hi]
  have e1 := hset LFO_SYNC (Ne.symm n1)
  have e2 := hset LFO_AMOUNT (Ne.symm n2)
  have e3 := hset LFO_RATE (Ne.symm n3)
  have e4 := hset LFO_DEST (Ne.symm n4)
  have e5 := hset LFO_WAVESHAPE (Ne.symm n5)
  have s1 := lfo_sync_congr g (set_dest_slot g v) s e1
  have s2 := lfo_sample_congr w g (set_dest_slot g v) (lfo_sync g s) e5 e3
  have hg := lfo_written_value w (set_dest_slot g v) s
  rw [e4] at hg
  rw [hg, lfo_written_value]
  simp only [e2, s1, s2, lfo_initial_param]
  rfl

/-- C20, instance: amplitude destination, amount 64; slot values 0 and 77 lead to
the same written value. -/
theorem lfo_no_read_back_witness :
    (lfo ⟨fun _ => 200, fun _ => 0, fun _ => 0, fun _ => 0⟩
      (set_dest_slot ⟨fun _ => 100, fun i => if i = LFO_AMOUNT then 64 else 0, fun _ => 0,
        fun _ => 0⟩ 77) lfo_boot).1.auc_synth_params (auc_lfo_dest_decode.getD 0 0)
      = (lfo ⟨fun _ => 200, fun _ => 0, fun _ => 0, fun _ => 0⟩
          ⟨fun _ => 100, fun i => if i = LFO_AMOUNT then 64 else 0, fun _ => 0, fun _ => 0⟩
          lfo_boot).1.auc_synth_params (auc_lfo_dest_decode.getD 0 0) :=
  lfo_no_read_back ⟨fun _ => 200, fun _ => 0, fun _ => 0, fun _ => 0⟩
    ⟨fun _ => 100, fun i => if i = LFO_AMOUNT then 64 else 0, fun _ => 0, fun _ => 0⟩
    lfo_boot 77 (by decide)


/-! ### One-shot sync flags (C21) -/

/-- C21, counterexample: with `auc_synth_params[LFO_SYNC]` at 0, a call of
`lfo()` that finds the LFO sync flag set returns with the flag still 1. -/
theorem lfo_sync_flag_survives :
    (⟨0, LFSR_SEED, 0, 0, 0, 1⟩ : LfoState).g_uc_lfo_midi_sync_flag = 1 ∧
    (lfo zero_tables ⟨fun _ => 0, fun _ => 0, fun _ => 0, fun _ => 0⟩
      ⟨0, LFSR_SEED, 0, 0, 0, 1⟩).2.g_uc_lfo_midi_sync_flag = 1 := by
  decide

theorem filter_attack_step_flag (k : Nat) (s : FilterState) :
    (filter_attack_step k s).g_uc_filter_envelope_sync_flag = s.g_uc_filter_envelope_sync_flag := by
  unfold filter_attack_step; split_ifs <;> rfl

theorem filter_attack_flag (e : FilterEnv) (s : FilterState) :
    (filter_attack e s).g_uc_filter_envelope_sync_flag = s.g_uc_filter_envelope_sync_flag := by
  unfold filter_attack
  simp only []
  split_ifs <;> first | rfl | (rw [filter_attack_step_flag])

/-- A call of `filter()` that finds the filter sync flag set returns with it cleared. -/
theorem filter_sync_flag_cleared (e : FilterEnv) (s : FilterState)
    (h : s.g_uc_filter_envelope_sync_flag = 1) :
    (filter e s).1.g_uc_filter_envelope_sync_flag = 0 := by
  have hk : (filter_key e s).g_uc_filter_envelope_sync_flag = 1 := by
    unfold filter_key; split_ifs <;> exact h
  have hs : (filter_sync e (filter_key e s)).g_uc_filter_envelope_sync_flag = 0 ∧
      (filter_sync e (filter_key e s)).uc_adsr_state = ATTACK_STATE := by
    unfold filter_sync
    rw [if_pos hk.symm]
    exact ⟨rfl, rfl⟩
  have he : (filter_envelope e (filter_sync e (filter_key e s))).g_uc_filter_envelope_sync_flag
      = 0 := by
    unfold filter_envelope
    split_ifs with h1 h2
    · exact hs.1
    · rw [filter_attack_flag]; exact hs.1
    all_goals exact absurd hs.2 h2
  have hq := filter_sequence_envelope (filter_antilog_frequency e s) e.p_FILTER_Q
    (filter_envelope e (filter_sync e (filter_key e s)))
  have hf : (filter_sequence (filter_antilog_frequency e s) e.p_FILTER_Q
      (filter_envelope e (filter_sync e (filter_key e s)))).g_uc_filter_envelope_sync_flag
      = (filter_envelope e (filter_sync e (filter_key e s))).g_uc_filter_envelope_sync_flag :=
    congrArg (fun b => b.2.2.2.2.2) hq
  rw [filter_eq_sequence]
  exact hf.trans he

theorem ite_lfo_flag (c : Prop) [Decidable c] (a b : LfoState × Nat) (f : Nat)
    (ha : a.1.g_uc_lfo_midi_sync_flag = f) (hb : b.1.g_uc_lfo_midi_sync_flag = f) :
    (if c then a else b).1.g_uc_lfo_midi_sync_flag = f := by
  split <;> assumption

theorem lfo_morph_tick_flag (g : ParamArrays) (s : LfoState) :
    (lfo_morph_tick g s).g_uc_lfo_midi_sync_flag = s.g_uc_lfo_midi_sync_flag := by
  unfold lfo_morph_tick
  simp only []
  split_ifs <;> rfl

theorem lfo_morph5_tick_flag (g : ParamArrays) (s : LfoState) :
    (lfo_morph5_tick g s).g_uc_lfo_midi_sync_flag = s.g_uc_lfo_midi_sync_flag := by
  unfold lfo_morph5_tick
  simp only []
  split_ifs <;> rfl

theorem lfo_sample_flag (w : WaveTables) (g : ParamArrays) (s : LfoState) :
    (lfo_sample w g s).1.g_uc_lfo_midi_sync_flag = s.g_uc_lfo_midi_sync_flag := by
  unfold lfo_sample
  repeat' (first
    | apply ite_lfo_flag
    | exact lfo_morph_tick_flag _ _
    | exact lfo_morph5_tick_flag _ _
    | rfl)

theorem lfo_flag_after (w : WaveTables) (g : ParamArrays) (s : LfoState) :
    (lfo w g s).2.g_uc_lfo_midi_sync_flag = (lfo_sync g s).g_uc_lfo_midi_sync_flag := by
  unfold lfo
  simp only []
  split_ifs
  · show (lfo_sample w g (lfo_sync g s)).1.g_uc_lfo_midi_sync_flag = _
    exact lfo_sample_flag _ _ _
  all_goals rfl

theorem ite_osc_flag (c : Prop) [Decidable c] (a b : OscState × Nat) (f : Nat)
    (ha : a.1.g_uc_oscillator_midi_sync_flag = f) (hb : b.1.g_uc_oscillator_midi_sync_flag = f) :
    (if c then a else b).1.g_uc_oscillator_midi_sync_flag = f := by
  split <;> assumption

theorem oscillator_morph_tick_flag (p : Nat) (s : OscState) :
    (oscillator_morph_tick p s).g_uc_oscillator_midi_sync_flag
      = s.g_uc_oscillator_midi_sync_flag := by
  unfold oscillator_morph_tick
  simp only []
  split_ifs <;> rfl

theorem oscillator_morph_tick16_flag (p : Nat) (s : OscState) :
    (oscillator_morph_tick16 p s).g_uc_oscillator_midi_sync_flag
      = s.g_uc_oscillator_midi_sync_flag := by
  unfold oscillator_morph_tick16
  simp only []
  split_ifs <;> rfl

theorem oscillator_morph4_tick_flag (s : OscState) :
    (oscillator_morph4_tick s).g_uc_oscillator_midi_sync_flag
      = s.g_uc_oscillator_midi_sync_flag := by
  unfold oscillator_morph4_tick
  simp only []
  split_ifs <;> rfl

theorem oscillator_morph8_tick_flag (s : OscState) :
    (oscillator_morph8_tick s).g_uc_oscillator_midi_sync_flag
      = s.g_uc_oscillator_midi_sync_flag := by
  unfold oscillator_morph8_tick
  simp only []
  split_ifs <;> rfl

theorem oscillator_phase_tick_flag (s : OscState) :
    (oscillator_phase_tick s).g_uc_oscillator_midi_sync_flag
      = s.g_uc_oscillator_midi_sync_flag := by
  unfold oscillator_phase_tick
  simp only []
  split_ifs <;> rfl

theorem oscillator_enveloped_flag (w : WaveTables) (t : OscTables) (a i f : Nat) (s : OscState) :
    (oscillator_enveloped w t a i f s).1.g_uc_oscillator_midi_sync_flag
      = s.g_uc_oscillator_midi_sync_flag := by
  unfold oscillator_enveloped
  rfl

theorem oscillator_switch_flag (w : WaveTables) (t : OscTables) (s : OscState)
    (k r f : Nat) :
    (oscillator_switch w t s k r f).1.g_uc_oscillator_midi_sync_flag
      = s.g_uc_oscillator_midi_sync_flag := by
  unfold oscillator_switch
  repeat' apply ite_osc_flag
  all_goals
    first
    | (with_reducible rfl)
    | simp only [oscillator_morph_tick_flag, oscillator_morph4_tick_flag,
        oscillator_morph8_tick_flag, oscillator_phase_tick_flag, oscillator_enveloped_flag,
        oscillator_morph_tick16_flag]

/-- C21, amended: a call of `adsr()`, `filter()` or `oscillator()` that finds its
own sync flag set returns with that flag at 0, for every parameter setting and
state; `lfo()` clears its flag when `auc_synth_params[LFO_SYNC]` is 1 and
otherwise leaves it as it found it. -/
theorem sync_flags_consumed :
    (∀ (e : AdsrEnv) (s : AdsrState), s.g_uc_adsr_midi_sync_flag = 1 →
      (adsr e s).g_uc_adsr_midi_sync_flag = 0) ∧
    (∀ (e : FilterEnv) (s : FilterState), s.g_uc_filter_envelope_sync_flag = 1 →
      (filter e s).1.g_uc_filter_envelope_sync_flag = 0) ∧
    (∀ (w : WaveTables) (t : OscTables) (s : OscState) (k r f : Nat),
      s.g_uc_oscillator_midi_sync_flag = 1 →
      (oscillator w t s k r f).1.g_uc_oscillator_midi_sync_flag = 0) ∧
    (∀ (w : WaveTables) (g : ParamArrays) (s : LfoState), s.g_uc_lfo_midi_sync_flag = 1 →
      g.auc_synth_params LFO_SYNC = 1 → (lfo w g s).2.g_uc_lfo_midi_sync_flag = 0) ∧
    (∀ (w : WaveTables) (g : ParamArrays) (s : LfoState), g.auc_synth_params LFO_SYNC ≠ 1 →
      (lfo w g s).2.g_uc_lfo_midi_sync_flag = s.g_uc_lfo_midi_sync_flag) := by
  refine ⟨?_, filter_sync_flag_cleared, ?_, ?_, ?_⟩
  · intro e s h
    unfold adsr
    rw [adsr_timer_sync_flag, (adsr_key_fields e _).2.2.2.2]
    unfold adsr_sync
    rw [if_pos h]
  · intro w t s k r f h
    unfold oscillator
    rw [oscillator_switch_flag]
    unfold oscillator_sync
    rw [if_pos h]
  · intro w g s h hp
    rw [lfo_flag_after]
    unfold lfo_sync
    rw [if_pos ⟨hp, h⟩]
  · intro w g s hp
    rw [lfo_flag_after]
    unfold lfo_sync
    rw [if_neg (fun h => hp h.1)]

/-- C21, instance: each of the four consumers on a raised flag, the LFO with
its sync parameter at 1. -/
theorem sync_flags_consumed_witness :
    (adsr ⟨1, 100, 0, 0, 0, 0⟩ { adsr_boot with g_uc_adsr_midi_sync_flag := 1 }).g_uc_adsr_midi_sync_flag
      = 0 ∧
    (filter steady_env { filter_boot with g_uc_filter_envelope_sync_flag := 1 }).1.g_uc_filter_envelope_sync_flag
      = 0 ∧
    (oscillator zero_tables zero_osc_tables { osc_boot with g_uc_oscillator_midi_sync_flag := 1 }
      NOISE 0 0).1.g_uc_oscillator_midi_sync_flag = 0 ∧
    (lfo zero_tables ⟨fun _ => 0, fun i => if i = LFO_SYNC then 1 else 0, fun _ => 0, fun _ => 0⟩
      ⟨0, LFSR_SEED, 0, 0, 0, 1⟩).2.g_uc_lfo_midi_sync_flag = 0 :=
  ⟨sync_flags_consumed.1 _ _ rfl, sync_flags_consumed.2.1 _ _ rfl,
   sync_flags_consumed.2.2.1 _ _ _ _ _ _ rfl, sync_flags_consumed.2.2.2.1 _ _ _ rfl rfl⟩

/-! ### MIDI control change (C22) -/

theorem midi_control_change_eq (c v : Nat) (g : ParamArrays) (hc : c ≤ 31) (hv : v ≤ 127) :
    midi_control_change c v g =
      { g with
        auc_external_params :=
          if control_change_slot c ≠ PITCH_SHIFT then
            array_set g.auc_external_params (control_change_slot c) (2 * v)
          else g.auc_external_params
        auc_parameter_source :=
          array_set g.auc_parameter_source (control_change_slot c) SOURCE_EXTERNAL
        auc_synth_params :=
          if control_change_slot c ≠ active_lfo_dest g then
            array_set g.auc_synth_params (control_change_slot c) (2 * v)
          else g.auc_synth_params } := by
  have h1 : (if c > 2 then u8 (c + 256 - MIDI_CONTROLLER_0_INDEX) else LFO_AMOUNT)
      = control_change_slot c := by
    unfold control_change_slot u8 MIDI_CONTROLLER_0_INDEX
    split_ifs <;> omega
  have h2 : u8 (v <<< 1) = 2 * v := by
    unfold u8
    rw [Nat.shiftLeft_eq]
    omega
  unfold midi_control_change active_lfo_dest
  simp only [h1, h2]

/-- C22: a control change with controller `c` in 0..31 and value `v` in 0..127
addresses the slot `s = LFO_AMOUNT` for `c <= 2` and `s = c - 2` otherwise; it
sets `source[s]` to External, sets `external_params[s]` to `2 * v` unless `s` is
`PITCH_SHIFT`, sets `synth_params[s]` to `2 * v` if `s` is not the active LFO
destination and leaves it unchanged if it is; no other slot of any parameter
array, and nothing else of the state, is modified. -/
theorem control_change_effect (c v : Nat) (s : MidiState) (hc : c ≤ 31) (hv : v ≤ 127)
    (_hd : s.g.auc_synth_params LFO_DEST < 8) :
    (midi_interpret_incoming_message ⟨MESSAGE_TYPE_CONTROL_CHANGE, c, v⟩ s).g.auc_parameter_source
      (control_change_slot c) = SOURCE_EXTERNAL ∧
    (control_change_slot c ≠ PITCH_SHIFT →
      (midi_interpret_incoming_message ⟨MESSAGE_TYPE_CONTROL_CHANGE, c, v⟩ s).g.auc_external_params
        (control_change_slot c) = 2 * v) ∧
    (control_change_slot c = PITCH_SHIFT →
      (midi_interpret_incoming_message ⟨MESSAGE_TYPE_CONTROL_CHANGE, c, v⟩ s).g.auc_external_params
        = s.g.auc_external_params) ∧
    (control_change_slot c ≠ active_lfo_dest s.g →
      (midi_interpret_incoming_message ⟨MESSAGE_TYPE_CONTROL_CHANGE, c, v⟩ s).g.auc_synth_params
        (control_change_slot c) = 2 * v) ∧
    (control_change_slot c = active_lfo_dest s.g →
      (midi_interpret_incoming_message ⟨MESSAGE_TYPE_CONTROL_CHANGE, c, v⟩ s).g.auc_synth_params
        = s.g.auc_synth_params) ∧
    (∀ i, i ≠ control_change_slot c →
      (midi_interpret_incoming_message ⟨MESSAGE_TYPE_CONTROL_CHANGE, c, v⟩ s).g.auc_parameter_source i
        = s.g.auc_parameter_source i ∧
      (midi_interpret_incoming_message ⟨MESSAGE_TYPE_CONTROL_CHANGE, c, v⟩ s).g.auc_external_params i
        = s.g.auc_external_params i ∧
      (midi_interpret_incoming_message ⟨MESSAGE_TYPE_CONTROL_CHANGE, c, v⟩ s).g.auc_synth_params i
        = s.g.auc_synth_params i) ∧
    (midi_interpret_incoming_message ⟨MESSAGE_TYPE_CONTROL_CHANGE, c, v⟩ s).g.auc_ad_values
      = s.g.auc_ad_values ∧
    midi_interpret_incoming_message ⟨MESSAGE_TYPE_CONTROL_CHANGE, c, v⟩ s
      = { s with g := (midi_interpret_incoming_message ⟨MESSAGE_TYPE_CONTROL_CHANGE, c, v⟩ s).g } := by
  have hm : midi_interpret_incoming_message ⟨MESSAGE_TYPE_CONTROL_CHANGE, c, v⟩ s
      = { s with g := midi_control_change c v s.g } := by
    unfold midi_interpret_incoming_message
    simp [MESSAGE_TYPE_CONTROL_CHANGE, MESSAGE_TYPE_NOTE_ON, MESSAGE_TYPE_NOTE_OFF]
  rw [hm, midi_control_change_eq c v s.g hc hv]
  refine ⟨?_, ?_, ?_, ?_, ?_, ?_, rfl, rfl⟩
  · simp [array_set]
  · intro h; simp [array_set, h]
  · intro h; simp [h]
  · intro h; simp [array_set, h]
  · intro h; simp [h]
  · intro i hi
    refine ⟨?_, ?_, ?_⟩
    · simp [array_set, hi]
    · simp only []; split_ifs <;> simp [array_set, hi]
    · simp only []; split_ifs <;> simp [array_set, hi]

/-- C22, instance: controller 9 (slot 7, the attack knob) with value 100. -/
theorem control_change_effect_witness :
    (midi_interpret_incoming_message ⟨MESSAGE_TYPE_CONTROL_CHANGE, 9, 100⟩ midi_boot).g.auc_synth_params 7
      = 200 :=
  (control_change_effect 9 100 midi_boot (by decide) (by decide) (by decide)).2.2.2.1 (by decide)

/-! ### Note-on at a full table (C23) -/

/-- C23, counterexample: with twelve notes held, note 51 sounding at velocity 64
and the arpeggiator off, a note-on for note 72 at velocity 90 leaves the count
at 12 but makes 72 the sounding note and 90 the velocity. -/
theorem note_on_full_table_still_sounds :
    full_table_state.uc_midi_number_active_notes = 12 ∧
    full_table_state.auc_midi_note_index_osc1 = 51 ∧
    full_table_state.uc_note_velocity = 64 ∧
    (midi_interpret_incoming_message ⟨MESSAGE_TYPE_NOTE_ON, 72, 90⟩
      full_table_state).uc_midi_number_active_notes = 12 ∧
    (midi_interpret_incoming_message ⟨MESSAGE_TYPE_NOTE_ON, 72, 90⟩
      full_table_state).auc_midi_note_index_osc1 = 72 ∧
    (midi_interpret_incoming_message ⟨MESSAGE_TYPE_NOTE_ON, 72, 90⟩
      full_table_state).uc_note_velocity = 90 := by
  decide

/-- C23, amended: a note-on received while the count is 12 leaves the
active-note table and the count unchanged and raises the four sync flags; the
sounding note index, the velocity and the key-press flag are left unchanged
only when the arpeggiator mode is non-zero, and with the arpeggiator off they
become the new note, its velocity and 1. -/
theorem note_on_full_table (n v : Nat) (s : MidiState)
    (hfull : s.uc_midi_number_active_notes = LENGTH_OF_ACTIVE_NOTE_ARRAY) :
    (midi_interpret_incoming_message ⟨MESSAGE_TYPE_NOTE_ON, n, v⟩ s).auc_midi_active_notes
      = s.auc_midi_active_notes ∧
    (midi_interpret_incoming_message ⟨MESSAGE_TYPE_NOTE_ON, n, v⟩ s).uc_midi_number_active_notes
      = 12 ∧
    (midi_interpret_incoming_message ⟨MESSAGE_TYPE_NOTE_ON, n, v⟩ s).g_uc_lfo_midi_sync_flag = 1 ∧
    (midi_interpret_incoming_message ⟨MESSAGE_TYPE_NOTE_ON, n, v⟩ s).g_uc_adsr_midi_sync_flag = 1 ∧
    (midi_interpret_incoming_message ⟨MESSAGE_TYPE_NOTE_ON, n, v⟩ s).g_uc_filter_envelope_sync_flag
      = 1 ∧
    (midi_interpret_incoming_message ⟨MESSAGE_TYPE_NOTE_ON, n, v⟩ s).g_uc_oscillator_midi_sync_flag
      = 1 ∧
    (s.g.auc_synth_params ARPEGGIATOR_MODE ≠ 0 →
      (midi_interpret_incoming_message ⟨MESSAGE_TYPE_NOTE_ON, n, v⟩ s).auc_midi_note_index_osc1
        = s.auc_midi_note_index_osc1 ∧
      (midi_interpret_incoming_message ⟨MESSAGE_TYPE_NOTE_ON, n, v⟩ s).uc_note_velocity
        = s.uc_note_velocity ∧
      (midi_interpret_incoming_message ⟨MESSAGE_TYPE_NOTE_ON, n, v⟩ s).g_uc_key_press_flag
        = s.g_uc_key_press_flag) ∧
    (s.g.auc_synth_params ARPEGGIATOR_MODE = 0 →
      (midi_interpret_incoming_message ⟨MESSAGE_TYPE_NOTE_ON, n, v⟩ s).auc_midi_note_index_osc1 = n ∧
      (midi_interpret_incoming_message ⟨MESSAGE_TYPE_NOTE_ON, n, v⟩ s).uc_note_velocity = v ∧
      (midi_interpret_incoming_message ⟨MESSAGE_TYPE_NOTE_ON, n, v⟩ s).g_uc_key_press_flag = 1) := by
  unfold midi_interpret_incoming_message midi_add_active_note
  simp only [hfull, ne_eq, not_true_eq_false, if_false, if_true]
  by_cases ha : s.g.auc_synth_params ARPEGGIATOR_MODE = 0
  · simp [ha, hfull, LENGTH_OF_ACTIVE_NOTE_ARRAY]
  · simp [ha, hfull, LENGTH_OF_ACTIVE_NOTE_ARRAY]

/-- C23, instance: the full table of the counterexample with the arpeggiator on. -/
theorem note_on_full_table_witness :
    (midi_interpret_incoming_message ⟨MESSAGE_TYPE_NOTE_ON, 72, 90⟩
      { full_table_state with
        g := ⟨fun _ => 0, fun i => if i = ARPEGGIATOR_MODE then 1 else 0, fun _ => 0,
          fun _ => 0⟩ }).auc_midi_note_index_osc1 = 51 :=
  ((note_on_full_table 72 90
    { full_table_state with
      g := ⟨fun _ => 0, fun i => if i = ARPEGGIATOR_MODE then 1 else 0, fun _ => 0, fun _ => 0⟩ }
    rfl).2.2.2.2.2.2.1 (by decide)).1

/-! ### LFO table lookups (C25) -/

/-- C25, evaluation of the code: the rate index `LFO_RATE >> 3` is below 32 for
every 8-bit rate, but the destination index is used as it stands.  The control
change for controller 23 addresses the slot `LFO_DEST` itself; with value 4 it
stores 8 there, and the next `lfo()` indexes the 8-entry destination table at 8. -/
theorem lfo_dest_index_unchecked :
    (∀ r : Fin 256, (r : Nat) >>> 3 < g_aun_lfo_rate_lut.length) ∧
    g_aun_lfo_rate_lut.length = 32 ∧ auc_lfo_dest_decode.length = 8 ∧
    control_change_slot 23 = LFO_DEST ∧
    (midi_interpret_incoming_message ⟨MESSAGE_TYPE_CONTROL_CHANGE, 23, 4⟩ midi_boot).g.auc_synth_params
      LFO_DEST = 8 ∧
    (8, 8) ∈ lfo_lookups
      (midi_interpret_incoming_message ⟨MESSAGE_TYPE_CONTROL_CHANGE, 23, 4⟩ midi_boot).g ∧
    ¬ ((midi_interpret_incoming_message ⟨MESSAGE_TYPE_CONTROL_CHANGE, 23, 4⟩ midi_boot).g.auc_synth_params
      LFO_DEST < auc_lfo_dest_decode.length) := by
  refine ⟨fun r => ?_, by decide, by decide, by decide, by decide, by decide, by decide⟩
  have h := r.isLt
  have hl : g_aun_lfo_rate_lut.length = 32 := by decide
  rw [hl, Nat.shiftRight_eq_div_pow]
  omega

/-! ### Sine interpolation (C29) -/

/-- C29, evaluation of the code: `linear_interpolate` shifts the scaled
difference right by 8, not by 7.  With `r = 127`, `s1 = 0`, `s2 = 128` it
returns 63 where `s1 + ((s2 - s1) * r) / 128` is 127, and with `r = 64`,
`s1 = 0`, `s2 = 200` it returns 50 where the formula gives 100; the SIN
waveform at phase 127 between table entries 0 and 128 returns 63. -/
theorem linear_interpolate_halves_the_slope :
    linear_interpolate 127 0 128 = 63 ∧
    (0 : Int) + (((128 : Int) - 0) * 127) / 128 = 127 ∧
    linear_interpolate 64 0 200 = 50 ∧
    (0 : Int) + (((200 : Int) - 0) * 64) / 128 = 100 ∧
    (oscillator step_sin_tables zero_osc_tables osc_boot SIN 127 60).2 = 63 := by
  decide

/-! ### Pot split (C30) -/

theorem filter_cutoff_le (e : FilterEnv) (s : FilterState) : filter_cutoff e s ≤ 255 := by
  unfold filter_cutoff u8i
  simp only []
  split_ifs <;> omega

theorem antilog_frequency_value (e : FilterEnv) (s : FilterState) :
    filter_antilog_frequency e s ≤ 511 ∧
    (filter_antilog_frequency e s = 511 ↔
      filter_cutoff e (filter_sync e (filter_key e s)) = 255) := by
  unfold filter_antilog_frequency
  have hc := filter_cutoff_le e (filter_sync e (filter_key e s))
  generalize filter_cutoff e (filter_sync e (filter_key e s)) = c at hc ⊢
  rw [antilog_closed_form c hc]
  unfold ofS16
  split_ifs <;> omega

theorem filter_sequence_split (a q : Nat) (s : FilterState) (ha : a ≤ 511)
    (h : (filter_sequence a q s).uc_update_state = FREQUENCY_1_UPDATE) :
    (filter_sequence a q s).uc_filter_1_value = a >>> 1 ∧
    (a < 511 →
      (filter_sequence a q s).uc_filter_2_value = (filter_sequence a q s).uc_filter_1_value + a % 2 ∧
      (filter_sequence a q s).uc_filter_1_value + (filter_sequence a q s).uc_filter_2_value = a) ∧
    (a = 511 →
      (filter_sequence a q s).uc_filter_1_value = 255 ∧
      (filter_sequence a q s).uc_filter_2_value = 255) := by
  revert h
  unfold filter_sequence
  simp only [u8, Nat.shiftRight_eq_div_pow, FREQUENCY_1_UPDATE, FREQUENCY_2_UPDATE,
    FILTER_Q_UPDATE, WAIT, pow_one]
  split_ifs <;> intro h <;> simp only [] at h ⊢ <;> omega

theorem oscillator_blend_reads_rows (t t' : Nat → Nat → Nat) (m f i : Nat)
    (h : ∀ r ∈ oscillator_blend_rows m f, t r i = t' r i) :
    oscillator_blend t m f i = oscillator_blend t' m f i := by
  unfold oscillator_blend_rows at h
  unfold oscillator_blend table_read2
  simp only []
  split_ifs at h ⊢ with h0 h1 h2 h3
  · rw [h f (by simp), h (u8 (f + 255)) (by simp)]
  · rw [h f (by simp), h (u8 (f + 255)) (by simp)]
  · rw [h f (by simp), h (u8 (f + 1)) (by simp)]
  · rw [h f (by simp), h (u8 (f + 1)) (by simp)]
  · rfl

theorem blend_rows_in_bank (note : Nat) (h2 : 2 ≤ note) (h125 : note ≤ 125) :
    ∀ r ∈ oscillator_blend_rows (note % 4) (note >>> 2), r < 32 := by
  intro r hr
  unfold oscillator_blend_rows u8 at hr
  simp only [Nat.shiftRight_eq_div_pow, Nat.reducePow] at hr
  split_ifs at hr <;> simp only [List.mem_cons, List.mem_singleton, List.not_mem_nil,
    or_false] at hr <;> omega

/-- C24, evaluation of the code: the blend reads the band table `note >> 2` and
the neighbour reached by `uc_frequency--` or `uc_frequency++` with no clamp.
For the notes 2..125 both numbers are within 0..31, but for note 0 (and 1) the
neighbour is table 255 and for note 127 (and 126) it is table 32.  With tables
that are 0 inside the bank and 200 outside it, RAMP at note 0 and TRIANGLE at
note 127 return 100, not 0. -/
theorem blend_leaves_table_bank :
    (∀ (t t' : Nat → Nat → Nat) (m f i : Nat),
      (∀ r ∈ oscillator_blend_rows m f, t r i = t' r i) →
      oscillator_blend t m f i = oscillator_blend t' m f i) ∧
    (∀ note : Nat, 2 ≤ note → note ≤ 125 →
      ∀ r ∈ oscillator_blend_rows (note % 4) (note >>> 2), r < 32) ∧
    oscillator_blend_rows (0 % 4) (0 >>> 2) = [0, 255] ∧
    oscillator_blend_rows (1 % 4) (1 >>> 2) = [0, 255] ∧
    oscillator_blend_rows (126 % 4) (126 >>> 2) = [31, 32] ∧
    oscillator_blend_rows (127 % 4) (127 >>> 2) = [31, 32] ∧
    (oscillator zero_tables zero_osc_tables osc_boot RAMP 0 0).2 = 0 ∧
    (oscillator zero_tables outside_bank_tables osc_boot RAMP 0 0).2 = 100 ∧
    (oscillator zero_tables outside_bank_tables osc_boot TRIANGLE 0 127).2 = 100 ∧
    (oscillator zero_tables outside_bank_tables osc_boot TRIANGLE 0 125).2 = 0 :=
  ⟨oscillator_blend_reads_rows, blend_rows_in_bank, by decide, by decide, by decide, by decide,
   by decide, by decide, by decide, by decide⟩

/-! ### Glide step count and increment (C26) -/

/-- C26, evaluation of the code: gliding from 8 to `AUN_FREQ_LUT[127] = 12544`
(delta 12536).  With portamento 128 the table gives N = 512, but the increment
is `delta >> 8 = 48` (not `delta >> 9 = 24`) and the 8-bit step count is
`512 mod 256 = 0`, so the first tick already snaps to 12544.  With portamento
32 the table gives N = 64, the increment is `delta >> 5 = 391` (not
`delta >> 6 = 195`) and it is applied 64 times: the frequency is past the
target after 33 ticks (12911), reaches 25032 after 64 and snaps to 12544 on
tick 65. -/
theorem glide_count_truncated_and_step_doubled :
    leap_start.aun_note_frequency_osc1 = freq_lut 0 ∧ freq_lut 127 = 12544 ∧
    AUN_PORTAMENTO_LUT.getD (128 >>> 5) 0 = 512 ∧
    (calculate_pitch (portamento_env 128) leap_start).sn_pitch_shift_increment_osc1 = 48 ∧
    (12536 : Int) >>> (9 : Nat) = 24 ∧
    (calculate_pitch (portamento_env 128) leap_start).uc_pitch_shift_incrementer_osc1 = 0 ∧
    (calculate_pitch (portamento_env 128) leap_start).aun_note_frequency_osc1 = 12544 ∧
    AUN_PORTAMENTO_LUT.getD (32 >>> 5) 0 = 64 ∧
    (calculate_pitch (portamento_env 32) leap_start).sn_pitch_shift_increment_osc1 = 391 ∧
    (12536 : Int) >>> (6 : Nat) = 195 ∧
    (calculate_pitch (portamento_env 32) leap_start).uc_pitch_shift_incrementer_osc1 = 64 ∧
    (calculate_pitch_n (portamento_env 32) 33 leap_start).aun_note_frequency_osc1 = 12911 ∧
    (calculate_pitch_n (portamento_env 32) 64 leap_start).aun_note_frequency_osc1 = 25032 ∧
    (calculate_pitch_n (portamento_env 32) 65 leap_start).aun_note_frequency_osc1 = 12544 := by
  decide!

/-! ### Glide end value (C27) -/

theorem pitch_shift_compress_range (p : Nat) (hp : p ≤ 255) :
    48 ≤ pitch_shift_compress p ∧ pitch_shift_compress p ≤ 111 := by
  unfold pitch_shift_compress ZERO_PITCH_BEND
  simp only [Nat.shiftRight_eq_div_pow, Nat.reducePow]
  split_ifs <;> omega

theorem pitch_pre_fields (e : PitchEnv) (s : PitchState) :
    (pitch_detune e (pitch_startup s)).auc_midi_note_index_osc1 = s.auc_midi_note_index_osc1 ∧
    (pitch_detune e (pitch_startup s)).auc_midi_note_index_osc2
      = (pitch_detune e s).auc_midi_note_index_osc2 ∧
    (pitch_detune e (pitch_startup s)).uc_old_pitch_shift = s.uc_old_pitch_shift ∧
    (pitch_detune e (pitch_startup s)).uc_old_midi_note_number = s.uc_old_midi_note_number ∧
    (pitch_detune e (pitch_startup s)).uc_midi_note_number_osc1_shifted
      = s.uc_midi_note_number_osc1_shifted ∧
    (pitch_detune e (pitch_startup s)).uc_midi_note_number_osc2_shifted
      = s.uc_midi_note_number_osc2_shifted ∧
    (pitch_detune e (pitch_startup s)).uc_pitch_shift_incrementer_osc1
      = s.uc_pitch_shift_incrementer_osc1 ∧
    (pitch_detune e (pitch_startup s)).uc_pitch_shift_incrementer_osc2
      = s.uc_pitch_shift_incrementer_osc2 ∧
    (pitch_detune e (pitch_startup s)).uc_pitch_shift_increment_counter_osc1
      = s.uc_pitch_shift_increment_counter_osc1 ∧
    (pitch_detune e (pitch_startup s)).uc_pitch_shift_increment_counter_osc2
      = s.uc_pitch_shift_increment_counter_osc2 := by
  unfold pitch_detune pitch_startup
  simp only []
  split_ifs <;> simp

theorem pitch_detune_note2_le (e : PitchEnv) (s : PitchState)
    (h : s.auc_midi_note_index_osc1 ≤ 127) :
    (pitch_detune e s).auc_midi_note_index_osc2 ≤ 127 := by
  unfold pitch_detune
  simp only []
  split_ifs <;> simp only [] <;> omega

theorem pitch_detune_note2_congr (e : PitchEnv) (s s' : PitchState)
    (h : s.auc_midi_note_index_osc1 = s'.auc_midi_note_index_osc1) :
    (pitch_detune e s).auc_midi_note_index_osc2 = (pitch_detune e s').auc_midi_note_index_osc2 := by
  unfold pitch_detune
  simp only [h]
  split_ifs <;> rfl

theorem pitch_advance_fields (s : PitchState) :
    (pitch_advance s).auc_midi_note_index_osc1 = s.auc_midi_note_index_osc1 ∧
    (pitch_advance s).auc_midi_note_index_osc2 = s.auc_midi_note_index_osc2 ∧
    (pitch_advance s).uc_old_pitch_shift = s.uc_old_pitch_shift ∧
    (pitch_advance s).uc_old_midi_note_number = s.uc_old_midi_note_number ∧
    (pitch_advance s).uc_midi_note_number_osc1_shifted = s.uc_midi_note_number_osc1_shifted ∧
    (pitch_advance s).uc_midi_note_number_osc2_shifted = s.uc_midi_note_number_osc2_shifted ∧
    (pitch_advance s).uc_pitch_shift_incrementer_osc1 = s.uc_pitch_shift_incrementer_osc1 ∧
    (pitch_advance s).uc_pitch_shift_incrementer_osc2 = s.uc_pitch_shift_incrementer_osc2 ∧
    (pitch_advance s).uc_pitch_shift_increment_counter_osc1
      = (if s.uc_pitch_shift_increment_counter_osc1 < s.uc_pitch_shift_incrementer_osc1
         then u8 (s.uc_pitch_shift_increment_counter_osc1 + 1)
         else s.uc_pitch_shift_increment_counter_osc1) ∧
    (pitch_advance s).uc_pitch_shift_increment_counter_osc2
      = (if s.uc_pitch_shift_increment_counter_osc2 < s.uc_pitch_shift_incrementer_osc2
         then u8 (s.uc_pitch_shift_increment_counter_osc2 + 1)
         else s.uc_pitch_shift_increment_counter_osc2) ∧
    (¬ s.uc_pitch_shift_increment_counter_osc1 < s.uc_pitch_shift_incrementer_osc1 →
      (pitch_advance s).aun_note_frequency_osc1 = freq_lut s.uc_midi_note_number_osc1_shifted) ∧
    (¬ s.uc_pitch_shift_increment_counter_osc2 < s.uc_pitch_shift_incrementer_osc2 →
      (pitch_advance s).aun_note_frequency_osc2 = freq_lut s.uc_midi_note_number_osc2_shifted) := by
  unfold pitch_advance
  simp only []
  split_ifs <;> simp_all

theorem pitch_increment_count_le (sn : Int) (n l : Nat) (fb : Int) :
    (pitch_increment sn n l fb).2 ≤ 255 := by
  have hu : ∀ x : Int, u8i x ≤ 255 := by
    intro x
    unfold u8i
    have h1 := Int.emod_nonneg x (show (256 : Int) ≠ 0 by decide)
    have h2 := Int.emod_lt_of_pos x (show (0 : Int) < 256 by decide)
    omega
  have hn : ∀ x : Nat, u8 x ≤ 255 := by intro x; unfold u8; omega
  unfold pitch_increment
  split_ifs <;> simp only [] <;> first | exact hu _ | exact hn _

theorem pitch_shifted_notes_target (c : Nat) (s : PitchState)
    (h1 : s.auc_midi_note_index_osc1 ≤ 127) (h2 : s.auc_midi_note_index_osc2 ≤ 127)
    (hc : 48 ≤ c ∧ c ≤ 111) :
    (pitch_shifted_notes c s).uc_midi_note_number_osc1_shifted
      = glide_target_note s.auc_midi_note_index_osc1 c ∧
    (pitch_shifted_notes c s).uc_midi_note_number_osc2_shifted
      = glide_target_note s.auc_midi_note_index_osc2 c ∧
    (pitch_shifted_notes c s).auc_midi_note_index_osc1 = s.auc_midi_note_index_osc1 ∧
    (pitch_shifted_notes c s).auc_midi_note_index_osc2 = s.auc_midi_note_index_osc2 ∧
    (pitch_shifted_notes c s).uc_old_pitch_shift = s.uc_old_pitch_shift ∧
    (pitch_shifted_notes c s).uc_old_midi_note_number = s.uc_old_midi_note_number := by
  unfold pitch_shifted_notes glide_target_note clamp_note ZERO_PITCH_BEND u8
  simp only []
  split_ifs <;> refine ⟨?_, ?_, rfl, rfl, rfl, rfl⟩ <;> simp only [] <;> omega

theorem pitch_recompute_fields (e : PitchEnv) (c : Nat) (s : PitchState)
    (h1 : s.auc_midi_note_index_osc1 ≤ 127) (h2 : s.auc_midi_note_index_osc2 ≤ 127)
    (hc : 48 ≤ c ∧ c ≤ 111) :
    (pitch_recompute e c s).auc_midi_note_index_osc1 = s.auc_midi_note_index_osc1 ∧
    (pitch_recompute e c s).auc_midi_note_index_osc2 = s.auc_midi_note_index_osc2 ∧
    (pitch_recompute e c s).uc_old_pitch_shift = c ∧
    (pitch_recompute e c s).uc_old_midi_note_number = s.auc_midi_note_index_osc1 ∧
    (pitch_recompute e c s).uc_midi_note_number_osc1_shifted
      = glide_target_note s.auc_midi_note_index_osc1 c ∧
    (pitch_recompute e c s).uc_midi_note_number_osc2_shifted
      = glide_target_note s.auc_midi_note_index_osc2 c ∧
    (pitch_recompute e c s).uc_pitch_shift_incrementer_osc1 ≤ 255 ∧
    (pitch_recompute e c s).uc_pitch_shift_incrementer_osc2 ≤ 255 ∧
    (pitch_recompute e c s).uc_pitch_shift_increment_counter_osc1 = 0 ∧
    (pitch_recompute e c s).uc_pitch_shift_increment_counter_osc2 = 0 := by
  obtain ⟨t1, t2, f1, f2, f3, f4⟩ := pitch_shifted_notes_target c
    { s with uc_old_pitch_shift := c, uc_old_midi_note_number := s.auc_midi_note_index_osc1 }
    h1 h2 hc
  unfold pitch_recompute
  simp only []
  split_ifs
  · exact ⟨f1, f2, f3, f4, t1, t2, pitch_increment_count_le _ _ _ _,
      pitch_increment_count_le _ _ _ _, trivial, trivial⟩
  · exact ⟨f1, f2, f3, f4, t1, t2, pitch_increment_count_le _ _ _ _,
      pitch_increment_count_le _ _ _ _, trivial, trivial⟩

theorem calculate_pitch_glide_hold (e : PitchEnv) (s : PitchState)
    (hglide : pitch_glide_required e (pitch_shift_compress e.p_PITCH_SHIFT) = true)
    (hps : s.uc_old_pitch_shift = pitch_shift_compress e.p_PITCH_SHIFT)
    (hmidi : s.uc_old_midi_note_number = s.auc_midi_note_index_osc1) :
    calculate_pitch e s = pitch_advance (pitch_detune e (pitch_startup s)) := by
  obtain ⟨p1, _, p3, p4, _⟩ := pitch_pre_fields e s
  unfold calculate_pitch
  simp only [hglide, if_true]
  rw [if_neg]
  rw [p1, p3, p4]
  intro h
  rcases h with h | h
  · exact h hps
  · exact h hmidi

theorem calculate_pitch_glide_recompute (e : PitchEnv) (s : PitchState)
    (hglide : pitch_glide_required e (pitch_shift_compress e.p_PITCH_SHIFT) = true)
    (hre : s.uc_old_pitch_shift ≠ pitch_shift_compress e.p_PITCH_SHIFT ∨
      s.uc_old_midi_note_number ≠ s.auc_midi_note_index_osc1) :
    calculate_pitch e s = pitch_advance (pitch_recompute e
      (pitch_shift_compress e.p_PITCH_SHIFT) (pitch_detune e (pitch_startup s))) := by
  obtain ⟨p1, _, p3, p4, _⟩ := pitch_pre_fields e s
  unfold calculate_pitch
  simp only [hglide, if_true]
  rw [if_pos]
  rw [p1, p3, p4]
  exact hre

theorem glide_inv_advance (c n1 n2 t1 t2 j : Nat) (s s0 : PitchState)
    (h : GlideInv c n1 n2 t1 t2 j s0)
    (e1 : s.auc_midi_note_index_osc1 = s0.auc_midi_note_index_osc1)
    (e2 : s.auc_midi_note_index_osc2 = s0.auc_midi_note_index_osc2)
    (e3 : s.uc_old_pitch_shift = s0.uc_old_pitch_shift)
    (e4 : s.uc_old_midi_note_number = s0.uc_old_midi_note_number)
    (e5 : s.uc_midi_note_number_osc1_shifted = s0.uc_midi_note_number_osc1_shifted)
    (e6 : s.uc_midi_note_number_osc2_shifted = s0.uc_midi_note_number_osc2_shifted)
    (e7 : s.uc_pitch_shift_incrementer_osc1 = s0.uc_pitch_shift_incrementer_osc1)
    (e8 : s.uc_pitch_shift_incrementer_osc2 = s0.uc_pitch_shift_incrementer_osc2)
    (e9 : s.uc_pitch_shift_increment_counter_osc1 = s0.uc_pitch_shift_increment_counter_osc1)
    (e10 : s.uc_pitch_shift_increment_counter_osc2 = s0.uc_pitch_shift_increment_counter_osc2) :
    GlideInv c n1 n2 t1 t2 (j + 1) (pitch_advance s) := by
  obtain ⟨a1, a2, a3, a4, a5, a6, a7, a8, a9, a10, a11, a12⟩ := pitch_advance_fields s
  obtain ⟨g1, g2, g3, g4, g5, g6, g7, g8, g9, g10⟩ := h
  rw [← e9, ← e7] at g9
  rw [← e10, ← e8] at g10
  rw [← e7] at g7
  rw [← e8] at g8
  refine ⟨a1.trans (e1.trans g1), a2.trans (e2.trans g2), a3.trans (e3.trans g3),
    a4.trans (e4.trans g4), a5.trans (e5.trans g5), a6.trans (e6.trans g6),
    a7 ▸ g7, a8 ▸ g8, ?_, ?_⟩
  · rw [a9, a7]
    by_cases hlt : s.uc_pitch_shift_increment_counter_osc1 < s.uc_pitch_shift_incrementer_osc1
    · rw [if_pos hlt]
      left
      unfold u8
      rcases g9 with g | g <;> omega
    · rw [if_neg hlt, a11 hlt, e5, g5]
      right
      rcases g9 with g | g
      · exact ⟨by omega, rfl⟩
      · exact ⟨g.1, rfl⟩
  · rw [a10, a8]
    by_cases hlt : s.uc_pitch_shift_increment_counter_osc2 < s.uc_pitch_shift_incrementer_osc2
    · rw [if_pos hlt]
      left
      unfold u8
      rcases g10 with g | g <;> omega
    · rw [if_neg hlt, a12 hlt, e6, g6]
      right
      rcases g10 with g | g
      · exact ⟨by omega, rfl⟩
      · exact ⟨g.1, rfl⟩

theorem glide_inv_step (e : PitchEnv) (c n1 n2 t1 t2 j : Nat) (s : PitchState)
    (hglide : pitch_glide_required e (pitch_shift_compress e.p_PITCH_SHIFT) = true)
    (hc : c = pitch_shift_compress e.p_PITCH_SHIFT)
    (hd : ∀ s' : PitchState, s'.auc_midi_note_index_osc1 = n1 →
      (pitch_detune e s').auc_midi_note_index_osc2 = n2)
    (h : GlideInv c n1 n2 t1 t2 j s) :
    GlideInv c n1 n2 t1 t2 (j + 1) (calculate_pitch e s) := by
  obtain ⟨p1, p2, p3, p4, p5, p6, p7, p8, p9, p10⟩ := pitch_pre_fields e s
  have g := h
  obtain ⟨g1, g2, g3, g4, g5, g6, g7, g8, g9, g10⟩ := g
  rw [calculate_pitch_glide_hold e s hglide (by rw [g3, hc]) (by rw [g4, g1])]
  exact glide_inv_advance c n1 n2 t1 t2 j _ s h p1 (p2.trans ((hd s g1).trans g2.symm))
    p3 p4 p5 p6 p7 p8 p9 p10

theorem glide_inv_run (e : PitchEnv) (c n1 n2 t1 t2 : Nat)
    (hglide : pitch_glide_required e (pitch_shift_compress e.p_PITCH_SHIFT) = true)
    (hc : c = pitch_shift_compress e.p_PITCH_SHIFT)
    (hd : ∀ s' : PitchState, s'.auc_midi_note_index_osc1 = n1 →
      (pitch_detune e s').auc_midi_note_index_osc2 = n2) :
    ∀ (k j : Nat) (s : PitchState), GlideInv c n1 n2 t1 t2 j s →
      GlideInv c n1 n2 t1 t2 (j + k) (calculate_pitch_n e k s) := by
  intro k
  induction k with
  | zero => intro j s h; exact h
  | succ k ih =>
    intro j s h
    have h1 := ih (j + 1) (calculate_pitch e s) (glide_inv_step e c n1 n2 t1 t2 j s hglide hc hd h)
    have e1 : j + (k + 1) = j + 1 + k := by omega
    rw [e1]
    exact h1

theorem glide_inv_first (e : PitchEnv) (s : PitchState)
    (hnote : s.auc_midi_note_index_osc1 ≤ 127) (hps : e.p_PITCH_SHIFT ≤ 255)
    (hglide : pitch_glide_required e (pitch_shift_compress e.p_PITCH_SHIFT) = true)
    (hre : s.uc_old_pitch_shift ≠ pitch_shift_compress e.p_PITCH_SHIFT ∨
      s.uc_old_midi_note_number ≠ s.auc_midi_note_index_osc1) :
    GlideInv (pitch_shift_compress e.p_PITCH_SHIFT) s.auc_midi_note_index_osc1
      (pitch_detune e s).auc_midi_note_index_osc2
      (glide_target_note s.auc_midi_note_index_osc1 (pitch_shift_compress e.p_PITCH_SHIFT))
      (glide_target_note (pitch_detune e s).auc_midi_note_index_osc2
        (pitch_shift_compress e.p_PITCH_SHIFT))
      1 (calculate_pitch e s) := by
  obtain ⟨p1, p2, _⟩ := pitch_pre_fields e s
  have hn2 := pitch_detune_note2_le e s hnote
  obtain ⟨r1, r2, r3, r4, r5, r6, r7, r8, r9, r10⟩ := pitch_recompute_fields e
    (pitch_shift_compress e.p_PITCH_SHIFT) (pitch_detune e (pitch_startup s))
    (by rw [p1]; exact hnote) (by rw [p2]; exact hn2) (pitch_shift_compress_range _ hps)
  rw [p1] at r1 r4 r5
  rw [p2] at r2 r6
  rw [calculate_pitch_glide_recompute e s hglide hre]
  have h0 : GlideInv (pitch_shift_compress e.p_PITCH_SHIFT) s.auc_midi_note_index_osc1
      (pitch_detune e s).auc_midi_note_index_osc2
      (glide_target_note s.auc_midi_note_index_osc1 (pitch_shift_compress e.p_PITCH_SHIFT))
      (glide_target_note (pitch_detune e s).auc_midi_note_index_osc2
        (pitch_shift_compress e.p_PITCH_SHIFT))
      0 (pitch_recompute e (pitch_shift_compress e.p_PITCH_SHIFT)
        (pitch_detune e (pitch_startup s))) :=
    ⟨r1, r2, r3, r4, r5, r6, r7, r8, Or.inl ⟨Nat.zero_le _, by rw [r9]; exact Nat.zero_le _⟩,
      Or.inl ⟨Nat.zero_le _, by rw [r10]; exact Nat.zero_le _⟩⟩
  exact glide_inv_advance _ _ _ _ _ 0 _ _ h0 rfl rfl rfl rfl rfl rfl rfl rfl rfl rfl

/-- C27: in glide mode, when the first tick recomputes the glide and the note
index (at most 127), detune, pitch shift (a byte) and portamento are then held
constant, after 256 or more `calculate_pitch()` ticks each oscillator's note
frequency is `AUN_FREQ_LUT[clamp(note_index[osc] + (shift - 64), 0, 127)]`,
`shift` being the compressed pitch-shift value; the note indices are those of
the start (oscillator 2's being the detuned one). -/
theorem glide_settles_on_target (e : PitchEnv) (s : PitchState) (n : Nat)
    (hnote : s.auc_midi_note_index_osc1 ≤ 127) (hps : e.p_PITCH_SHIFT ≤ 255)
    (hglide : pitch_glide_required e (pitch_shift_compress e.p_PITCH_SHIFT) = true)
    (hre : s.uc_old_pitch_shift ≠ pitch_shift_compress e.p_PITCH_SHIFT ∨
      s.uc_old_midi_note_number ≠ s.auc_midi_note_index_osc1)
    (hn : 256 ≤ n) :
    (calculate_pitch_n e n s).auc_midi_note_index_osc1 = s.auc_midi_note_index_osc1 ∧
    (calculate_pitch_n e n s).auc_midi_note_index_osc2
      = (pitch_detune e s).auc_midi_note_index_osc2 ∧
    (calculate_pitch_n e n s).aun_note_frequency_osc1
      = freq_lut (glide_target_note (calculate_pitch_n e n s).auc_midi_note_index_osc1
          (pitch_shift_compress e.p_PITCH_SHIFT)) ∧
    (calculate_pitch_n e n s).aun_note_frequency_osc2
      = freq_lut (glide_target_note (calculate_pitch_n e n s).auc_midi_note_index_osc2
          (pitch_shift_compress e.p_PITCH_SHIFT)) ∧
    glide_target_note (calculate_pitch_n e n s).auc_midi_note_index_osc1
      (pitch_shift_compress e.p_PITCH_SHIFT) ≤ 127 ∧
    glide_target_note (calculate_pitch_n e n s).auc_midi_note_index_osc2
      (pitch_shift_compress e.p_PITCH_SHIFT) ≤ 127 := by
  obtain ⟨k, rfl⟩ : ∃ k, n = k + 1 := ⟨n - 1, by omega⟩
  have h1 := glide_inv_first e s hnote hps hglide hre
  have h := glide_inv_run e _ _ _ _ _ hglide rfl
    (fun s' hs' => pitch_detune_note2_congr e s' s hs') k 1 _ h1
  obtain ⟨g1, g2, _, _, _, _, g7, g8, g9, g10⟩ := h
  have hrun : calculate_pitch_n e (k + 1) s = calculate_pitch_n e k (calculate_pitch e s) := rfl
  rw [hrun, g1, g2]
  refine ⟨rfl, rfl, ?_, ?_, ?_, ?_⟩
  · rcases g9 with g | g
    · omega
    · exact g.2
  · rcases g10 with g | g
    · omega
    · exact g.2
  · unfold glide_target_note clamp_note; omega
  · unfold glide_target_note clamp_note; omega

/-- C27, instance: the leap from note 0 to note 127 with portamento 32 has
both oscillators' inputs fixed; after 256 ticks oscillator 1 is at
`AUN_FREQ_LUT[127] = 12544`. -/
theorem glide_settles_on_target_witness :
    (calculate_pitch_n (portamento_env 32) 256 leap_start).aun_note_frequency_osc1 = 12544 := by
  have h := glide_settles_on_target (portamento_env 32) leap_start 256 (by decide) (by decide)
    (by decide) (by decide) (by decide)
  rw [h.2.2.1, h.1]
  decide


/-! ### Sine interpolation (C40) -/

theorem linear_interpolate_between (r a b : Nat) (hr : r ≤ 127) (ha : a < 256) (hb : b < 256) :
    min a b ≤ linear_interpolate r a b ∧ linear_interpolate r a b ≤ max a b := by
  unfold linear_interpolate
  simp only []
  have hp1 : -32768 ≤ ((b : Int) - a) * r := by nlinarith
  have hp2 : ((b : Int) - a) * r ≤ 32767 := by nlinarith
  rw [s16_of_small _ hp1 hp2, Int.shiftRight_eq_div_pow]
  simp only [Nat.reducePow, Nat.cast_ofNat]
  unfold u8i
  rcases Nat.le_total a b with hab | hab
  · have h0 : 0 ≤ ((b : Int) - a) * r := mul_nonneg (by omega) (by omega)
    have h1 : ((b : Int) - a) * r ≤ ((b : Int) - a) * 127 :=
      mul_le_mul_of_nonneg_left (by omega) (by omega)
    generalize ((b : Int) - a) * r = p at h0 h1 hp1 hp2
    omega
  · have h0 : ((b : Int) - a) * r ≤ 0 := mul_nonpos_of_nonpos_of_nonneg (by omega) (by omega)
    have h1 : ((b : Int) - a) * 127 ≤ ((b : Int) - a) * r :=
      mul_le_mul_of_nonpos_left (by omega) (by omega)
    generalize ((b : Int) - a) * r = p at h0 h1 hp1 hp2
    omega

/-- C40: for every phase below 32767 and any sine-table contents, the SIN
waveform returns a value between the table entries at `i = phase >> 7` and at
`(i + 1) mod 256`, inclusive, for every state of the statics and every note. -/
theorem sin_between_neighbours (w : WaveTables) (t : OscTables) (s : OscState)
    (un_sample_reference uc_frequency : Nat) (h : un_sample_reference < 32767) :
    min (table_read w.G_AUC_SIN_LUT (un_sample_reference >>> 7))
        (table_read w.G_AUC_SIN_LUT ((un_sample_reference >>> 7 + 1) % 256))
      ≤ (oscillator w t s SIN un_sample_reference uc_frequency).2 ∧
    (oscillator w t s SIN un_sample_reference uc_frequency).2
      ≤ max (table_read w.G_AUC_SIN_LUT (un_sample_reference >>> 7))
          (table_read w.G_AUC_SIN_LUT ((un_sample_reference >>> 7 + 1) % 256)) := by
  have hi : u8 (un_sample_reference >>> 7) = un_sample_reference >>> 7 := by
    unfold u8
    rw [Nat.shiftRight_eq_div_pow]
    simp only [Nat.reducePow]
    omega
  have hr : un_sample_reference &&& 0x7F ≤ 127 := Nat.and_le_right
  unfold oscillator oscillator_switch
  simp only [if_true, hi]
  exact linear_interpolate_between _ _ _ hr (table_read_lt _ _) (table_read_lt _ _)

/-- C40, instance: phase 20000 between the entries 156 and 157 of a table that
holds 10 at 156 and 250 at 157. -/
theorem sin_between_neighbours_witness :
    10 ≤ (oscillator ⟨fun i => if i = 156 then 10 else 250, fun _ => 0, fun _ => 0, fun _ => 0⟩
            zero_osc_tables osc_boot SIN 20000 60).2 ∧
    (oscillator ⟨fun i => if i = 156 then 10 else 250, fun _ => 0, fun _ => 0, fun _ => 0⟩
        zero_osc_tables osc_boot SIN 20000 60).2 ≤ 250 :=
  sin_between_neighbours ⟨fun i => if i = 156 then 10 else 250, fun _ => 0, fun _ => 0, fun _ => 0⟩
    zero_osc_tables osc_boot 20000 60 (by decide)

/-! ### LFO raw square (C39) -/

theorem lfo_rate_le (i : Nat) : g_aun_lfo_rate_lut.getD i 0 ≤ 3072 := by
  by_cases h : i < 32
  · interval_cases i <;> decide
  · have hl : g_aun_lfo_rate_lut.length ≤ i := by
      have : g_aun_lfo_rate_lut.length = 32 := by decide
      omega
    rw [List.getD_eq_default _ _ hl]
    omega

theorem lfo_advance_reference (r : Nat) (s : LfoState) (hr : r ≤ 3072)
    (hs : s.un_lfo_reference < 32767) : (lfo_advance r s).un_lfo_reference < 32767 := by
  unfold lfo_advance u16 SAMPLE_MAX
  simp only []
  split_ifs <;> omega

theorem lfo_sync_reference (g : ParamArrays) (s : LfoState) (hs : s.un_lfo_reference < 32767) :
    (lfo_sync g s).un_lfo_reference < 32767 := by
  unfold lfo_sync
  split_ifs
  · show 0 < 32767
    omega
  · exact hs

theorem lfo_morph_tick_reference (g : ParamArrays) (s : LfoState) :
    (lfo_morph_tick g s).un_lfo_reference = s.un_lfo_reference := by
  unfold lfo_morph_tick
  simp only []
  split_ifs <;> rfl

theorem lfo_morph5_tick_reference (g : ParamArrays) (s : LfoState) :
    (lfo_morph5_tick g s).un_lfo_reference = s.un_lfo_reference := by
  unfold lfo_morph5_tick
  simp only []
  split_ifs <;> rfl

theorem ite_lfo_reference (c : Prop) [Decidable c] (a b : LfoState × Nat) (f : Nat)
    (ha : a.1.un_lfo_reference = f) (hb : b.1.un_lfo_reference = f) :
    (if c then a else b).1.un_lfo_reference = f := by
  split_ifs <;> assumption

theorem lfo_sample_reference (w : WaveTables) (g : ParamArrays) (s : LfoState) :
    (lfo_sample w g s).1.un_lfo_reference = s.un_lfo_reference := by
  unfold lfo_sample
  simp only []
  repeat' apply ite_lfo_reference
  all_goals first
    | (with_reducible rfl)
    | simp only [lfo_morph_tick_reference, lfo_morph5_tick_reference]

theorem lfo_reference_bound (w : WaveTables) (g : ParamArrays) (s : LfoState)
    (hs : s.un_lfo_reference < 32767) : (lfo w g s).2.un_lfo_reference < 32767 := by
  have h1 : (lfo_sample w g (lfo_sync g s)).1.un_lfo_reference < 32767 := by
    rw [lfo_sample_reference]
    exact lfo_sync_reference g s hs
  unfold lfo
  simp only []
  split_ifs
  all_goals first
    | exact lfo_advance_reference _ _ (lfo_rate_le _) h1
    | exact lfo_advance_reference _ _ (lfo_rate_le _) (lfo_sync_reference g s hs)

theorem lfo_raw_square_sample (w : WaveTables) (g : ParamArrays) (s : LfoState)
    (hshape : g.auc_synth_params LFO_WAVESHAPE = RAW_SQUARE)
    (hs : s.un_lfo_reference < 32768) : (lfo_sample w g s).2 = 255 := by
  have h8 : ¬ u8 (s.un_lfo_reference >>> 8) > 127 := by
    unfold u8
    rw [Nat.shiftRight_eq_div_pow]
    simp only [Nat.reducePow]
    omega
  unfold lfo_sample
  simp only [hshape]
  simp [RAW_SQUARE, SQUARE, RAMP, TRIANGLE, SIN, MORPH_1, MORPH_2, MORPH_3, MORPH_4, MORPH_5,
    MORPH_6, MORPH_7, MORPH_8, MORPH_9, HARD_SYNC, NOISE]
  omega

/-- C39, evaluation of the code: the phase accumulator of `lfo()` starts at 0
and stays below 32767 on every call, and for every such phase the RAW_SQUARE
case computes `phase >> 8`, at most 127, so its test `> 127` never holds and
the modifier is 255 throughout: in the second half of the cycle (phase 20000)
as in the first (phase 100).  The value 0 is never produced. -/
theorem lfo_raw_square_never_low :
    lfo_boot.un_lfo_reference < 32767 ∧
    (∀ (w : WaveTables) (g : ParamArrays) (s : LfoState), s.un_lfo_reference < 32767 →
      (lfo w g s).2.un_lfo_reference < 32767) ∧
    (∀ (w : WaveTables) (g : ParamArrays) (s : LfoState),
      g.auc_synth_params LFO_WAVESHAPE = RAW_SQUARE → s.un_lfo_reference < 32768 →
      (lfo_sample w g s).2 = 255) ∧
    (lfo_sample zero_tables (lfo_shape_params RAW_SQUARE 200)
      { lfo_boot with un_lfo_reference := 100 }).2 = 255 ∧
    (lfo_sample zero_tables (lfo_shape_params RAW_SQUARE 200)
      { lfo_boot with un_lfo_reference := 20000 }).2 = 255 ∧
    (20000 : Nat) >>> 8 = 78 :=
  ⟨by decide, lfo_reference_bound, lfo_raw_square_sample, by decide, by decide, by decide⟩

/-! ### Control-change slot range (C38) -/

theorem midi_control_change_index_small (c : Nat) (hc : c ≤ 33) :
    midi_control_change_index c < NUMBER_OF_PARAMETERS := by
  unfold midi_control_change_index u8 MIDI_CONTROLLER_0_INDEX LFO_AMOUNT NUMBER_OF_PARAMETERS
  split_ifs <;> omega

theorem midi_control_change_index_large (c : Nat) (h1 : 34 ≤ c) (h2 : c ≤ 127) :
    midi_control_change_index c = c - 2 ∧ NUMBER_OF_PARAMETERS ≤ midi_control_change_index c := by
  unfold midi_control_change_index u8 MIDI_CONTROLLER_0_INDEX NUMBER_OF_PARAMETERS
  split_ifs <;> omega

/-- C38, evaluation of the code: the slot is the controller number less 2 with
no range check, so the controllers 34..127 address the slots 32..125 of the
32-entry arrays; controller 127 with value 100 stores External, 200 and 200 at
index 125 of `auc_parameter_source`, `auc_external_params` and
`auc_synth_params`.  For the controllers 0..33 the slot is below 32. -/
theorem control_change_slot_unchecked :
    (∀ c, c ≤ 33 → midi_control_change_index c < NUMBER_OF_PARAMETERS) ∧
    (∀ c, 34 ≤ c → c ≤ 127 →
      midi_control_change_index c = c - 2 ∧ NUMBER_OF_PARAMETERS ≤ midi_control_change_index c) ∧
    midi_control_change_index 34 = 32 ∧ midi_control_change_index 127 = 125 ∧
    NUMBER_OF_PARAMETERS = 32 ∧
    midi_boot.g.auc_parameter_source 125 = 0 ∧
    (midi_interpret_incoming_message ⟨MESSAGE_TYPE_CONTROL_CHANGE, 127, 100⟩
      midi_boot).g.auc_parameter_source 125 = SOURCE_EXTERNAL ∧
    (midi_interpret_incoming_message ⟨MESSAGE_TYPE_CONTROL_CHANGE, 127, 100⟩
      midi_boot).g.auc_external_params 125 = 200 ∧
    (midi_interpret_incoming_message ⟨MESSAGE_TYPE_CONTROL_CHANGE, 127, 100⟩
      midi_boot).g.auc_synth_params 125 = 200 :=
  ⟨midi_control_change_index_small, midi_control_change_index_large, by decide, by decide,
   by decide, by decide, by decide, by decide, by decide⟩

/-! ### Oscillator 2's glide count (C34) -/

/-- C34, evaluation of the code: with no detune both oscillators glide from
415 (note 68) to 523 (note 72), delta 108 below the 128 steps: oscillator 1
gets increment 1 for 108 ticks, oscillator 2 gets increment 1 for 1 tick (the
value of oscillator 1's increment) and snaps to 523 on the second tick.  With
oscillator 2 detuned 16 notes down and oscillator 1 going from note 84 to 88
(delta 272, increment 2), oscillator 2 has the same frequencies 415 and 523 but
now counts 2 ticks. -/
theorem glide_osc2_count_follows_osc1 :
    freq_lut 68 = 415 ∧ freq_lut 72 = 523 ∧
    (calculate_pitch (detune_glide_env 128) (settled_then 68 68 72)).uc_midi_note_number_osc2_shifted
      = 72 ∧
    (calculate_pitch (detune_glide_env 128) (settled_then 68 68 72)).sn_pitch_shift_increment_osc1
      = 1 ∧
    (calculate_pitch (detune_glide_env 128) (settled_then 68 68 72)).uc_pitch_shift_incrementer_osc1
      = 108 ∧
    (calculate_pitch (detune_glide_env 128) (settled_then 68 68 72)).sn_pitch_shift_increment_osc2
      = 1 ∧
    (calculate_pitch (detune_glide_env 128) (settled_then 68 68 72)).uc_pitch_shift_incrementer_osc2
      = 1 ∧
    (calculate_pitch_n (detune_glide_env 128) 2 (settled_then 68 68 72)).aun_note_frequency_osc1
      = 417 ∧
    (calculate_pitch_n (detune_glide_env 128) 2 (settled_then 68 68 72)).aun_note_frequency_osc2
      = 523 ∧
    (calculate_pitch (detune_glide_env 0) (settled_then 84 68 88)).uc_midi_note_number_osc2_shifted
      = 72 ∧
    (settled_then 84 68 88).aun_note_frequency_osc2 = 415 ∧
    (calculate_pitch (detune_glide_env 0) (settled_then 84 68 88)).sn_pitch_shift_increment_osc1
      = 2 ∧
    (calculate_pitch (detune_glide_env 0) (settled_then 84 68 88)).sn_pitch_shift_increment_osc2
      = 1 ∧
    (calculate_pitch (detune_glide_env 0) (settled_then 84 68 88)).uc_pitch_shift_incrementer_osc2
      = 2 := by
  decide!

/-! ### Pitch shift at reset (C36) -/

/-- C36, evaluation of the code: the reset value 127 of `PITCH_SHIFT`
compresses to 79, not to `ZERO_PITCH_BEND` = 64, so the glide path runs with a
shift of 15 notes: with note 60 held, from the 256th call on oscillator 1 is at
`AUN_FREQ_LUT[75] = 622`, not at `AUN_FREQ_LUT[60] = 262` (it is there from the
129th call already). -/
theorem boot_pitch_shift_transposes :
    pitch_shift_compress boot_pitch_env.p_PITCH_SHIFT = 79 ∧ ZERO_PITCH_BEND = 64 ∧
    pitch_glide_required boot_pitch_env 79 = true ∧
    auc_lfo_dest_decode.getD boot_pitch_env.p_LFO_DEST 0 = AMPLITUDE ∧
    freq_lut 60 = 262 ∧ freq_lut 75 = 622 ∧
    (calculate_pitch_n boot_pitch_env 129 first_note_start).aun_note_frequency_osc1 = 622 ∧
    (∀ n, 256 ≤ n →
      (calculate_pitch_n boot_pitch_env n first_note_start).auc_midi_note_index_osc1 = 60 ∧
      (calculate_pitch_n boot_pitch_env n first_note_start).aun_note_frequency_osc1 = 622) := by
  refine ⟨by decide, by decide, by decide, by decide, by decide, by decide, by decide!, ?_⟩
  intro n hn
  obtain ⟨k, rfl⟩ : ∃ k, n = k + 1 := ⟨n - 1, by omega⟩
  have h1 := glide_inv_first boot_pitch_env first_note_start (by decide) (by decide) (by decide)
    (by decide)
  have h := glide_inv_run boot_pitch_env _ _ _ _ _ (by decide) rfl
    (fun s' hs' => pitch_detune_note2_congr boot_pitch_env s' first_note_start hs') k 1 _ h1
  obtain ⟨g1, _, _, _, _, _, g7, _, g9, _⟩ := h
  have hrun : calculate_pitch_n boot_pitch_env (k + 1) first_note_start
      = calculate_pitch_n boot_pitch_env k (calculate_pitch boot_pitch_env first_note_start) := rfl
  rw [hrun]
  refine ⟨g1, ?_⟩
  rcases g9 with g | g
  · omega
  · rw [g.2]
    decide

/-! ### Division at rest (C33) -/

theorem filter_envelope_fields (x : FilterState) (a q : Int) (st t k f : Nat)
    (h : x.envelope = (a, q, st, t, k, f)) :
    x.sl_adsr_temp_adder = a ∧ x.sn_adsr_adder_increment = q ∧ x.uc_adsr_state = st ∧
    x.uc_adsr_timer = t ∧ x.uc_adsr_step_count = k ∧ x.g_uc_filter_envelope_sync_flag = f :=
  ⟨congrArg (fun b => b.1) h, congrArg (fun b => b.2.1) h, congrArg (fun b => b.2.2.1) h,
   congrArg (fun b => b.2.2.2.1) h, congrArg (fun b => b.2.2.2.2.1) h,
   congrArg (fun b => b.2.2.2.2.2) h⟩

theorem filter_rest_step (e : FilterEnv) (s : FilterState)
    (hk : e.g_uc_key_press_flag = 0) (hd : e.g_uc_drone_flag = FALSE)
    (hs : s.uc_adsr_step_count = 0) (hf : s.g_uc_filter_envelope_sync_flag = 0) :
    (filter e s).1.uc_adsr_step_count = 0 ∧ (filter e s).1.g_uc_filter_envelope_sync_flag = 0 := by
  have hE : (filter e s).1.envelope
      = (filter_envelope e (filter_sync e (filter_key e s))).envelope := by
    rw [filter_eq_sequence]
    exact filter_sequence_envelope _ _ _
  have e5 : (filter e s).1.uc_adsr_step_count
      = (filter_envelope e (filter_sync e (filter_key e s))).uc_adsr_step_count :=
    congrArg (fun b => b.2.2.2.2.1) hE
  have e6 : (filter e s).1.g_uc_filter_envelope_sync_flag
      = (filter_envelope e (filter_sync e (filter_key e s))).g_uc_filter_envelope_sync_flag :=
    congrArg (fun b => b.2.2.2.2.2) hE
  rw [e5, e6]
  have hkey : filter_key e s =
      { s with
        sn_adsr_adder_increment := s16 e.div_by_zero
        uc_adsr_state := RELEASE_STATE } := by
    unfold filter_key
    rw [if_pos hk.symm, if_pos hd]
    simp only [hs, if_true]
  have hsync : filter_sync e (filter_key e s) = filter_key e s := by
    unfold filter_sync
    rw [if_neg]
    rw [hkey]
    show ¬ 1 = s.g_uc_filter_envelope_sync_flag
    omega
  rw [hsync, hkey]
  unfold filter_envelope filter_release
  simp only [hs, hf, hd]
  split_ifs <;> simp_all [FALSE, TRUE, RELEASE_STATE, ATTACK_STATE, DECAY_STATE, SUSTAIN_STATE]

theorem filter_rest_run (e : FilterEnv)
    (hk : e.g_uc_key_press_flag = 0) (hd : e.g_uc_drone_flag = FALSE) (n : Nat) :
    ∀ s : FilterState, s.uc_adsr_step_count = 0 → s.g_uc_filter_envelope_sync_flag = 0 →
      (filter_n e n s).uc_adsr_step_count = 0 ∧
      (filter_n e n s).g_uc_filter_envelope_sync_flag = 0 := by
  induction n with
  | zero => intro s hs hf; exact ⟨hs, hf⟩
  | succ n ih =>
    intro s hs hf
    obtain ⟨h1, h2⟩ := filter_rest_step e s hk hd hs hf
    exact ih (filter e s).1 h1 h2

theorem filter_rest_divisors (e : FilterEnv) (s : FilterState)
    (hk : e.g_uc_key_press_flag = 0) (hd : e.g_uc_drone_flag = FALSE)
    (hs : s.uc_adsr_step_count = 0) (hf : s.g_uc_filter_envelope_sync_flag = 0) :
    filter_divisors e s = [0] := by
  have hflag : (filter_key e s).g_uc_filter_envelope_sync_flag = 0 := by
    unfold filter_key
    split_ifs <;> exact hf
  unfold filter_divisors
  rw [if_pos ⟨hk.symm, hd⟩, hflag, hs]
  simp

theorem filter_held_divisors (e : FilterEnv) (s : FilterState)
    (hk : e.g_uc_key_press_flag ≠ 0) : ∀ x ∈ filter_divisors e s, 0 < x := by
  intro x hx
  unfold filter_divisors at hx
  rw [if_neg (fun h => hk h.1.symm)] at hx
  simp only [List.nil_append] at hx
  split_ifs at hx with h1 h2
  · rw [List.mem_singleton] at hx
    rw [hx]
    exact h2
  · exact absurd hx (List.not_mem_nil _)
  · exact absurd hx (List.not_mem_nil _)

/-- C33, evaluation of the code: with the key released and the drone flag off,
every call of `filter()` evaluates `sl_adsr_temp_adder / uc_adsr_step_count`
(line 89) before anything else.  From reset the step count is 0 on the first
call and on every later one, so each call divides by zero, and the increment
becomes whatever the division delivers.  The division on sync (line 129) is
guarded and its divisor is positive; with the key held it is the only one. -/
theorem filter_divides_by_zero_at_rest :
    (∀ (d : Int) (n : Nat),
      filter_divisors (released_env d) (filter_n (released_env d) n filter_boot) = [0]) ∧
    (∀ d : Int, (filter (released_env d) filter_boot).1.sn_adsr_adder_increment = s16 d) ∧
    (∀ (e : FilterEnv) (s : FilterState), e.g_uc_key_press_flag ≠ 0 →
      ∀ x ∈ filter_divisors e s, 0 < x) := by
  refine ⟨?_, ?_, filter_held_divisors⟩
  · intro d n
    obtain ⟨h1, h2⟩ := filter_rest_run (released_env d) rfl rfl n filter_boot rfl rfl
    exact filter_rest_divisors _ _ rfl rfl h1 h2
  · intro d
    rfl

/-! ### Step count past the maximum (C35) -/

theorem slow_attack_call (x : FilterState) (t k : Nat)
    (h : x.envelope = (0, 0, ATTACK_STATE, t, k, 0)) :
    (0 < t → (filter slow_attack_env x).1.envelope = (0, 0, ATTACK_STATE, t - 1, k, 0)) ∧
    (t = 0 → k < 128 →
      (filter slow_attack_env x).1.envelope = (0, 0, ATTACK_STATE, 127, k + 1, 0)) ∧
    (t = 0 → k = 128 →
      (filter slow_attack_env x).1.envelope = (0, 0, DECAY_STATE, 127, 129, 0)) := by
  obtain ⟨ha, hq, hst, ht, hk, hf⟩ := filter_envelope_fields x _ _ _ _ _ _ h
  have hc := filter_held_envelope slow_attack_env x (by decide) (by rw [hf]; decide)
  rw [hc]
  refine ⟨fun h0 => ?_, fun h0 hlt => ?_, fun h0 heq => ?_⟩
  · unfold filter_envelope
    rw [if_pos (by omega)]
    unfold FilterState.envelope
    simp only [ha, hq, hst, ht, hk, hf]
  · have hk8 : (k + 1) % 256 = k + 1 := by omega
    have hne : ¬ k = 128 := by omega
    have h253 : k < 253 := by omega
    unfold filter_envelope
    rw [if_neg (by omega), if_pos hst]
    unfold filter_attack FilterState.envelope
    simp [ha, hq, hst, hk, hf, slow_attack_env, MAX_FILTER_ADSR_STEP, adder_add, u8, hk8,
      hne, h253, ATTACK_STATE, s16, s32, toS16, ofS16]
  · subst heq
    unfold filter_envelope
    rw [if_neg (by omega), if_pos hst]
    unfold filter_attack FilterState.envelope
    simp [ha, hq, hst, hk, hf, slow_attack_env, MAX_FILTER_ADSR_STEP, adder_add, u8,
      ATTACK_STATE, DECAY_STATE, s16, s32, toS16, ofS16]

theorem slow_attack_wait (t : Nat) :
    ∀ (x : FilterState) (k : Nat), x.envelope = (0, 0, ATTACK_STATE, t, k, 0) →
      (filter_n slow_attack_env t x).envelope = (0, 0, ATTACK_STATE, 0, k, 0) := by
  induction t with
  | zero => intro x k h; exact h
  | succ t ih =>
    intro x k h
    exact ih _ k ((slow_attack_call x (t + 1) k h).1 (by omega))

theorem slow_attack_climb (k : Nat) (hk : k ≤ 128) :
    ∀ x : FilterState, x.envelope = (0, 0, ATTACK_STATE, 0, 0, 0) →
      (filter_n slow_attack_env (128 * k) x).envelope = (0, 0, ATTACK_STATE, 0, k, 0) := by
  induction k with
  | zero => intro x h; exact h
  | succ k ih =>
    intro x h
    have h1 := ih (by omega) x h
    have e1 : 128 * (k + 1) = 128 * k + (1 + 127) := by omega
    rw [e1, filter_n_add, filter_n_add]
    apply slow_attack_wait
    exact (slow_attack_call _ 0 k h1).2.1 rfl (by omega)

theorem filter_n_one (e : FilterEnv) (y : FilterState) : filter_n e 1 y = (filter e y).1 := rfl

theorem slow_attack_total (s0 : FilterState)
    (h0 : (filter_n slow_attack_env 1 s0).envelope = (0, 0, ATTACK_STATE, 62, 0, 0)) :
    (filter_n slow_attack_env 16447 s0).envelope = (0, 0, ATTACK_STATE, 0, 128, 0) ∧
    (filter_n slow_attack_env 16448 s0).envelope = (0, 0, DECAY_STATE, 127, 129, 0) := by
  have h1 := slow_attack_wait 62 _ 0 h0
  have h2 := slow_attack_climb 128 (le_refl _) _ h1
  rw [← filter_n_add, ← filter_n_add] at h2
  have e2 : 1 + 62 + 128 * 128 = 16447 := by norm_num
  rw [e2] at h2
  have h3 := (slow_attack_call _ 0 128 h2).2.2 rfl rfl
  rw [← filter_n_one, ← filter_n_add] at h3
  have e3 : 16447 + 1 = 16448 := by norm_num
  rw [e3] at h3
  exact ⟨h2, h3⟩

/-- C35, evaluation of the code: a note-on from reset with the attack knob at
255 (envelope amount 128, everything else 0, key held).  The last Attack range
(lines 226-239) steps while the count is below 253, not below 128: the call on
which the timer expires at step count 128 selects Decay and then increments the
count once more.  After call 16448 the step count is 129, above
`MAX_FILTER_ADSR_STEP` = 128. -/
theorem filter_step_count_passes_max :
    MAX_FILTER_ADSR_STEP = 128 ∧
    (filter_n slow_attack_env 16447
      { filter_boot with g_uc_filter_envelope_sync_flag := 1 }).uc_adsr_step_count = 128 ∧
    (filter_n slow_attack_env 16448
      { filter_boot with g_uc_filter_envelope_sync_flag := 1 }).uc_adsr_step_count = 129 ∧
    (filter_n slow_attack_env 16448
      { filter_boot with g_uc_filter_envelope_sync_flag := 1 }).uc_adsr_state = DECAY_STATE := by
  have h0 : (filter_n slow_attack_env 1
      { filter_boot with g_uc_filter_envelope_sync_flag := 1 }).envelope
      = (0, 0, ATTACK_STATE, 62, 0, 0) := by decide
  obtain ⟨h2, h3⟩ := slow_attack_total _ h0
  exact ⟨rfl, (filter_envelope_fields _ _ _ _ _ _ _ h2).2.2.2.2.1,
    (filter_envelope_fields _ _ _ _ _ _ _ h3).2.2.2.2.1,
    (filter_envelope_fields _ _ _ _ _ _ _ h3).2.2.1⟩

/-! ### Active-note table (C31, C37) -/

theorem array_set2_note (a : Nat → Nat → Nat) (i v k : Nat) :
    array_set2 a i MIDI_NOTE_NUMBER v k MIDI_NOTE_NUMBER
      = if k = i then v else a k MIDI_NOTE_NUMBER := by
  unfold array_set2
  by_cases h : k = i <;> simp [h]

theorem array_set2_velocity_note (a : Nat → Nat → Nat) (i v k : Nat) :
    array_set2 a i MIDI_NOTE_VELOCITY v k MIDI_NOTE_NUMBER = a k MIDI_NOTE_NUMBER := by
  unfold array_set2
  have h : ¬ MIDI_NOTE_NUMBER = MIDI_NOTE_VELOCITY := by decide
  simp [h]

/-- The note column after the reorder loop: the entries from the start index
up to `n` hold their upper neighbour's note. -/
theorem midi_reorder_note (n : Nat) (hn : n ≤ 255) (fuel : Nat) :
    ∀ (p : Nat) (a : Nat → Nat → Nat) (i : Nat), n ≤ p + fuel →
      midi_reorder n fuel p a i MIDI_NOTE_NUMBER
        = if p ≤ i ∧ i < n then a (i + 1) MIDI_NOTE_NUMBER else a i MIDI_NOTE_NUMBER := by
  induction fuel with
  | zero =>
    intro p a i h
    rw [midi_reorder, if_neg (by omega)]
  | succ fuel ih =>
    intro p a i h
    rw [midi_reorder]
    by_cases hp : p < n
    · rw [if_pos hp]
      have hu : u8 (p + 1) = p + 1 := by unfold u8; omega
      rw [hu, ih (p + 1) _ i (by omega)]
      simp only [array_set2_velocity_note, array_set2_note]
      split_ifs <;> first
        | rfl
        | omega
        | (have hip : i = p := by omega
           rw [hip])
    · rw [if_neg hp, if_neg (by omega)]

theorem midi_remove_step_miss (n : Nat) (s : MidiState) (i : Nat)
    (h : s.auc_midi_active_notes i MIDI_NOTE_NUMBER ≠ n) : midi_remove_step n s i = s := by
  unfold midi_remove_step
  rw [if_neg h]

theorem midi_remove_fold_miss (n : Nat) (l : List Nat) :
    ∀ s : MidiState, (∀ i ∈ l, s.auc_midi_active_notes i MIDI_NOTE_NUMBER ≠ n) →
      l.foldl (midi_remove_step n) s = s := by
  induction l with
  | nil => intro s _; rfl
  | cons i l ih =>
    intro s h
    rw [List.foldl_cons, midi_remove_step_miss n s i (h i (List.mem_cons_self _ _))]
    exact ih s (fun j hj => h j (List.mem_cons_of_mem _ hj))

/-- A note number that stands in none of the searched entries leaves all
variables as they are. -/
theorem midi_remove_absent (n : Nat) (s : MidiState)
    (h : ∀ i, i < 11 → s.auc_midi_active_notes i MIDI_NOTE_NUMBER ≠ n) :
    midi_remove_active_note n s = s := by
  unfold midi_remove_active_note
  apply midi_remove_fold_miss
  intro i hi
  rw [List.mem_range] at hi
  exact h i hi

theorem midi_remove_step_frame (n : Nat) (s : MidiState) (i : Nat) :
    (midi_remove_step n s i).g = s.g ∧
    (midi_remove_step n s i).g_uc_key_press_flag = s.g_uc_key_press_flag := by
  unfold midi_remove_step
  simp only []
  split_ifs <;> exact ⟨rfl, rfl⟩

theorem midi_remove_frame (n : Nat) (s : MidiState) :
    (midi_remove_active_note n s).g = s.g ∧
    (midi_remove_active_note n s).g_uc_key_press_flag = s.g_uc_key_press_flag := by
  unfold midi_remove_active_note
  generalize List.range (LENGTH_OF_ACTIVE_NOTE_ARRAY - 1) = l
  induction l generalizing s with
  | nil => exact ⟨rfl, rfl⟩
  | cons i l ih =>
    rw [List.foldl_cons]
    obtain ⟨h1, h2⟩ := ih (midi_remove_step n s i)
    obtain ⟨f1, f2⟩ := midi_remove_step_frame n s i
    exact ⟨h1.trans f1, h2.trans f2⟩

/-- The pass of the search loop that finds the note at place `p`. -/
theorem midi_remove_step_hit (n p : Nat) (s : MidiState) (L : List Nat)
    (hT : TableHolds s L) (hp : L[p]? = some n) :
    TableHolds (midi_remove_step n s p) (L.eraseIdx p) := by
  obtain ⟨hc, hlen, hin, hdead⟩ := hT
  have hpl : p < L.length := by
    by_contra hcon
    rw [List.getElem?_eq_none (by omega)] at hp
    exact Option.noConfusion hp
  have hmatch : s.auc_midi_active_notes p MIDI_NOTE_NUMBER = n := hin p n hp
  have hu : u8 (s.uc_midi_number_active_notes + 255) = L.length - 1 := by
    unfold u8; rw [hc]; omega
  have hlen' : (L.eraseIdx p).length = L.length - 1 := List.length_eraseIdx_of_lt hpl
  have hcol : ∀ k, (midi_remove_step n s p).auc_midi_active_notes k MIDI_NOTE_NUMBER
      = if k = L.length - 1 then 255
        else if p ≤ k ∧ k < L.length - 1 then s.auc_midi_active_notes (k + 1) MIDI_NOTE_NUMBER
        else if k = p then 255 else s.auc_midi_active_notes k MIDI_NOTE_NUMBER := by
    intro k
    unfold midi_remove_step
    rw [if_pos hmatch]
    simp only [hu, array_set2_velocity_note, array_set2_note]
    by_cases hk : k = L.length - 1
    · rw [if_pos hk, if_pos hk]
    · rw [if_neg hk, if_neg hk]
      by_cases hpn : p = L.length - 1
      · rw [if_neg (by omega), if_neg (by omega)]
        simp only [array_set2_velocity_note, array_set2_note]
      · rw [if_pos hpn, midi_reorder_note _ (by omega) 256 p _ k (by omega)]
        simp only [array_set2_velocity_note, array_set2_note]
        by_cases hr : p ≤ k ∧ k < L.length - 1
        · rw [if_pos hr, if_pos hr, if_neg (by omega)]
        · rw [if_neg hr, if_neg hr]
  have hcount : (midi_remove_step n s p).uc_midi_number_active_notes = L.length - 1 := by
    unfold midi_remove_step
    rw [if_pos hmatch]
    exact hu
  refine ⟨by rw [hcount, hlen'], by omega, ?_, ?_⟩
  · intro i x hx
    have hil : i < L.length - 1 := by
      by_contra hcon
      rw [List.getElem?_eq_none (by omega)] at hx
      exact Option.noConfusion hx
    rw [List.getElem?_eraseIdx] at hx
    rw [hcol i, if_neg (by omega)]
    by_cases hip : i < p
    · rw [if_pos hip] at hx
      rw [if_neg (by omega), if_neg (by omega)]
      exact hin i x hx
    · rw [if_neg hip] at hx
      rw [if_pos ⟨by omega, hil⟩]
      exact hin (i + 1) x hx
  · intro i h1 h2
    rw [hlen'] at h1
    rw [hcol i]
    by_cases hk : i = L.length - 1
    · rw [if_pos hk]
      exact Or.inr rfl
    · rw [if_neg hk, if_neg (by omega), if_neg (by omega)]
      exact hdead i (by omega) h2

theorem range_eleven_split (p : Nat) (h : p ≤ 10) :
    List.range (LENGTH_OF_ACTIVE_NOTE_ARRAY - 1)
      = List.range' 0 p ++ p :: List.range' (p + 1) (10 - p) := by
  interval_cases p <;> rfl

theorem table_entry_ne (L : List Nat) (hnd : L.Nodup) (n p i x : Nat)
    (hp : L[p]? = some n) (hi : L[i]? = some x) (hne : i ≠ p) : x ≠ n := by
  intro hx
  have hil : i < L.length := by
    by_contra hcon
    rw [List.getElem?_eq_none (by omega)] at hi
    exact Option.noConfusion hi
  rw [hx, ← hp] at hi
  exact hne (List.getElem?_inj hil hnd hi)

theorem table_some (L : List Nat) (i : Nat) (h : i < L.length) : ∃ y, L[i]? = some y :=
  ⟨L[i], List.getElem?_eq_getElem h⟩

/-- A note-off for a note held at one of the first eleven places takes it out
of the table. -/
theorem midi_remove_present (n p : Nat) (s : MidiState) (L : List Nat)
    (hT : TableHolds s L) (hnd : L.Nodup) (hn : 1 ≤ n ∧ n ≤ 127)
    (hp : L[p]? = some n) (hp10 : p ≤ 10) :
    TableHolds (midi_remove_active_note n s) (L.eraseIdx p) := by
  have hpl : p < L.length := by
    by_contra hcon
    rw [List.getElem?_eq_none (by omega)] at hp
    exact Option.noConfusion hp
  have h1 := midi_remove_step_hit n p s L hT hp
  unfold midi_remove_active_note
  rw [range_eleven_split p hp10, List.foldl_append, List.foldl_cons]
  rw [midi_remove_fold_miss n (List.range' 0 p) s]
  · rw [midi_remove_fold_miss n _ (midi_remove_step n s p)]
    · exact h1
    · intro i hi
      rw [List.mem_range'_1] at hi
      obtain ⟨_, hlen, hin, hdead⟩ := h1
      have hlen' : (L.eraseIdx p).length = L.length - 1 := List.length_eraseIdx_of_lt hpl
      by_cases hil : i < (L.eraseIdx p).length
      · obtain ⟨y, hy⟩ := table_some _ i hil
        rw [hin i y hy]
        rw [List.getElem?_eraseIdx, if_neg (by omega)] at hy
        exact table_entry_ne L hnd n p (i + 1) y hp hy (by omega)
      · rcases hdead i (by omega) (by omega) with h0 | h0 <;> rw [h0] <;> omega
  · intro i hi
    rw [List.mem_range'_1] at hi
    obtain ⟨y, hy⟩ := table_some L i (by omega)
    rw [hT.2.2.1 i y hy]
    exact table_entry_ne L hnd n p i y hp hy (by omega)

/-- A note-off for a note that stands in none of the first eleven places of
the held notes leaves all variables as they are. -/
theorem midi_remove_unheld (n : Nat) (s : MidiState) (L : List Nat)
    (hT : TableHolds s L) (hn : 1 ≤ n ∧ n ≤ 127) (hout : n ∉ L.take 11) :
    midi_remove_active_note n s = s := by
  apply midi_remove_absent
  intro i hi
  by_cases hil : i < L.length
  · obtain ⟨y, hy⟩ := table_some L i hil
    rw [hT.2.2.1 i y hy]
    intro hyn
    apply hout
    rw [← hyn]
    have : (L.take 11)[i]? = some y := by rw [List.getElem?_take_of_lt hi]; exact hy
    exact List.getElem?_mem this
  · rcases hT.2.2.2 i (by omega) (by omega) with h0 | h0 <;> rw [h0] <;> omega

theorem held_after_off_holds (n : Nat) (s : MidiState) (L : List Nat)
    (hT : TableHolds s L) (hnd : L.Nodup) (hn : 1 ≤ n ∧ n ≤ 127) :
    TableHolds (midi_remove_active_note n s) (held_after_off L n) := by
  unfold held_after_off
  by_cases hin : n ∈ L.take 11
  · rw [if_pos hin]
    obtain ⟨p, hp⟩ := List.mem_iff_getElem?.1 hin
    have hp11 : p < 11 := by
      by_contra hcon
      rw [List.getElem?_take] at hp
      rw [if_neg hcon] at hp
      exact Option.noConfusion hp
    rw [List.getElem?_take_of_lt hp11] at hp
    have hpl : p < L.length := by
      by_contra hcon
      rw [List.getElem?_eq_none (by omega)] at hp
      exact Option.noConfusion hp
    have hidx : List.indexOf n L = p := by
      have h1 : L[p] = n := by
        have := List.getElem?_eq_getElem hpl
        rw [hp] at this
        exact (Option.some.inj this).symm
      rw [← h1]
      exact List.indexOf_getElem hnd p hpl
    rw [← List.eraseIdx_indexOf_eq_erase, hidx]
    exact midi_remove_present n p s L hT hnd hn hp (by omega)
  · rw [if_neg hin, midi_remove_unheld n s L hT hn hin]
    exact hT

theorem midi_add_holds (n v : Nat) (s : MidiState) (L : List Nat)
    (hT : TableHolds s L) (hlen : L.length < 12) :
    TableHolds (midi_add_active_note n v s) (L ++ [n]) := by
  obtain ⟨hc, _, hin, hdead⟩ := hT
  have hne : s.uc_midi_number_active_notes ≠ LENGTH_OF_ACTIVE_NOTE_ARRAY := by
    rw [hc]; unfold LENGTH_OF_ACTIVE_NOTE_ARRAY; omega
  have hu : u8 (s.uc_midi_number_active_notes + 1) = L.length + 1 := by
    unfold u8; rw [hc]; omega
  unfold midi_add_active_note
  rw [if_pos hne]
  refine ⟨?_, ?_, ?_, ?_⟩
  · show u8 (s.uc_midi_number_active_notes + 1) = (L ++ [n]).length
    rw [hu, List.length_append, List.length_singleton]
  · rw [List.length_append, List.length_singleton]; omega
  · intro i x hx
    show array_set2 (array_set2 s.auc_midi_active_notes s.uc_midi_number_active_notes
      MIDI_NOTE_NUMBER n) s.uc_midi_number_active_notes MIDI_NOTE_VELOCITY v i MIDI_NOTE_NUMBER = x
    rw [array_set2_velocity_note, array_set2_note, hc]
    by_cases hil : i < L.length
    · rw [if_neg (by omega)]
      rw [List.getElem?_append_left hil] at hx
      exact hin i x hx
    · have hi : i = L.length := by
        by_contra hcon
        rw [List.getElem?_eq_none (by rw [List.length_append, List.length_singleton]; omega)] at hx
        exact Option.noConfusion hx
      rw [if_pos hi]
      rw [hi, List.getElem?_append_right (le_refl _), Nat.sub_self] at hx
      exact Option.some.inj hx
  · intro i h1 h2
    rw [List.length_append, List.length_singleton] at h1
    show array_set2 (array_set2 s.auc_midi_active_notes s.uc_midi_number_active_notes
      MIDI_NOTE_NUMBER n) s.uc_midi_number_active_notes MIDI_NOTE_VELOCITY v i MIDI_NOTE_NUMBER = 0
      ∨ array_set2 (array_set2 s.auc_midi_active_notes s.uc_midi_number_active_notes
      MIDI_NOTE_NUMBER n) s.uc_midi_number_active_notes MIDI_NOTE_VELOCITY v i MIDI_NOTE_NUMBER
        = 255
    rw [array_set2_velocity_note, array_set2_note, hc, if_neg (by omega)]
    exact hdead i (by omega) h2

theorem midi_add_frame (n v : Nat) (s : MidiState) :
    (midi_add_active_note n v s).g = s.g ∧
    (midi_add_active_note n v s).g_uc_key_press_flag = s.g_uc_key_press_flag := by
  unfold midi_add_active_note
  split_ifs <;> exact ⟨rfl, rfl⟩

theorem table_holds_congr (s s' : MidiState) (L : List Nat)
    (ht : s'.auc_midi_active_notes = s.auc_midi_active_notes)
    (hc : s'.uc_midi_number_active_notes = s.uc_midi_number_active_notes)
    (h : TableHolds s L) : TableHolds s' L := by
  unfold TableHolds at *
  rw [ht, hc]
  exact h

theorem midi_run_cons (m : MIDI_MESSAGE) (ms : List MIDI_MESSAGE) (s : MidiState) :
    midi_run (m :: ms) s = midi_run ms (midi_interpret_incoming_message m s) := rfl

theorem note_ons_cons (n : Nat) (ns : List Nat) :
    note_ons (n :: ns) = ⟨MESSAGE_TYPE_NOTE_ON, n, 64⟩ :: note_ons ns := rfl

theorem note_offs_cons (n : Nat) (ns : List Nat) :
    note_offs (n :: ns) = ⟨MESSAGE_TYPE_NOTE_OFF, n, 0⟩ :: note_offs ns := rfl

theorem note_on_holds (n v : Nat) (s : MidiState) (L : List Nat)
    (hT : TableHolds s L) (hlen : L.length < 12)
    (harp : s.g.auc_synth_params ARPEGGIATOR_MODE = 0) :
    TableHolds (midi_interpret_incoming_message ⟨MESSAGE_TYPE_NOTE_ON, n, v⟩ s) (L ++ [n]) ∧
    (midi_interpret_incoming_message ⟨MESSAGE_TYPE_NOTE_ON, n, v⟩ s).g = s.g ∧
    (midi_interpret_incoming_message ⟨MESSAGE_TYPE_NOTE_ON, n, v⟩ s).g_uc_key_press_flag = 1 := by
  have hT' : TableHolds
      (midi_add_active_note n v
        { s with
          g_uc_lfo_midi_sync_flag := 1
          g_uc_adsr_midi_sync_flag := 1
          g_uc_filter_envelope_sync_flag := 1
          g_uc_oscillator_midi_sync_flag := 1 }) (L ++ [n]) :=
    midi_add_holds n v _ L hT hlen
  have hg := (midi_add_frame n v
        { s with
          g_uc_lfo_midi_sync_flag := 1
          g_uc_adsr_midi_sync_flag := 1
          g_uc_filter_envelope_sync_flag := 1
          g_uc_oscillator_midi_sync_flag := 1 }).1
  have harp' : (midi_add_active_note n v
        { s with
          g_uc_lfo_midi_sync_flag := 1
          g_uc_adsr_midi_sync_flag := 1
          g_uc_filter_envelope_sync_flag := 1
          g_uc_oscillator_midi_sync_flag := 1 }).g.auc_synth_params ARPEGGIATOR_MODE = 0 := by
    rw [hg]; exact harp
  unfold midi_interpret_incoming_message
  simp only [if_true]
  rw [if_pos harp']
  exact ⟨hT', hg, rfl⟩

theorem midi_run_nil (s : MidiState) : midi_run [] s = s := rfl

theorem note_offs_nil : note_offs [] = [] := rfl

theorem midi_interpret_note_off (n v : Nat) (s : MidiState) :
    midi_interpret_incoming_message ⟨MESSAGE_TYPE_NOTE_OFF, n, v⟩ s
      = if (midi_remove_active_note n s).uc_midi_number_active_notes = 0 then
          { midi_remove_active_note n s with g_uc_key_press_flag := 0 }
        else midi_remove_active_note n s := by
  have hne : ¬ MESSAGE_TYPE_NOTE_OFF = MESSAGE_TYPE_NOTE_ON := by decide
  unfold midi_interpret_incoming_message
  simp only [hne, if_false, if_true]

theorem note_off_holds (n v : Nat) (s : MidiState) (L : List Nat)
    (hT : TableHolds s L) (hnd : L.Nodup) (hn : 1 ≤ n ∧ n ≤ 127) :
    TableHolds (midi_interpret_incoming_message ⟨MESSAGE_TYPE_NOTE_OFF, n, v⟩ s)
      (off_effect (L, s.g_uc_key_press_flag) n).1 ∧
    (midi_interpret_incoming_message ⟨MESSAGE_TYPE_NOTE_OFF, n, v⟩ s).g = s.g ∧
    (midi_interpret_incoming_message ⟨MESSAGE_TYPE_NOTE_OFF, n, v⟩ s).g_uc_key_press_flag
      = (off_effect (L, s.g_uc_key_press_flag) n).2 := by
  have h1 := held_after_off_holds n s L hT hnd hn
  obtain ⟨f1, f2⟩ := midi_remove_frame n s
  rw [midi_interpret_note_off]
  generalize midi_remove_active_note n s = s1 at h1 f1 f2
  have hc : s1.uc_midi_number_active_notes = (held_after_off L n).length := h1.1
  unfold off_effect
  simp only []
  by_cases h0 : s1.uc_midi_number_active_notes = 0
  · rw [if_pos h0, if_pos (by rw [← hc]; exact h0)]
    exact ⟨table_holds_congr s1 _ _ rfl rfl h1, f1, rfl⟩
  · rw [if_neg h0, if_neg (by rw [← hc]; exact h0)]
    exact ⟨h1, f1, f2⟩

theorem midi_run_append (a b : List MIDI_MESSAGE) (s : MidiState) :
    midi_run (a ++ b) s = midi_run b (midi_run a s) := by
  unfold midi_run
  rw [List.foldl_append]

theorem note_ons_run (ns : List Nat) :
    ∀ (s : MidiState) (L : List Nat), TableHolds s L → L.length + ns.length ≤ 12 →
      s.g.auc_synth_params ARPEGGIATOR_MODE = 0 →
      TableHolds (midi_run (note_ons ns) s) (L ++ ns) ∧
      (midi_run (note_ons ns) s).g = s.g ∧
      (ns ≠ [] → (midi_run (note_ons ns) s).g_uc_key_press_flag = 1) := by
  induction ns with
  | nil =>
    intro s L hT _ _
    rw [List.append_nil]
    exact ⟨hT, rfl, fun h => absurd rfl h⟩
  | cons n ns ih =>
    intro s L hT hlen harp
    rw [List.length_cons] at hlen
    obtain ⟨h1, h2, h3⟩ := note_on_holds n 64 s L hT (by omega) harp
    obtain ⟨k1, k2, k3⟩ := ih (midi_interpret_incoming_message ⟨MESSAGE_TYPE_NOTE_ON, n, 64⟩ s)
      (L ++ [n]) h1 (by rw [List.length_append, List.length_singleton]; omega)
      (by rw [h2]; exact harp)
    rw [note_ons_cons, midi_run_cons]
    refine ⟨?_, k2.trans h2, fun _ => ?_⟩
    · have : L ++ n :: ns = L ++ [n] ++ ns := by simp
      rw [this]
      exact k1
    · by_cases hns : ns = []
      · subst hns
        exact h3
      · exact k3 hns

theorem held_after_off_nodup (L : List Nat) (n : Nat) (hnd : L.Nodup) :
    (held_after_off L n).Nodup := by
  unfold held_after_off
  split_ifs
  · exact hnd.erase n
  · exact hnd

theorem note_offs_run (ps : List Nat) :
    ∀ (s : MidiState) (L : List Nat), TableHolds s L → L.Nodup →
      (∀ p ∈ ps, 1 ≤ p ∧ p ≤ 127) →
      TableHolds (midi_run (note_offs ps) s) (ps.foldl off_effect (L, s.g_uc_key_press_flag)).1 ∧
      (midi_run (note_offs ps) s).g_uc_key_press_flag
        = (ps.foldl off_effect (L, s.g_uc_key_press_flag)).2 := by
  induction ps with
  | nil =>
    intro s L hT _ _
    exact ⟨hT, rfl⟩
  | cons p ps ih =>
    intro s L hT hnd hr
    obtain ⟨h1, _, h3⟩ := note_off_holds p 0 s L hT hnd (hr p (List.mem_cons_self _ _))
    rw [note_offs_cons, midi_run_cons, List.foldl_cons]
    have hk := ih (midi_interpret_incoming_message ⟨MESSAGE_TYPE_NOTE_OFF, p, 0⟩ s)
      (off_effect (L, s.g_uc_key_press_flag) p).1 h1 (held_after_off_nodup L p hnd)
      (fun q hq => hr q (List.mem_cons_of_mem _ hq))
    rw [h3] at hk
    exact hk

/-- With at most eleven notes held, note-offs for all of them in any order
empty the list and clear the flag. -/
theorem off_effect_all (ps : List Nat) :
    ∀ (L : List Nat) (k : Nat), L.length ≤ 11 → L.Nodup → List.Perm ps L → ps ≠ [] →
      ps.foldl off_effect (L, k) = ([], 0) := by
  induction ps with
  | nil => intro L k _ _ _ h; exact absurd rfl h
  | cons p ps ih =>
    intro L k hlen hnd hperm _
    obtain ⟨hmem, hrest⟩ := List.cons_perm_iff_perm_erase.1 hperm
    have htake : L.take 11 = L := List.take_of_length_le hlen
    have hoff : held_after_off L p = L.erase p := by
      unfold held_after_off
      rw [htake, if_pos hmem]
    rw [List.foldl_cons]
    unfold off_effect
    simp only [hoff]
    by_cases hps : ps = []
    · subst hps
      have hnil : L.erase p = [] := List.perm_nil.1 hrest.symm
      rw [hnil]
      rfl
    · have hl : (L.erase p).length ≤ 11 := by
        rw [List.length_erase_of_mem hmem]; omega
      exact ih (L.erase p) _ hl (hnd.erase p) hrest hps

theorem table_holds_boot : TableHolds midi_boot [] :=
  ⟨rfl, by decide, fun i x h => by simp at h, fun i _ _ => Or.inl rfl⟩

theorem eleven_notes_released (s0 : MidiState) (h0 : TableHolds s0 [])
    (harp : s0.g.auc_synth_params ARPEGGIATOR_MODE = 0) (ns ps : List Nat) (hnd : ns.Nodup)
    (hr : ∀ n ∈ ns, 1 ≤ n ∧ n ≤ 127) (h1 : 1 ≤ ns.length) (h11 : ns.length ≤ 11)
    (hperm : List.Perm ps ns) :
    (midi_run (note_ons ns ++ note_offs ps) s0).uc_midi_number_active_notes = 0 ∧
    (midi_run (note_ons ns ++ note_offs ps) s0).g_uc_key_press_flag = 0 := by
  obtain ⟨a1, _, a3⟩ := note_ons_run ns s0 [] h0 (by simp; omega) harp
  rw [List.nil_append] at a1
  have hne : ns ≠ [] := by
    intro h; rw [h] at h1; exact absurd h1 (by decide)
  have hpne : ps ≠ [] := by
    intro h; rw [h] at hperm; exact hne (List.perm_nil.1 hperm.symm)
  obtain ⟨b1, b2⟩ := note_offs_run ps _ _ a1 hnd (fun p hp => hr p (hperm.mem_iff.1 hp))
  rw [off_effect_all ps ns _ h11 hnd hperm hpne] at b1 b2
  rw [midi_run_append]
  exact ⟨b1.1, b2⟩

theorem twelfth_note_stuck (s0 : MidiState) (h0 : TableHolds s0 [])
    (harp : s0.g.auc_synth_params ARPEGGIATOR_MODE = 0) :
    (midi_run (note_ons [1, 2, 3, 4, 5, 6, 7, 8, 9, 10, 11, 12]) s0).uc_midi_number_active_notes
      = 12 ∧
    midi_run (note_ons [1, 2, 3, 4, 5, 6, 7, 8, 9, 10, 11, 12] ++ note_offs [12]) s0
      = midi_run (note_ons [1, 2, 3, 4, 5, 6, 7, 8, 9, 10, 11, 12]) s0 ∧
    (midi_run (note_ons [1, 2, 3, 4, 5, 6, 7, 8, 9, 10, 11, 12]
        ++ note_offs [12, 1, 2, 3, 4, 5, 6, 7, 8, 9, 10, 11]) s0).uc_midi_number_active_notes
      = 1 ∧
    (midi_run (note_ons [1, 2, 3, 4, 5, 6, 7, 8, 9, 10, 11, 12]
        ++ note_offs [12, 1, 2, 3, 4, 5, 6, 7, 8, 9, 10, 11]) s0).auc_midi_active_notes 0
      MIDI_NOTE_NUMBER = 12 ∧
    (midi_run (note_ons [1, 2, 3, 4, 5, 6, 7, 8, 9, 10, 11, 12]
        ++ note_offs [12, 1, 2, 3, 4, 5, 6, 7, 8, 9, 10, 11]) s0).g_uc_key_press_flag
      = 1 := by
  have hon := note_ons_run [1, 2, 3, 4, 5, 6, 7, 8, 9, 10, 11, 12] s0 [] h0 (by decide) harp
  rw [List.nil_append] at hon
  obtain ⟨t1, _, t3⟩ := hon
  have hkey := t3 (by decide)
  rw [midi_run_append, midi_run_append]
  generalize midi_run (note_ons [1, 2, 3, 4, 5, 6, 7, 8, 9, 10, 11, 12]) s0 = x at t1 hkey
  have hoff := note_offs_run [12, 1, 2, 3, 4, 5, 6, 7, 8, 9, 10, 11] x _ t1 (by decide)
    (by decide)
  rw [hkey] at hoff
  have hfold : List.foldl off_effect ([1, 2, 3, 4, 5, 6, 7, 8, 9, 10, 11, 12], 1)
      [12, 1, 2, 3, 4, 5, 6, 7, 8, 9, 10, 11] = ([12], 1) := by decide
  rw [hfold] at hoff
  obtain ⟨o1, o2⟩ := hoff
  generalize midi_run (note_offs [12, 1, 2, 3, 4, 5, 6, 7, 8, 9, 10, 11]) x = y at o1 o2
  refine ⟨t1.1, ?_, o1.1, o1.2.2.1 0 12 rfl, o2⟩
  rw [note_offs_cons, midi_run_cons, note_offs_nil, midi_run_nil, midi_interpret_note_off,
    midi_remove_unheld 12 x _ t1 (by decide) (by decide), if_neg]
  rw [t1.1]
  decide

/-- C37, evaluation of the code: the search loop of `midi_remove_active_note()`
covers the places 0..10 of the twelve-entry table.  With at most eleven
distinct notes in 1..127 held, note-offs in any order bring the count to 0 and
clear the key-press flag.  With twelve notes 1..12 held, the note-off for note
12 (place 11) changes nothing; after the note-offs for the other eleven the
count is 1, note 12 stands at place 0 and the key-press flag is still 1. -/
theorem note_off_misses_twelfth_place :
    (∀ ns ps : List Nat, ns.Nodup → (∀ n ∈ ns, 1 ≤ n ∧ n ≤ 127) → 1 ≤ ns.length →
      ns.length ≤ 11 → List.Perm ps ns →
      (midi_run (note_ons ns ++ note_offs ps) midi_boot).uc_midi_number_active_notes = 0 ∧
      (midi_run (note_ons ns ++ note_offs ps) midi_boot).g_uc_key_press_flag = 0) ∧
    (midi_run (note_ons [1, 2, 3, 4, 5, 6, 7, 8, 9, 10, 11, 12]) midi_boot).uc_midi_number_active_notes
      = 12 ∧
    midi_run (note_ons [1, 2, 3, 4, 5, 6, 7, 8, 9, 10, 11, 12] ++ note_offs [12]) midi_boot
      = midi_run (note_ons [1, 2, 3, 4, 5, 6, 7, 8, 9, 10, 11, 12]) midi_boot ∧
    (midi_run (note_ons [1, 2, 3, 4, 5, 6, 7, 8, 9, 10, 11, 12]
        ++ note_offs [12, 1, 2, 3, 4, 5, 6, 7, 8, 9, 10, 11]) midi_boot).uc_midi_number_active_notes
      = 1 ∧
    (midi_run (note_ons [1, 2, 3, 4, 5, 6, 7, 8, 9, 10, 11, 12]
        ++ note_offs [12, 1, 2, 3, 4, 5, 6, 7, 8, 9, 10, 11]) midi_boot).auc_midi_active_notes 0
      MIDI_NOTE_NUMBER = 12 ∧
    (midi_run (note_ons [1, 2, 3, 4, 5, 6, 7, 8, 9, 10, 11, 12]
        ++ note_offs [12, 1, 2, 3, 4, 5, 6, 7, 8, 9, 10, 11]) midi_boot).g_uc_key_press_flag
      = 1 :=
  ⟨eleven_notes_released midi_boot table_holds_boot rfl,
   twelfth_note_stuck midi_boot table_holds_boot rfl⟩

/-- C31, evaluation of the code: a note number found in none of the searched
entries 0..10 leaves all variables as they are, and so does every note in
1..127 that is not held.  The search does not stop at the count, though, and
the entries never written since reset hold 0: with the ten notes 1..10 held, a
call for note 0, which is not among them, matches entry 10, takes the count to
9, overwrites entry 9 (note 10) with 255 and makes note 9 the sounding one. -/
theorem note_off_matches_stale_entry :
    (∀ (n : Nat) (s : MidiState),
      (∀ i, i < 11 → s.auc_midi_active_notes i MIDI_NOTE_NUMBER ≠ n) →
      midi_remove_active_note n s = s) ∧
    (∀ (n : Nat) (s : MidiState) (L : List Nat), TableHolds s L → 1 ≤ n → n ≤ 127 → n ∉ L →
      midi_remove_active_note n s = s) ∧
    (List.range 12).map
        (fun i => (midi_run (note_ons [1, 2, 3, 4, 5, 6, 7, 8, 9, 10])
          midi_boot).auc_midi_active_notes i MIDI_NOTE_NUMBER)
      = [1, 2, 3, 4, 5, 6, 7, 8, 9, 10, 0, 0] ∧
    (midi_run (note_ons [1, 2, 3, 4, 5, 6, 7, 8, 9, 10]) midi_boot).uc_midi_number_active_notes
      = 10 ∧
    (midi_run (note_ons [1, 2, 3, 4, 5, 6, 7, 8, 9, 10]) midi_boot).auc_midi_note_index_osc1
      = 10 ∧
    (midi_remove_active_note 0
      (midi_run (note_ons [1, 2, 3, 4, 5, 6, 7, 8, 9, 10])
        midi_boot)).uc_midi_number_active_notes = 9 ∧
    (List.range 12).map
        (fun i => (midi_remove_active_note 0
          (midi_run (note_ons [1, 2, 3, 4, 5, 6, 7, 8, 9, 10])
            midi_boot)).auc_midi_active_notes i MIDI_NOTE_NUMBER)
      = [1, 2, 3, 4, 5, 6, 7, 8, 9, 255, 255, 0] ∧
    (midi_remove_active_note 0
      (midi_run (note_ons [1, 2, 3, 4, 5, 6, 7, 8, 9, 10])
        midi_boot)).auc_midi_note_index_osc1 = 9 := by
  refine ⟨midi_remove_absent, ?_, by decide, by decide, by decide, by decide, by decide,
    by decide⟩
  intro n s L hT h1 h2 hn
  exact midi_remove_unheld n s L hT ⟨h1, h2⟩ (fun h => hn (List.mem_of_mem_take h))

/-! ### Incoming FIFO (C32) -/

theorem fifo_contents_length (s : FifoState) :
    (fifo_contents s).length = s.g_uc_midi_messages_in_incoming_fifo := by
  unfold fifo_contents
  rw [List.length_map, List.length_range]

theorem put_full (m : MIDI_MESSAGE) (s : FifoState)
    (h : s.g_uc_midi_messages_in_incoming_fifo = 12) :
    put_midi_message_in_incoming_fifo m s = s := by
  unfold put_midi_message_in_incoming_fifo MIDI_MESSAGE_INCOMING_FIFO_SIZE
  rw [if_neg (by omega)]

theorem get_empty (mm : MIDI_MESSAGE) (s : FifoState)
    (h : s.g_uc_midi_messages_in_incoming_fifo = 0) :
    get_midi_message_from_incoming_fifo mm s = (s, mm) := by
  unfold get_midi_message_from_incoming_fifo
  rw [if_neg (by omega)]

theorem put_sim (m : MIDI_MESSAGE) (s : FifoState) (hI : FifoInv s) :
    FifoInv (put_midi_message_in_incoming_fifo m s) ∧
    fifo_contents (put_midi_message_in_incoming_fifo m s)
      = (if (fifo_contents s).length < 12 then fifo_contents s ++ [m] else fifo_contents s) := by
  obtain ⟨h1, h2, h3⟩ := hI
  rw [fifo_contents_length]
  by_cases hc : s.g_uc_midi_messages_in_incoming_fifo < 12
  · rw [if_pos hc]
    have hu : u8 (s.g_uc_midi_messages_in_incoming_fifo + 1)
        = s.g_uc_midi_messages_in_incoming_fifo + 1 := by unfold u8; omega
    have hw : (if u8 (s.uc_midi_incoming_fifo_write_pointer + 1) ≥ MIDI_MESSAGE_INCOMING_FIFO_SIZE
        then 0 else u8 (s.uc_midi_incoming_fifo_write_pointer + 1))
        = (s.uc_midi_incoming_fifo_read_pointer + (s.g_uc_midi_messages_in_incoming_fifo + 1)) % 12 := by
      unfold u8 MIDI_MESSAGE_INCOMING_FIFO_SIZE
      split_ifs <;> omega
    unfold put_midi_message_in_incoming_fifo
    rw [if_pos (by unfold MIDI_MESSAGE_INCOMING_FIFO_SIZE; exact hc)]
    simp only [hu, hw]
    refine ⟨⟨h1, by show s.g_uc_midi_messages_in_incoming_fifo + 1 ≤ 12; omega, rfl⟩, ?_⟩
    unfold fifo_contents
    simp only []
    rw [List.range_succ, List.map_append, List.map_singleton]
    congr 1
    · apply List.map_congr_left
      intro i hi
      rw [List.mem_range] at hi
      rw [if_neg]
      omega
    · rw [if_pos h3.symm]
  · rw [if_neg hc]
    rw [put_full m s (by omega)]
    exact ⟨⟨h1, h2, h3⟩, rfl⟩

theorem get_sim (mm : MIDI_MESSAGE) (s : FifoState) (hI : FifoInv s) :
    FifoInv (get_midi_message_from_incoming_fifo mm s).1 ∧
    (fifo_contents s = [] → get_midi_message_from_incoming_fifo mm s = (s, mm)) ∧
    (∀ m q, fifo_contents s = m :: q →
      fifo_contents (get_midi_message_from_incoming_fifo mm s).1 = q ∧
      (get_midi_message_from_incoming_fifo mm s).2 = m) := by
  obtain ⟨h1, h2, h3⟩ := hI
  by_cases hc : s.g_uc_midi_messages_in_incoming_fifo = 0
  · rw [get_empty mm s hc]
    refine ⟨⟨h1, h2, h3⟩, fun _ => rfl, ?_⟩
    intro m q hq
    have := fifo_contents_length s
    rw [hq, hc] at this
    exact absurd this (by simp)
  · obtain ⟨k, hk⟩ : ∃ k, s.g_uc_midi_messages_in_incoming_fifo = k + 1 :=
      ⟨s.g_uc_midi_messages_in_incoming_fifo - 1, by omega⟩
    have hu : u8 (s.g_uc_midi_messages_in_incoming_fifo + 255) = k := by unfold u8; omega
    have hr : (if u8 (s.uc_midi_incoming_fifo_read_pointer + 1) ≥ MIDI_MESSAGE_INCOMING_FIFO_SIZE
        then 0 else u8 (s.uc_midi_incoming_fifo_read_pointer + 1))
        = (s.uc_midi_incoming_fifo_read_pointer + 1) % 12 := by
      unfold u8 MIDI_MESSAGE_INCOMING_FIFO_SIZE
      split_ifs <;> omega
    have hcont : fifo_contents s
        = s.g_midi_message_incoming_fifo s.uc_midi_incoming_fifo_read_pointer ::
          (List.range k).map (fun i => s.g_midi_message_incoming_fifo
            (((s.uc_midi_incoming_fifo_read_pointer + 1) % 12 + i) % 12)) := by
      unfold fifo_contents
      rw [hk, List.range_succ_eq_map, List.map_cons, List.map_map]
      congr 1
      · rw [Nat.add_zero, Nat.mod_eq_of_lt h1]
      · apply List.map_congr_left
        intro i _
        show s.g_midi_message_incoming_fifo ((s.uc_midi_incoming_fifo_read_pointer + (i + 1)) % 12)
          = s.g_midi_message_incoming_fifo
              (((s.uc_midi_incoming_fifo_read_pointer + 1) % 12 + i) % 12)
        congr 1
        omega
    unfold get_midi_message_from_incoming_fifo
    rw [if_pos (by omega)]
    simp only [hu, hr]
    refine ⟨⟨Nat.mod_lt _ (by decide), by show k ≤ 12; omega, ?_⟩, ?_, ?_⟩
    · show s.uc_midi_incoming_fifo_write_pointer
        = ((s.uc_midi_incoming_fifo_read_pointer + 1) % 12 + k) % 12
      rw [h3]; omega
    · intro hnil
      rw [hcont] at hnil
      exact absurd hnil (by simp)
    · intro m q hq
      rw [hcont] at hq
      obtain ⟨e1, e2⟩ := List.cons.inj hq
      exact ⟨e2, e1⟩

/-- The FIFO and the queue hold the same messages, and the caller's variable
and the record of the gets agree. -/
theorem fifo_step_sim (x : FifoState × MIDI_MESSAGE × List MIDI_MESSAGE)
    (y : List MIDI_MESSAGE × MIDI_MESSAGE × List MIDI_MESSAGE) (op : FifoOp)
    (hI : FifoInv x.1) (hc : fifo_contents x.1 = y.1) (hv : x.2 = y.2) :
    FifoInv (fifo_step x op).1 ∧ fifo_contents (fifo_step x op).1 = (queue_step y op).1 ∧
    (fifo_step x op).2 = (queue_step y op).2 := by
  cases op with
  | put m =>
    obtain ⟨p1, p2⟩ := put_sim m x.1 hI
    refine ⟨p1, ?_, ?_⟩
    · show fifo_contents (put_midi_message_in_incoming_fifo m x.1)
        = (if y.1.length < 12 then y.1 ++ [m] else y.1)
      rw [p2, hc]
    · show (x.2.1, x.2.2) = (y.2.1, y.2.2)
      rw [hv]
  | get =>
    obtain ⟨g1, g2, g3⟩ := get_sim x.2.1 x.1 hI
    have hv1 : x.2.1 = y.2.1 := by rw [hv]
    have hv2 : x.2.2 = y.2.2 := by rw [hv]
    refine ⟨g1, ?_⟩
    cases hy : y.1 with
    | nil =>
      rw [hy] at hc
      have hg := g2 hc
      have q0 : queue_step y FifoOp.get = ([], y.2.1, y.2.2 ++ [y.2.1]) := by
        unfold queue_step
        simp only [hy]
      have f0 : fifo_step x FifoOp.get = (x.1, x.2.1, x.2.2 ++ [x.2.1]) := by
        unfold fifo_step
        simp only [hg]
      rw [q0, f0]
      exact ⟨hc, by rw [hv1, hv2]⟩
    | cons m q =>
      rw [hy] at hc
      obtain ⟨k1, k2⟩ := g3 m q hc
      have q0 : queue_step y FifoOp.get = (q, m, y.2.2 ++ [m]) := by
        unfold queue_step
        simp only [hy]
      have f0 : fifo_step x FifoOp.get
          = ((get_midi_message_from_incoming_fifo x.2.1 x.1).1, m, x.2.2 ++ [m]) := by
        unfold fifo_step
        simp only [k2]
      rw [q0, f0]
      exact ⟨k1, by rw [hv2]⟩

theorem fifo_run_sim (ops : List FifoOp) :
    ∀ (x : FifoState × MIDI_MESSAGE × List MIDI_MESSAGE)
      (y : List MIDI_MESSAGE × MIDI_MESSAGE × List MIDI_MESSAGE),
      FifoInv x.1 → fifo_contents x.1 = y.1 → x.2 = y.2 →
      FifoInv (ops.foldl fifo_step x).1 ∧
      fifo_contents (ops.foldl fifo_step x).1 = (ops.foldl queue_step y).1 ∧
      (ops.foldl fifo_step x).2 = (ops.foldl queue_step y).2 := by
  induction ops with
  | nil => intro x y hI hc hv; exact ⟨hI, hc, hv⟩
  | cons op ops ih =>
    intro x y hI hc hv
    obtain ⟨s1, s2, s3⟩ := fifo_step_sim x y op hI hc hv
    rw [List.foldl_cons, List.foldl_cons]
    exact ih _ _ s1 s2 s3

/-- C32: started by `init_midi_incoming_fifo()`, after any sequence of puts and
gets the FIFO holds the messages a queue of capacity 12 holds, in the same
order (oldest at the read pointer), each get has delivered what the queue
delivers, and the message count is the number of queued messages, at most 12.
A put on a full FIFO and a get on an empty one change nothing, the get leaving
the caller's message as it was. -/
theorem incoming_fifo_is_bounded_queue :
    (∀ (ops : List FifoOp) (s0 : FifoState) (mm0 : MIDI_MESSAGE),
      fifo_contents (ops.foldl fifo_step (init_midi_incoming_fifo s0, mm0, [])).1
        = (ops.foldl queue_step ([], mm0, [])).1 ∧
      (ops.foldl fifo_step (init_midi_incoming_fifo s0, mm0, [])).2
        = (ops.foldl queue_step ([], mm0, [])).2 ∧
      (ops.foldl fifo_step
          (init_midi_incoming_fifo s0, mm0, [])).1.g_uc_midi_messages_in_incoming_fifo
        = (ops.foldl queue_step ([], mm0, [])).1.length ∧
      (ops.foldl queue_step ([], mm0, [])).1.length ≤ 12) ∧
    (∀ (m : MIDI_MESSAGE) (s : FifoState), s.g_uc_midi_messages_in_incoming_fifo = 12 →
      put_midi_message_in_incoming_fifo m s = s) ∧
    (∀ (mm : MIDI_MESSAGE) (s : FifoState), s.g_uc_midi_messages_in_incoming_fifo = 0 →
      get_midi_message_from_incoming_fifo mm s = (s, mm)) := by
  refine ⟨?_, put_full, get_empty⟩
  intro ops s0 mm0
  obtain ⟨r1, r2, r3⟩ := fifo_run_sim ops (init_midi_incoming_fifo s0, mm0, []) ([], mm0, [])
    ⟨by show 0 < 12; omega, by show 0 ≤ 12; omega, rfl⟩ rfl rfl
  refine ⟨r2, r3, ?_, ?_⟩
  · rw [← r2, fifo_contents_length]
  · rw [← r2, fifo_contents_length]
    exact r1.2.1

end Sprockit
